import Mathlib

/-!
# Buffer-layout calculators of the Rockchip DRM gralloc (bifrost)

A shallow embedding of the stride/size calculators of `gralloc_drm_rockchip.c`,
of `drm_gem_rockchip_alloc` and `drm_gem_rockchip_free`, of the handle
functions of `gralloc_drm_handle.h`, of `mali_gralloc_select_format` and of
`GrallocMapper::isSupported` and `GrallocMapper::validateBufferSize`, followed
by the properties proved about them.

Modelling conventions

* A C `int` is an `Int`, and every calculator comes twice.  `get_..._stride_and_size`
  uses the exact integer `+`, `-`, `*`: it describes the executions in which every
  intermediate value fits an `int` (the C standard leaves signed overflow
  undefined).  `get_..._stride_and_size_int32` reduces the result of every operation
  modulo 2^32 into the range of a 32-bit two's-complement `int` (`wrap32`), the value
  the machine arithmetic produces for every input.  A property of a stored value
  that is claimed without a no-overflow proviso is stated for the `_int32`
  function; for widths and heights from 0 to 16384 the two functions agree.  `/`
  and `%` are the truncating `Int.tdiv` and
  `Int.tmod`; `&` and `~` act on the two's-complement representation (`int_and`,
  `~~~`).
* An out-parameter (`int*`, `size_t*`) is an `Option Int`: `none` is the NULL
  pointer, `some v` a cell that currently holds `v`.  A calculator receives the
  cells and returns them updated, so "writes nothing" is "returns them as they
  were".  A `size_t` cell holds the value of the `int` expression assigned to it
  (the conversion keeps every non-negative value).  The `int` field `handle->size`
  holds the `size_t` local converted to a 32-bit `int`.
* Preprocessor symbols and constants that come from headers outside this
  repository are parameters.
* A function that writes through a handle pointer receives the object behind
  the pointer (`none` for NULL) and returns it updated.  Calls into other
  modules (libdrm, the buffer-object library, the attribute region, `calloc`,
  the mutex) are recorded in a list in the order they are made; what they
  return is a parameter (`AllocEnv`).  Log output is left out.
* `gralloc_drm_handle` and `gralloc_drm_unlock_handle` describe one call made while
  the static `handle_mutex` is free.  `gralloc_drm_handle_with_mutex` and
  `gralloc_drm_unlock_handle_with_mutex` carry the state of the mutex from call to
  call: a call that has to lock a held mutex does not return.
-/

namespace Gralloc

/-! ## Integer operations of C -/

/-- Bitwise AND of two integers in two's complement (the C operator `&` on `int`): a
negative number `-(n+1)` has the bits of `n` inverted, so `m & -(n+1)` keeps the bits of
`m` that are clear in `n`, written `m ^^^ (m &&& n)`. -/
def int_and : Int → Int → Int
  | Int.ofNat m, Int.ofNat n => Int.ofNat (m &&& n)
  | Int.ofNat m, Int.negSucc n => Int.ofNat (m ^^^ (m &&& n))
  | Int.negSucc m, Int.ofNat n => Int.ofNat (n ^^^ (n &&& m))
  | Int.negSucc m, Int.negSucc n => Int.negSucc (m ||| n)

/-- `#define GRALLOC_ALIGN( value, base ) (((value) + ((base) - 1)) & ~((base) - 1))` -/
def GRALLOC_ALIGN (value base : Int) : Int :=
  int_and (value + (base - 1)) (~~~ (base - 1))

/-- The value a 32-bit two's complement `int` holds for the exact result `x` of an
operation: `x` reduced modulo 2^32 into the range -2^31 .. 2^31 - 1. -/
def wrap32 (x : Int) : Int :=
  (x + 2147483648) % 4294967296 - 2147483648

/-- `#define AFBC_PIXELS_PER_BLOCK 16` -/
def AFBC_PIXELS_PER_BLOCK : Int := 16

/-- `#define AFBC_BODY_BUFFER_BYTE_ALIGNMENT 1024` -/
def AFBC_BODY_BUFFER_BYTE_ALIGNMENT : Int := 1024

/-- `#define AFBC_HEADER_BUFFER_BYTES_PER_BLOCKENTRY 16` -/
def AFBC_HEADER_BUFFER_BYTES_PER_BLOCKENTRY : Int := 16

/-- `#define AFBC_WIDEBLK_WIDTH_ALIGN 32` -/
def AFBC_WIDEBLK_WIDTH_ALIGN : Int := 32

/-- `#define YUV_MALI_PLANE_ALIGN 128` -/
def YUV_MALI_PLANE_ALIGN : Int := 128

/-- `#define YUV_ANDROID_PLANE_ALIGN 16` -/
def YUV_ANDROID_PLANE_ALIGN : Int := 16

/-- `typedef enum AllocType`: the type of allocation. -/
inductive AllocType where
  | UNCOMPRESSED
  | AFBC
  | AFBC_WIDEBLK
  | AFBC_PADDED
  deriving DecidableEq, Repr

/-! ## Out-parameters -/

/-- The statement `if (p != NULL) { *p = v; }` on the cell `p`. -/
def store (p : Option Int) (v : Int) : Option Int :=
  p.map (fun _ => v)

/-- The three out-parameters `pixel_stride`, `byte_stride` and `size` shared by every
calculator. -/
structure Outs where
  pixel_stride : Option Int
  byte_stride : Option Int
  size : Option Int
  deriving DecidableEq, Repr

/-- What a `bool`-returning calculator leaves behind: its return value and the cells. -/
structure Ret where
  ret : Bool
  outs : Outs
  deriving DecidableEq, Repr

/-- What a calculator that also receives `int *internalHeight` leaves behind; the pointer
is dereferenced without a NULL test, so it is taken as the value it points to. -/
structure RetIH where
  ret : Bool
  outs : Outs
  internalHeight : Int
  deriving DecidableEq, Repr

/-! ## The calculators of `gralloc_drm_rockchip.c` -/

/-- `get_rgb_stride_and_size` (lines 116-169). -/
def get_rgb_stride_and_size (width height pixel_size : Int) (o : Outs) (type : AllocType) :
    Outs :=
  let stride := width * pixel_size
  let stride := GRALLOC_ALIGN stride 64
  let o := { o with size := store o.size (stride * height) }
  let o := { o with byte_stride := store o.byte_stride stride }
  let o := { o with pixel_stride := store o.pixel_stride (Int.tdiv stride pixel_size) }
  if type ≠ AllocType.UNCOMPRESSED then
    let h_aligned := GRALLOC_ALIGN height AFBC_PIXELS_PER_BLOCK
    let w_aligned :=
      if type = AllocType.AFBC_PADDED then GRALLOC_ALIGN width 64
      else if type = AllocType.AFBC_WIDEBLK then GRALLOC_ALIGN width AFBC_WIDEBLK_WIDTH_ALIGN
      else GRALLOC_ALIGN width AFBC_PIXELS_PER_BLOCK
    let nblocks :=
      Int.tdiv (Int.tdiv w_aligned AFBC_PIXELS_PER_BLOCK * h_aligned) AFBC_PIXELS_PER_BLOCK
    let header_bytes := GRALLOC_ALIGN (nblocks * AFBC_HEADER_BUFFER_BYTES_PER_BLOCKENTRY)
      AFBC_BODY_BUFFER_BYTE_ALIGNMENT
    { o with size := store o.size (w_aligned * h_aligned * pixel_size + header_bytes) }
  else o

/-- `get_afbc_yuv420_8bit_stride_and_size` (lines 184-244).  The first argument is the
preprocessor symbol `AFBC_YUV420_EXTRA_MB_ROW_NEEDED` tested by `#if` at line 211, which
no file of the repository defines. -/
def get_afbc_yuv420_8bit_stride_and_size (AFBC_YUV420_EXTRA_MB_ROW_NEEDED : Bool)
    (width height : Int) (o : Outs) (type : AllocType) (internalHeight : Int) : RetIH :=
  if type = AllocType.UNCOMPRESSED then ⟨false, o, internalHeight⟩
  else if type = AllocType.AFBC_PADDED then ⟨false, o, internalHeight⟩
  else
    let width :=
      if type = AllocType.AFBC_WIDEBLK then GRALLOC_ALIGN width AFBC_WIDEBLK_WIDTH_ALIGN
      else GRALLOC_ALIGN width AFBC_PIXELS_PER_BLOCK
    let internalHeight :=
      if AFBC_YUV420_EXTRA_MB_ROW_NEEDED then internalHeight + AFBC_PIXELS_PER_BLOCK
      else internalHeight
    let height := GRALLOC_ALIGN internalHeight AFBC_PIXELS_PER_BLOCK
    let yuv420_afbc_luma_stride := width
    let yuv420_afbc_chroma_stride := GRALLOC_ALIGN (Int.tdiv yuv420_afbc_luma_stride 2) 16
    let nblocks :=
      Int.tdiv (Int.tdiv width AFBC_PIXELS_PER_BLOCK * height) AFBC_PIXELS_PER_BLOCK
    let header_bytes := GRALLOC_ALIGN (nblocks * AFBC_HEADER_BUFFER_BYTES_PER_BLOCKENTRY)
      AFBC_BODY_BUFFER_BYTE_ALIGNMENT
    let body_bytes := (yuv420_afbc_luma_stride + yuv420_afbc_chroma_stride) * height
    let o := { o with size := store o.size (body_bytes + header_bytes) }
    let o := { o with byte_stride := store o.byte_stride yuv420_afbc_luma_stride }
    let o := { o with pixel_stride := store o.pixel_stride yuv420_afbc_luma_stride }
    ⟨true, o, internalHeight⟩

/-- `get_yv12_stride_and_size` (lines 260-296). -/
def get_yv12_stride_and_size (AFBC_YUV420_EXTRA_MB_ROW_NEEDED : Bool)
    (width height : Int) (o : Outs) (type : AllocType) (internalHeight : Int)
    (stride_alignment : Int) : RetIH :=
  if Int.tmod width 2 ≠ 0 ∨ Int.tmod height 2 ≠ 0 then ⟨false, o, internalHeight⟩
  else if type ≠ AllocType.UNCOMPRESSED then
    get_afbc_yuv420_8bit_stride_and_size AFBC_YUV420_EXTRA_MB_ROW_NEEDED
      width height o type internalHeight
  else
    let luma_stride := GRALLOC_ALIGN width stride_alignment
    let chroma_stride := GRALLOC_ALIGN (Int.tdiv luma_stride 2) stride_alignment
    let o := { o with size := store o.size (height * (luma_stride + chroma_stride)) }
    let o := { o with byte_stride := store o.byte_stride luma_stride }
    let o := { o with pixel_stride := store o.pixel_stride luma_stride }
    ⟨true, o, internalHeight⟩

/-- `get_afbc_yuv422_8bit_stride_and_size` (lines 309-356). -/
def get_afbc_yuv422_8bit_stride_and_size (width height : Int) (o : Outs)
    (type : AllocType) : Ret :=
  if type = AllocType.UNCOMPRESSED then ⟨false, o⟩
  else if type = AllocType.AFBC_PADDED then ⟨false, o⟩
  else
    let width :=
      if type = AllocType.AFBC_WIDEBLK then GRALLOC_ALIGN width AFBC_WIDEBLK_WIDTH_ALIGN
      else GRALLOC_ALIGN width AFBC_PIXELS_PER_BLOCK
    let height := GRALLOC_ALIGN height AFBC_PIXELS_PER_BLOCK
    let yuv422_afbc_luma_stride := width
    let nblocks :=
      Int.tdiv (Int.tdiv width AFBC_PIXELS_PER_BLOCK * height) AFBC_PIXELS_PER_BLOCK
    let header_bytes := GRALLOC_ALIGN (nblocks * AFBC_HEADER_BUFFER_BYTES_PER_BLOCKENTRY)
      AFBC_BODY_BUFFER_BYTE_ALIGNMENT
    let o := { o with size := store o.size (yuv422_afbc_luma_stride * height * 2 + header_bytes) }
    let o := { o with byte_stride := store o.byte_stride yuv422_afbc_luma_stride }
    let o := { o with pixel_stride := store o.pixel_stride yuv422_afbc_luma_stride }
    ⟨true, o⟩

/-- `get_yuv_pX10_stride_and_size` (lines 375-411). -/
def get_yuv_pX10_stride_and_size (width height vss : Int) (o : Outs) : Ret :=
  if vss < 1 ∨ vss > 2 then ⟨false, o⟩
  else if int_and width 1 ≠ 0 ∨ (vss = 2 ∧ int_and height 1 ≠ 0) then ⟨false, o⟩
  else
    let luma_pixel_stride := GRALLOC_ALIGN width YUV_MALI_PLANE_ALIGN
    let luma_byte_stride := GRALLOC_ALIGN (width * 2) YUV_MALI_PLANE_ALIGN
    let chroma_size := GRALLOC_ALIGN (width * 2) YUV_MALI_PLANE_ALIGN * Int.tdiv height vss
    let o := { o with size := store o.size (luma_byte_stride * height + chroma_size) }
    let o := { o with byte_stride := store o.byte_stride luma_byte_stride }
    let o := { o with pixel_stride := store o.pixel_stride luma_pixel_stride }
    ⟨true, o⟩

/-- `get_yuv_y210_stride_and_size` (lines 428-457). -/
def get_yuv_y210_stride_and_size (width height : Int) (o : Outs) : Ret :=
  if int_and width 1 ≠ 0 then ⟨false, o⟩
  else
    let y210_pixel_stride := GRALLOC_ALIGN width YUV_MALI_PLANE_ALIGN
    let y210_byte_stride := GRALLOC_ALIGN (width * 4) YUV_MALI_PLANE_ALIGN
    let o := { o with size := store o.size (y210_byte_stride * height) }
    let o := { o with byte_stride := store o.byte_stride y210_byte_stride }
    let o := { o with pixel_stride := store o.pixel_stride y210_pixel_stride }
    ⟨true, o⟩

/-- `get_yuv_y0l2_stride_and_size` (lines 474-502). -/
def get_yuv_y0l2_stride_and_size (width height : Int) (o : Outs) : Ret :=
  if int_and width 3 ≠ 0 then ⟨false, o⟩
  else
    let y0l2_pixel_stride := GRALLOC_ALIGN (width * 4) YUV_MALI_PLANE_ALIGN
    let y0l2_byte_stride := GRALLOC_ALIGN (width * 4) YUV_MALI_PLANE_ALIGN
    let o := { o with size := store o.size (y0l2_byte_stride * Int.tdiv height 2) }
    let o := { o with byte_stride := store o.byte_stride y0l2_byte_stride }
    let o := { o with pixel_stride := store o.pixel_stride y0l2_pixel_stride }
    ⟨true, o⟩

/-- `get_yuv_y410_stride_and_size` (lines 518-541). -/
def get_yuv_y410_stride_and_size (width height : Int) (o : Outs) : Ret :=
  let y410_pixel_stride := GRALLOC_ALIGN width YUV_MALI_PLANE_ALIGN
  let y410_byte_stride := GRALLOC_ALIGN (width * 4) YUV_MALI_PLANE_ALIGN
  let o := { o with size := store o.size (y410_byte_stride * height) }
  let o := { o with byte_stride := store o.byte_stride y410_byte_stride }
  let o := { o with pixel_stride := store o.pixel_stride y410_pixel_stride }
  ⟨true, o⟩

/-- `get_yuv420_10bit_afbc_stride_and_size` (lines 559-611). -/
def get_yuv420_10bit_afbc_stride_and_size (width height : Int) (o : Outs)
    (type : AllocType) : Ret :=
  if int_and width 3 ≠ 0 then ⟨false, o⟩
  else if type = AllocType.UNCOMPRESSED then ⟨false, o⟩
  else if type = AllocType.AFBC_PADDED then ⟨false, o⟩
  else
    let width :=
      if type = AllocType.AFBC_WIDEBLK then GRALLOC_ALIGN width AFBC_WIDEBLK_WIDTH_ALIGN
      else GRALLOC_ALIGN width AFBC_PIXELS_PER_BLOCK
    let height := GRALLOC_ALIGN (Int.tdiv height 2) AFBC_PIXELS_PER_BLOCK
    let yuv420_afbc_pixel_stride := GRALLOC_ALIGN width 16
    let yuv420_afbc_byte_stride := GRALLOC_ALIGN (width * 4) 16
    let nblocks :=
      Int.tdiv (Int.tdiv width AFBC_PIXELS_PER_BLOCK * height) AFBC_PIXELS_PER_BLOCK
    let header_bytes := GRALLOC_ALIGN (nblocks * AFBC_HEADER_BUFFER_BYTES_PER_BLOCKENTRY)
      AFBC_BODY_BUFFER_BYTE_ALIGNMENT
    let o := { o with size := store o.size (yuv420_afbc_byte_stride * height + header_bytes) }
    let o := { o with byte_stride := store o.byte_stride yuv420_afbc_byte_stride }
    let o := { o with pixel_stride := store o.pixel_stride yuv420_afbc_pixel_stride }
    ⟨true, o⟩

/-- `get_yuv422_10bit_afbc_stride_and_size` (lines 629-682). -/
def get_yuv422_10bit_afbc_stride_and_size (width height : Int) (o : Outs)
    (type : AllocType) : Ret :=
  if int_and width 3 ≠ 0 then ⟨false, o⟩
  else if type = AllocType.UNCOMPRESSED then ⟨false, o⟩
  else if type = AllocType.AFBC_PADDED then ⟨false, o⟩
  else
    let width :=
      if type = AllocType.AFBC_WIDEBLK then GRALLOC_ALIGN width AFBC_WIDEBLK_WIDTH_ALIGN
      else GRALLOC_ALIGN width AFBC_PIXELS_PER_BLOCK
    let height := GRALLOC_ALIGN height AFBC_PIXELS_PER_BLOCK
    let yuv422_afbc_pixel_stride := GRALLOC_ALIGN width 16
    let yuv422_afbc_byte_stride := GRALLOC_ALIGN (width * 2) 16
    let nblocks :=
      Int.tdiv (Int.tdiv width AFBC_PIXELS_PER_BLOCK * height) AFBC_PIXELS_PER_BLOCK
    let header_bytes := GRALLOC_ALIGN (nblocks * AFBC_HEADER_BUFFER_BYTES_PER_BLOCKENTRY)
      AFBC_BODY_BUFFER_BYTE_ALIGNMENT
    let o := { o with size := store o.size (yuv422_afbc_byte_stride * height * 2 + header_bytes) }
    let o := { o with byte_stride := store o.byte_stride yuv422_afbc_byte_stride }
    let o := { o with pixel_stride := store o.pixel_stride yuv422_afbc_pixel_stride }
    ⟨true, o⟩

/-! ## The calculator dispatch of `drm_gem_rockchip_alloc` -/

/-- Bitwise OR of two integers in two's complement (the C operator `|` on `int`). -/
def int_or : Int → Int → Int
  | Int.ofNat m, Int.ofNat n => Int.ofNat (m ||| n)
  | Int.ofNat m, Int.negSucc n => Int.negSucc (n ^^^ (n &&& m))
  | Int.negSucc m, Int.ofNat n => Int.negSucc (m ^^^ (m &&& n))
  | Int.negSucc m, Int.negSucc n => Int.negSucc (m &&& n)

/-- The constants and preprocessor symbols that `drm_gem_rockchip_alloc` takes from
headers outside the repository (`system/graphics.h`, `hardware/gralloc.h`,
`format_chooser.h`, `vpu_global.h` and the build flags).  Format codes and format bits are
values of the 64-bit unsigned `internal_format`; usage bits are `int`. -/
structure Platform where
  GRALLOC_ARM_INTFMT_FMT_MASK : Nat
  GRALLOC_ARM_INTFMT_AFBC : Nat
  GRALLOC_ARM_INTFMT_AFBC_SPLITBLK : Nat
  GRALLOC_ARM_INTFMT_AFBC_WIDEBLK : Nat
  GRALLOC_ARM_INTFMT_EXTENDED_YUV : Nat
  GRALLOC_ARM_INTFMT_ARM_AFBC_YUV : Nat
  HAL_PIXEL_FORMAT_RGBA_8888 : Nat
  HAL_PIXEL_FORMAT_RGBX_8888 : Nat
  HAL_PIXEL_FORMAT_BGRA_8888 : Nat
  HAL_PIXEL_FORMAT_sRGB_A_8888 : Nat
  HAL_PIXEL_FORMAT_sRGB_X_8888 : Nat
  HAL_PIXEL_FORMAT_RGB_888 : Nat
  HAL_PIXEL_FORMAT_RGB_565 : Nat
  HAL_PIXEL_FORMAT_RGBA_5551 : Nat
  HAL_PIXEL_FORMAT_RGBA_4444 : Nat
  HAL_PIXEL_FORMAT_YCrCb_420_SP : Nat
  HAL_PIXEL_FORMAT_YCbCr_420_888 : Nat
  HAL_PIXEL_FORMAT_YV12 : Nat
  HAL_PIXEL_FORMAT_YCrCb_NV12 : Nat
  HAL_PIXEL_FORMAT_YCrCb_NV12_10 : Nat
  HAL_PIXEL_FORMAT_YCrCb_NV12_VIDEO : Nat
  GRALLOC_ARM_HAL_FORMAT_INDEXED_Y0L2 : Nat
  GRALLOC_ARM_HAL_FORMAT_INDEXED_P010 : Nat
  GRALLOC_ARM_HAL_FORMAT_INDEXED_P210 : Nat
  GRALLOC_ARM_HAL_FORMAT_INDEXED_Y210 : Nat
  GRALLOC_ARM_HAL_FORMAT_INDEXED_Y410 : Nat
  GRALLOC_ARM_HAL_FORMAT_INDEXED_YUV420_8BIT_AFBC : Nat
  GRALLOC_ARM_HAL_FORMAT_INDEXED_YUV422_8BIT_AFBC : Nat
  GRALLOC_ARM_HAL_FORMAT_INDEXED_YUV420_10BIT_AFBC : Nat
  GRALLOC_ARM_HAL_FORMAT_INDEXED_YUV422_10BIT_AFBC : Nat
  GRALLOC_USAGE_SW_READ_MASK : Int
  GRALLOC_USAGE_SW_WRITE_MASK : Int
  GRALLOC_USAGE_PRIVATE_2 : Int
  PLATFORM_SDK_VERSION : Int
  MALI_USE_YUV_AFBC_WIDEBLK : Int
  AFBC_YUV420_EXTRA_MB_ROW_NEEDED : Bool
  GET_VPU_INTO_FROM_HEAD : Bool
  sizeof_tVPU_FRAME : Int

/-- The case groups of the first `switch` of `drm_gem_rockchip_alloc` (lines 757-825),
each named after its first label. -/
inductive BaseCase where
  | RGBA_8888
  | RGB_888
  | RGB_565
  | YCrCb_420_SP
  | YCrCb_NV12
  | default
  deriving DecidableEq, Repr

/-- The case groups of the second `switch` of `drm_gem_rockchip_alloc` (lines 829-911). -/
inductive IndexedCase where
  | Y0L2
  | P010
  | P210
  | Y210
  | Y410
  | YUV420_8BIT_AFBC
  | YUV422_8BIT_AFBC
  | YUV420_10BIT_AFBC
  | YUV422_10BIT_AFBC
  | default
  deriving DecidableEq, Repr

/-- The label matching of the first `switch`: the case group whose label equals
`internal_format & GRALLOC_ARM_INTFMT_FMT_MASK`.  The sRGB labels exist for SDK versions
19 to 22, the RGBA_5551 and RGBA_4444 labels below version 19. -/
def base_case (p : Platform) (fmt : Nat) : BaseCase :=
  if fmt = p.HAL_PIXEL_FORMAT_RGBA_8888 ∨ fmt = p.HAL_PIXEL_FORMAT_RGBX_8888
      ∨ fmt = p.HAL_PIXEL_FORMAT_BGRA_8888
      ∨ (19 ≤ p.PLATFORM_SDK_VERSION ∧ p.PLATFORM_SDK_VERSION ≤ 22
          ∧ (fmt = p.HAL_PIXEL_FORMAT_sRGB_A_8888 ∨ fmt = p.HAL_PIXEL_FORMAT_sRGB_X_8888))
  then BaseCase.RGBA_8888
  else if fmt = p.HAL_PIXEL_FORMAT_RGB_888 then BaseCase.RGB_888
  else if fmt = p.HAL_PIXEL_FORMAT_RGB_565
      ∨ (p.PLATFORM_SDK_VERSION < 19
          ∧ (fmt = p.HAL_PIXEL_FORMAT_RGBA_5551 ∨ fmt = p.HAL_PIXEL_FORMAT_RGBA_4444))
  then BaseCase.RGB_565
  else if fmt = p.HAL_PIXEL_FORMAT_YCrCb_420_SP ∨ fmt = p.HAL_PIXEL_FORMAT_YCbCr_420_888
      ∨ fmt = p.HAL_PIXEL_FORMAT_YV12
  then BaseCase.YCrCb_420_SP
  else if fmt = p.HAL_PIXEL_FORMAT_YCrCb_NV12 ∨ fmt = p.HAL_PIXEL_FORMAT_YCrCb_NV12_10
      ∨ fmt = p.HAL_PIXEL_FORMAT_YCrCb_NV12_VIDEO
  then BaseCase.YCrCb_NV12
  else BaseCase.default

/-- The label matching of the second `switch`. -/
def indexed_case (p : Platform) (fmt : Nat) : IndexedCase :=
  if fmt = p.GRALLOC_ARM_HAL_FORMAT_INDEXED_Y0L2 then IndexedCase.Y0L2
  else if fmt = p.GRALLOC_ARM_HAL_FORMAT_INDEXED_P010 then IndexedCase.P010
  else if fmt = p.GRALLOC_ARM_HAL_FORMAT_INDEXED_P210 then IndexedCase.P210
  else if fmt = p.GRALLOC_ARM_HAL_FORMAT_INDEXED_Y210 then IndexedCase.Y210
  else if fmt = p.GRALLOC_ARM_HAL_FORMAT_INDEXED_Y410 then IndexedCase.Y410
  else if fmt = p.GRALLOC_ARM_HAL_FORMAT_INDEXED_YUV420_8BIT_AFBC
  then IndexedCase.YUV420_8BIT_AFBC
  else if fmt = p.GRALLOC_ARM_HAL_FORMAT_INDEXED_YUV422_8BIT_AFBC
  then IndexedCase.YUV422_8BIT_AFBC
  else if fmt = p.GRALLOC_ARM_HAL_FORMAT_INDEXED_YUV420_10BIT_AFBC
  then IndexedCase.YUV420_10BIT_AFBC
  else if fmt = p.GRALLOC_ARM_HAL_FORMAT_INDEXED_YUV422_10BIT_AFBC
  then IndexedCase.YUV422_10BIT_AFBC
  else IndexedCase.default

/-- The selection of the allocation type in `drm_gem_rockchip_alloc` (lines 729-753);
`none` is the `return -EINVAL;` of line 744. -/
def drm_gem_rockchip_alloc_type (p : Platform) (internal_format : Nat) (usage : Int) :
    Option AllocType :=
  let alloc_for_arm_afbc_yuv : Bool :=
    internal_format &&& p.GRALLOC_ARM_INTFMT_ARM_AFBC_YUV = p.GRALLOC_ARM_INTFMT_ARM_AFBC_YUV
  if internal_format &&& (p.GRALLOC_ARM_INTFMT_AFBC ||| p.GRALLOC_ARM_INTFMT_AFBC_SPLITBLK
      ||| p.GRALLOC_ARM_INTFMT_AFBC_WIDEBLK) ≠ 0 then
    if int_and usage p.GRALLOC_USAGE_PRIVATE_2 ≠ 0 then some AllocType.AFBC_PADDED
    else if internal_format &&& p.GRALLOC_ARM_INTFMT_AFBC_WIDEBLK ≠ 0 then
      if 1 ≠ p.MALI_USE_YUV_AFBC_WIDEBLK ∧ alloc_for_arm_afbc_yuv = true then none
      else some AllocType.AFBC_WIDEBLK
    else some AllocType.AFBC
  else some AllocType.UNCOMPRESSED

/-- How the layout part of `drm_gem_rockchip_alloc` (lines 721-912) ends: with one of
the two early returns, or with the locals filled in for the rest of the function. -/
inductive LayoutStage where
  | return_NULL
  | return_minus_EINVAL
  | computed (type : AllocType) (locals : Outs) (internalWidth internalHeight : Int)
  deriving DecidableEq, Repr

/-- Continue with the locals a `bool` calculator filled in, or `return NULL;`. -/
def LayoutStage.of_ret (type : AllocType) (internalWidth internalHeight : Int) (r : Ret) :
    LayoutStage :=
  if r.ret = false then LayoutStage.return_NULL
  else LayoutStage.computed type r.outs internalWidth internalHeight

/-- The layout part of `drm_gem_rockchip_alloc` (lines 721-912): type selection and the
two `switch` statements that call the calculators.  `internal_format` is the value
returned by `gralloc_select_format`; `locals` are the variables `pixel_stride`,
`byte_stride` and `size`, not initialised by the source, so their cells come with
whatever content they have. -/
def drm_gem_rockchip_alloc_layout (p : Platform) (internal_format : Nat)
    (usage w h : Int) (locals : Outs) : LayoutStage :=
  let internalWidth := w
  let internalHeight := h
  let alloc_for_extended_yuv : Bool :=
    internal_format &&& p.GRALLOC_ARM_INTFMT_EXTENDED_YUV = p.GRALLOC_ARM_INTFMT_EXTENDED_YUV
  let alloc_for_arm_afbc_yuv : Bool :=
    internal_format &&& p.GRALLOC_ARM_INTFMT_ARM_AFBC_YUV = p.GRALLOC_ARM_INTFMT_ARM_AFBC_YUV
  match drm_gem_rockchip_alloc_type p internal_format usage with
  | none => LayoutStage.return_minus_EINVAL
  | some type =>
    if alloc_for_extended_yuv = false ∧ alloc_for_arm_afbc_yuv = false then
      match base_case p (internal_format &&& p.GRALLOC_ARM_INTFMT_FMT_MASK) with
      | BaseCase.RGBA_8888 =>
        LayoutStage.computed type (get_rgb_stride_and_size w h 4 locals type)
          internalWidth internalHeight
      | BaseCase.RGB_888 =>
        LayoutStage.computed type (get_rgb_stride_and_size w h 3 locals type)
          internalWidth internalHeight
      | BaseCase.RGB_565 =>
        LayoutStage.computed type (get_rgb_stride_and_size w h 2 locals type)
          internalWidth internalHeight
      | BaseCase.YCrCb_420_SP =>
        let yv12_align :=
          if int_and usage (int_or p.GRALLOC_USAGE_SW_READ_MASK p.GRALLOC_USAGE_SW_WRITE_MASK)
            ≠ 0 then YUV_ANDROID_PLANE_ALIGN
          else YUV_MALI_PLANE_ALIGN
        let r := get_yv12_stride_and_size p.AFBC_YUV420_EXTRA_MB_ROW_NEEDED w h locals type
          internalHeight yv12_align
        if r.ret = false then LayoutStage.return_minus_EINVAL
        else LayoutStage.computed type r.outs internalWidth r.internalHeight
      | BaseCase.YCrCb_NV12 =>
        let r := get_yv12_stride_and_size p.AFBC_YUV420_EXTRA_MB_ROW_NEEDED w h locals type
          internalHeight YUV_MALI_PLANE_ALIGN
        if r.ret = false then LayoutStage.return_NULL
        else
          let o := r.outs
          let o := { o with size := o.size.map (fun size => size + Int.tdiv (w * h) 2) }
          let o :=
            if p.GET_VPU_INTO_FROM_HEAD = false then
              { o with size := o.size.map (fun size => size + p.sizeof_tVPU_FRAME) }
            else o
          LayoutStage.computed type o internalWidth r.internalHeight
      | BaseCase.default => LayoutStage.return_NULL
    else
      match indexed_case p (internal_format &&& p.GRALLOC_ARM_INTFMT_FMT_MASK) with
      | IndexedCase.Y0L2 =>
        LayoutStage.of_ret type internalWidth internalHeight
          (get_yuv_y0l2_stride_and_size w h locals)
      | IndexedCase.P010 =>
        LayoutStage.of_ret type internalWidth internalHeight
          (get_yuv_pX10_stride_and_size w h 2 locals)
      | IndexedCase.P210 =>
        LayoutStage.of_ret type internalWidth internalHeight
          (get_yuv_pX10_stride_and_size w h 1 locals)
      | IndexedCase.Y210 =>
        LayoutStage.of_ret type internalWidth internalHeight
          (get_yuv_y210_stride_and_size w h locals)
      | IndexedCase.Y410 =>
        LayoutStage.of_ret type internalWidth internalHeight
          (get_yuv_y410_stride_and_size w h locals)
      | IndexedCase.YUV420_8BIT_AFBC =>
        let r := get_afbc_yuv420_8bit_stride_and_size p.AFBC_YUV420_EXTRA_MB_ROW_NEEDED w h
          locals type internalHeight
        if r.ret = false then LayoutStage.return_NULL
        else LayoutStage.computed type r.outs internalWidth r.internalHeight
      | IndexedCase.YUV422_8BIT_AFBC =>
        LayoutStage.of_ret type internalWidth internalHeight
          (get_afbc_yuv422_8bit_stride_and_size w h locals type)
      | IndexedCase.YUV420_10BIT_AFBC =>
        LayoutStage.of_ret type internalWidth internalHeight
          (get_yuv420_10bit_afbc_stride_and_size w h locals type)
      | IndexedCase.YUV422_10BIT_AFBC =>
        LayoutStage.of_ret type internalWidth internalHeight
          (get_yuv422_10bit_afbc_stride_and_size w h locals type)
      | IndexedCase.default => LayoutStage.return_NULL

/-- Whether the layout part ended with an early return, so that no layout exists. -/
def LayoutStage.failed : LayoutStage → Bool
  | LayoutStage.computed _ _ _ _ => false
  | _ => true

/-- A choice of the header constants on which the dispatch can be evaluated: the format
codes of `system/graphics.h` and of the Rockchip NV12 extensions, one bit above bit 31 for
each format flag, consecutive codes for the indexed formats, the usage bits of
`hardware/gralloc.h`, SDK version 29, and a nominal 64 bytes for `struct tVPU_FRAME`. -/
def sample_platform : Platform where
  GRALLOC_ARM_INTFMT_FMT_MASK := 0xffffffff
  GRALLOC_ARM_INTFMT_AFBC := 0x100000000
  GRALLOC_ARM_INTFMT_AFBC_SPLITBLK := 0x200000000
  GRALLOC_ARM_INTFMT_AFBC_WIDEBLK := 0x400000000
  GRALLOC_ARM_INTFMT_EXTENDED_YUV := 0x800000000
  GRALLOC_ARM_INTFMT_ARM_AFBC_YUV := 0x1000000000
  HAL_PIXEL_FORMAT_RGBA_8888 := 1
  HAL_PIXEL_FORMAT_RGBX_8888 := 2
  HAL_PIXEL_FORMAT_BGRA_8888 := 5
  HAL_PIXEL_FORMAT_sRGB_A_8888 := 0xC
  HAL_PIXEL_FORMAT_sRGB_X_8888 := 0xD
  HAL_PIXEL_FORMAT_RGB_888 := 3
  HAL_PIXEL_FORMAT_RGB_565 := 4
  HAL_PIXEL_FORMAT_RGBA_5551 := 6
  HAL_PIXEL_FORMAT_RGBA_4444 := 7
  HAL_PIXEL_FORMAT_YCrCb_420_SP := 0x11
  HAL_PIXEL_FORMAT_YCbCr_420_888 := 0x23
  HAL_PIXEL_FORMAT_YV12 := 0x32315659
  HAL_PIXEL_FORMAT_YCrCb_NV12 := 0x15
  HAL_PIXEL_FORMAT_YCrCb_NV12_10 := 0x17
  HAL_PIXEL_FORMAT_YCrCb_NV12_VIDEO := 0x16
  GRALLOC_ARM_HAL_FORMAT_INDEXED_Y0L2 := 0x100
  GRALLOC_ARM_HAL_FORMAT_INDEXED_P010 := 0x101
  GRALLOC_ARM_HAL_FORMAT_INDEXED_P210 := 0x102
  GRALLOC_ARM_HAL_FORMAT_INDEXED_Y210 := 0x103
  GRALLOC_ARM_HAL_FORMAT_INDEXED_Y410 := 0x104
  GRALLOC_ARM_HAL_FORMAT_INDEXED_YUV420_8BIT_AFBC := 0x105
  GRALLOC_ARM_HAL_FORMAT_INDEXED_YUV422_8BIT_AFBC := 0x106
  GRALLOC_ARM_HAL_FORMAT_INDEXED_YUV420_10BIT_AFBC := 0x107
  GRALLOC_ARM_HAL_FORMAT_INDEXED_YUV422_10BIT_AFBC := 0x108
  GRALLOC_USAGE_SW_READ_MASK := 0xF
  GRALLOC_USAGE_SW_WRITE_MASK := 0xF0
  GRALLOC_USAGE_PRIVATE_2 := 0x40000000
  PLATFORM_SDK_VERSION := 29
  MALI_USE_YUV_AFBC_WIDEBLK := 0
  AFBC_YUV420_EXTRA_MB_ROW_NEEDED := false
  GET_VPU_INTO_FROM_HEAD := false
  sizeof_tVPU_FRAME := 64

/-! ## The buffer handle of `gralloc_drm_handle.h` -/

/-- The error number `EINVAL` of `<errno.h>`: 22 on Linux and bionic. -/
def EINVAL : Int := 22

/-- The header of a native handle, `native_handle_t` of `cutils/native_handle.h`, without
its trailing `data[0]`. -/
structure native_handle_t where
  version : Int
  numFds : Int
  numInts : Int
  deriving DecidableEq, Repr

/-- `struct gralloc_drm_handle_t` (lines 85-144) as compiled with `RK_DRM_GRALLOC` and
`MALI_AFBC_GRALLOC == 1`, the only configuration the header accepts.  The unions
`offset`/`padding4` and `attr_base`/`padding3` are one field each; pointers and 64-bit
unsigned fields are natural numbers. -/
structure gralloc_drm_handle_t where
  base : native_handle_t
  prime_fd : Int
  share_attr_fd : Int
  dpy_type : Int
  internal_format : Nat
  internalWidth : Int
  internalHeight : Int
  byte_stride : Int
  size : Int
  ref : Int
  pixel_stride : Int
  offset : Int
  consumer_usage : Nat
  producer_usage : Nat
  attr_base : Nat
  yuv_info : Int
  magic : Int
  width : Int
  height : Int
  format : Int
  usage : Int
  name : Int
  stride : Int
  data : Nat
  unknown : Nat
  data_owner : Int
  deriving DecidableEq

/-- `#define GRALLOC_DRM_HANDLE_MAGIC 0x12345678` -/
def GRALLOC_DRM_HANDLE_MAGIC : Int := 0x12345678

/-- `#define GRALLOC_DRM_HANDLE_NUM_FDS 2` (the branch `MALI_AFBC_GRALLOC == 1`). -/
def GRALLOC_DRM_HANDLE_NUM_FDS : Int := 2

/-- The two values that `sizeof` gives the header: `sizeof(native_handle_t)` and
`GRALLOC_DRM_HANDLE_NUM_INTS`, the number of `int`s of the handle after its header and
its file descriptors.  They depend on the ABI and on `native_handle.h`. -/
structure HandleABI where
  sizeof_native_handle_t : Nat
  GRALLOC_DRM_HANDLE_NUM_INTS : Nat
  deriving DecidableEq, Repr

/-- The calls that the modelled functions make to other modules, recorded in order. -/
inductive Call where
  | pthread_mutex_lock
  | pthread_mutex_unlock
  | calloc
  | free
  | drmPrimeFDToHandle (prime_fd : Int)
  | rockchip_bo_from_handle (gem_handle : Nat) (size : Int)
  | rockchip_bo_create (size : Int)
  | rockchip_bo_handle (bo : Nat)
  | drmPrimeHandleToFD (gem_handle : Nat)
  | drmIoctl_GEM_CLOSE (gem_handle : Nat)
  | gralloc_buffer_attr_allocate
  | gralloc_buffer_attr_free
  | close (fd : Int)
  | rockchip_bo_destroy (bo : Nat)
  deriving DecidableEq, Repr

/-- The calls that release a resource of a buffer. -/
def Call.is_release : Call → Bool
  | Call.free => true
  | Call.drmIoctl_GEM_CLOSE _ => true
  | Call.gralloc_buffer_attr_free => true
  | Call.close _ => true
  | Call.rockchip_bo_destroy _ => true
  | _ => false

/-- The calls that ask the backing allocator for memory. -/
def Call.is_backing_request : Call → Bool
  | Call.rockchip_bo_from_handle _ _ => true
  | Call.rockchip_bo_create _ => true
  | _ => false

/-- What `gralloc_drm_handle(_handle)` leaves behind: whether it returns the pointer
`_handle` (the only non-NULL pointer it can return) or NULL, the object behind `_handle`
after the call (`none` when `_handle` is NULL), and the calls it made. -/
structure HandleResult where
  returns_handle : Bool
  handle : Option gralloc_drm_handle_t
  calls : List Call
  deriving DecidableEq

/-- `gralloc_drm_handle` (lines 161-185).  The argument is the object behind `_handle`,
`none` for a NULL pointer.  Taking the mutex is recorded as a call: this is a call made
while `handle_mutex` is free; `gralloc_drm_handle_with_mutex` covers a call made while it
is held. -/
def gralloc_drm_handle (abi : HandleABI) (_handle : Option gralloc_drm_handle_t) :
    HandleResult :=
  match _handle with
  | none => ⟨false, none, []⟩
  | some handle =>
    let handle := { handle with ref := handle.ref + 1 }
    if handle.base.version ≠ (abi.sizeof_native_handle_t : Int)
        ∨ handle.base.numInts ≠ (abi.GRALLOC_DRM_HANDLE_NUM_INTS : Int)
        ∨ handle.base.numFds ≠ GRALLOC_DRM_HANDLE_NUM_FDS
        ∨ handle.magic ≠ GRALLOC_DRM_HANDLE_MAGIC then
      ⟨false, some handle, [Call.pthread_mutex_lock]⟩
    else ⟨true, some handle, [Call.pthread_mutex_lock]⟩

/-- `gralloc_drm_validate_handle` (lines 187-218). -/
def gralloc_drm_validate_handle (abi : HandleABI) (h : Option gralloc_drm_handle_t) : Int :=
  match h with
  | none => -EINVAL
  | some handle =>
    if handle.base.version ≠ (abi.sizeof_native_handle_t : Int) then -EINVAL
    else if handle.base.numInts ≠ (abi.GRALLOC_DRM_HANDLE_NUM_INTS : Int) then -EINVAL
    else if handle.base.numFds ≠ GRALLOC_DRM_HANDLE_NUM_FDS then -EINVAL
    else if handle.magic ≠ GRALLOC_DRM_HANDLE_MAGIC then -EINVAL
    else 0

/-- `gralloc_drm_unlock_handle` (lines 220-230): the object behind `_handle` after the
call, and the calls made. -/
def gralloc_drm_unlock_handle (_handle : Option gralloc_drm_handle_t) :
    Option gralloc_drm_handle_t × List Call :=
  match _handle with
  | none => (none, [])
  | some handle => (some { handle with ref := handle.ref - 1 }, [Call.pthread_mutex_unlock])

/-- `gralloc_drm_handle` (lines 161-185) run in a state of the static `handle_mutex` of
line 160, a default (non-recursive) mutex.  `handle_mutex_locked` tells whether the mutex
is held when the call is made.  The result is `none` when the call does not return: for a
non-NULL `_handle` it starts with `pthread_mutex_lock(&handle_mutex)`, which does not
return while the mutex is held and no one unlocks it.  Otherwise the result is what
`gralloc_drm_handle` leaves behind and the state of the mutex after the call; the function
never unlocks, so after a call on a non-NULL pointer the mutex is held. -/
def gralloc_drm_handle_with_mutex (abi : HandleABI) (handle_mutex_locked : Bool)
    (_handle : Option gralloc_drm_handle_t) : Option (HandleResult × Bool) :=
  match _handle with
  | none => some (gralloc_drm_handle abi none, handle_mutex_locked)
  | some handle =>
    if handle_mutex_locked = true then none
    else some (gralloc_drm_handle abi (some handle), true)

/-- `gralloc_drm_unlock_handle` (lines 220-230) run in a state of `handle_mutex`: what
`gralloc_drm_unlock_handle` leaves behind and the state of the mutex after the call, which
is released by `pthread_mutex_unlock` when `_handle` is not NULL. -/
def gralloc_drm_unlock_handle_with_mutex (handle_mutex_locked : Bool)
    (_handle : Option gralloc_drm_handle_t) :
    (Option gralloc_drm_handle_t × List Call) × Bool :=
  match _handle with
  | none => (gralloc_drm_unlock_handle none, handle_mutex_locked)
  | some handle => (gralloc_drm_unlock_handle (some handle), false)

/-- The sizes of the LP64 build: `native_handle_t` is three `int`s, and the handle has 31
`int`-sized words after its header and its two file descriptors. -/
def sample_abi : HandleABI where
  sizeof_native_handle_t := 12
  GRALLOC_DRM_HANDLE_NUM_INTS := 31

/-- A structurally valid handle for a `width` x `height` request, every other field
zero and no imported file descriptor. -/
def sample_handle (format usage width height : Int) : gralloc_drm_handle_t where
  base := ⟨12, 2, 31⟩
  prime_fd := -1
  share_attr_fd := -1
  dpy_type := 0
  internal_format := 0
  internalWidth := 0
  internalHeight := 0
  byte_stride := 0
  size := 0
  ref := 0
  pixel_stride := 0
  offset := 0
  consumer_usage := 0
  producer_usage := 0
  attr_base := 0
  yuv_info := 0
  magic := 0x12345678
  width := width
  height := height
  format := format
  usage := usage
  name := 0
  stride := 0
  data := 0
  unknown := 0
  data_owner := 0

/-- The 32-bit `int` whose bit pattern is that of `x` with bit `i` inverted. -/
def flip_bit32 (x : Int) (i : Nat) : Int :=
  let pattern := (x % 4294967296).toNat ^^^ 2 ^ i
  if pattern < 2147483648 then (pattern : Int) else (pattern : Int) - 4294967296

/-! ## `drm_gem_rockchip_alloc` and `drm_gem_rockchip_free` -/

/-- What `drm_gem_rockchip_alloc` and `drm_gem_rockchip_free` take from outside the
repository besides `Platform`: usage bits, the `mali_gralloc_yuv_info` values, two build
flags, and the results of the functions they call (`gralloc_select_format`, `calloc`,
libdrm, the rockchip buffer-object library, the attribute region).  A function that
writes through a pointer returns the new content next to its result. -/
structure AllocEnv where
  GRALLOC_USAGE_HW_FB : Int
  GRALLOC_USAGE_PRIVATE_0 : Int
  GRALLOC_USAGE_PRIVATE_1 : Int
  MALI_YUV_BT601_NARROW : Int
  MALI_YUV_BT601_WIDE : Int
  MALI_YUV_BT709_NARROW : Int
  MALI_YUV_BT709_WIDE : Int
  MALI_ARCHITECTURE_UTGARD : Int
  GRALLOC_16_BITS : Bool
  gralloc_select_format : Int → Int → Int → Nat
  calloc_succeeds : Bool
  drmPrimeFDToHandle : Int → Int × Nat
  rockchip_bo_from_handle : Nat → Int → Option Nat
  rockchip_bo_create : Int → Option Nat
  rockchip_bo_handle : Nat → Nat
  drmPrimeHandleToFD : Nat → Int → Int × Int
  gralloc_buffer_attr_allocate : gralloc_drm_handle_t → Int × gralloc_drm_handle_t
  gralloc_buffer_attr_free : gralloc_drm_handle_t → gralloc_drm_handle_t

/-- `struct rockchip_buffer`: `base.handle` (the object it points to, `none` while the
pointer is NULL), `base.fb_handle` and `bo`. -/
structure rockchip_buffer where
  handle : Option gralloc_drm_handle_t
  fb_handle : Nat
  bo : Nat
  deriving DecidableEq

/-- The value of `*p` for a pointer to a local variable, which is never NULL. -/
def deref (p : Option Int) : Int :=
  p.getD 0

/-- What `drm_gem_rockchip_free` leaves behind: the handle object behind `bo->handle`
and the calls made. -/
structure FreeResult where
  handle : Option gralloc_drm_handle_t
  calls : List Call
  deriving DecidableEq

/-- `drm_gem_rockchip_free` (lines 1078-1101). -/
def drm_gem_rockchip_free (e : AllocEnv) (abi : HandleABI) (buf : rockchip_buffer) :
    FreeResult :=
  let r := gralloc_drm_handle abi buf.handle
  match r.returns_handle, r.handle with
  | true, some gr_handle =>
    let gr_handle := e.gralloc_buffer_attr_free gr_handle
    let calls := r.calls ++ [Call.gralloc_buffer_attr_free]
    let calls := if gr_handle.prime_fd ≠ 0 then calls ++ [Call.close gr_handle.prime_fd]
      else calls
    ⟨some gr_handle, calls ++ [Call.rockchip_bo_destroy buf.bo, Call.free]⟩
  | _, _ => ⟨r.handle, r.calls⟩

/-- What `drm_gem_rockchip_alloc` returns: NULL, the integer `-EINVAL` converted to
the pointer type (lines 744 and 794), the address of the new buffer, or nothing because
of the store through the NULL pointer `c` at line 958. -/
inductive AllocReturn where
  | NULL
  | minus_EINVAL
  | buf (b : rockchip_buffer)
  | null_store
  deriving DecidableEq

/-- The state `drm_gem_rockchip_alloc` leaves behind: its return value, the handle it
was given, and the calls it made. -/
structure AllocOutcome where
  ret : AllocReturn
  handle : gralloc_drm_handle_t
  calls : List Call
  deriving DecidableEq

/-- How lines 927-1012 of `drm_gem_rockchip_alloc` end: with a return, or with the
buffer object `bo` and the `fb_handle` of the wrapper. -/
inductive BackingStage where
  | returned (out : AllocOutcome)
  | obtained (bo fb_handle : Nat) (handle : gralloc_drm_handle_t) (calls : List Call)
  deriving DecidableEq

/-- Lines 927-1012 of `drm_gem_rockchip_alloc`: the wrapper is allocated and the
backing memory of `size` bytes is imported from `handle->prime_fd` or created. -/
def drm_gem_rockchip_alloc_backing (e : AllocEnv) (handle : gralloc_drm_handle_t)
    (size : Int) : BackingStage :=
  if e.calloc_succeeds = false then
    BackingStage.returned ⟨AllocReturn.NULL, handle, [Call.calloc]⟩
  else if handle.prime_fd ≥ 0 then
    let r := e.drmPrimeFDToHandle handle.prime_fd
    let gem_handle := r.2
    if r.1 ≠ 0 then
      BackingStage.returned ⟨AllocReturn.null_store, handle,
        [Call.calloc, Call.drmPrimeFDToHandle handle.prime_fd]⟩
    else
      match e.rockchip_bo_from_handle gem_handle size with
      | none =>
        BackingStage.returned ⟨AllocReturn.NULL, handle,
          [Call.calloc, Call.drmPrimeFDToHandle handle.prime_fd,
            Call.rockchip_bo_from_handle gem_handle size, Call.drmIoctl_GEM_CLOSE gem_handle]⟩
      | some bo =>
        BackingStage.obtained bo 0 handle
          [Call.calloc, Call.drmPrimeFDToHandle handle.prime_fd,
            Call.rockchip_bo_from_handle gem_handle size]
  else
    match e.rockchip_bo_create size with
    | none =>
      BackingStage.returned ⟨AllocReturn.NULL, handle,
        [Call.calloc, Call.rockchip_bo_create size, Call.free]⟩
    | some bo =>
      let gem_handle := e.rockchip_bo_handle bo
      let r := e.drmPrimeHandleToFD gem_handle handle.prime_fd
      let handle := { handle with prime_fd := r.2 }
      if r.1 ≠ 0 then
        BackingStage.returned ⟨AllocReturn.NULL, handle,
          [Call.calloc, Call.rockchip_bo_create size, Call.rockchip_bo_handle bo,
            Call.drmPrimeHandleToFD gem_handle, Call.rockchip_bo_destroy bo, Call.free]⟩
      else
        BackingStage.obtained bo gem_handle handle
          [Call.calloc, Call.rockchip_bo_create size, Call.rockchip_bo_handle bo,
            Call.drmPrimeHandleToFD gem_handle]

/-- Lines 1035-1064 of `drm_gem_rockchip_alloc`: the colour range chosen from the
private usage bits and the geometry of the layout are written into the handle.  `size` is
the `size_t` local; the field `handle->size` is an `int`, so line 1056 stores the value
converted to a 32-bit `int`. -/
def drm_gem_rockchip_alloc_fill (e : AllocEnv) (handle : gralloc_drm_handle_t)
    (usage format : Int) (internal_format : Nat)
    (size byte_stride internalWidth internalHeight : Int) : gralloc_drm_handle_t :=
  let private_usage :=
    int_and usage (int_or e.GRALLOC_USAGE_PRIVATE_0 e.GRALLOC_USAGE_PRIVATE_1)
  let handle :=
    if private_usage = 0 then { handle with yuv_info := e.MALI_YUV_BT601_NARROW }
    else if private_usage = e.GRALLOC_USAGE_PRIVATE_1 then
      { handle with yuv_info := e.MALI_YUV_BT601_WIDE }
    else if private_usage = e.GRALLOC_USAGE_PRIVATE_0 then
      { handle with yuv_info := e.MALI_YUV_BT709_NARROW }
    else if private_usage = int_or e.GRALLOC_USAGE_PRIVATE_0 e.GRALLOC_USAGE_PRIVATE_1 then
      { handle with yuv_info := e.MALI_YUV_BT709_WIDE }
    else handle
  let handle := { handle with stride := byte_stride }
  let handle := { handle with byte_stride := byte_stride }
  let handle := { handle with format := format }
  let handle := { handle with size := wrap32 size }
  let handle := { handle with offset := 0 }
  let handle := { handle with internalWidth := internalWidth }
  let handle := { handle with internalHeight := internalHeight }
  let handle := { handle with internal_format := internal_format }
  { handle with name := 0 }

/-- `drm_gem_rockchip_alloc` (lines 694-1076) as compiled with `RK_DRM_GRALLOC` and
`MALI_AFBC_GRALLOC == 1`.  The last three arguments are the contents that the locals
`pixel_stride`, `byte_stride` and `size` have before any calculator writes them. -/
def drm_gem_rockchip_alloc (p : Platform) (e : AllocEnv) (abi : HandleABI)
    (handle : gralloc_drm_handle_t) (pixel_stride byte_stride size : Int) : AllocOutcome :=
  let w := handle.width
  let h := handle.height
  let format := handle.format
  let usage := handle.usage
  let internal_format := e.gralloc_select_format format usage (w * h)
  match drm_gem_rockchip_alloc_layout p internal_format usage w h
      ⟨some pixel_stride, some byte_stride, some size⟩ with
  | LayoutStage.return_NULL => ⟨AllocReturn.NULL, handle, []⟩
  | LayoutStage.return_minus_EINVAL => ⟨AllocReturn.minus_EINVAL, handle, []⟩
  | LayoutStage.computed _ locals internalWidth internalHeight =>
    let size := deref locals.size
    let byte_stride := deref locals.byte_stride
    let format :=
      if e.MALI_ARCHITECTURE_UTGARD = 1 ∧ int_and usage e.GRALLOC_USAGE_HW_FB ≠ 0 then
        if e.GRALLOC_16_BITS = true then (p.HAL_PIXEL_FORMAT_RGB_565 : Int)
        else (p.HAL_PIXEL_FORMAT_RGBA_8888 : Int)
      else format
    match drm_gem_rockchip_alloc_backing e handle size with
    | BackingStage.returned out => out
    | BackingStage.obtained bo fb_handle handle calls =>
      let attr := e.gralloc_buffer_attr_allocate handle
      let err := attr.1
      let handle := attr.2
      let calls := calls ++ [Call.gralloc_buffer_attr_allocate]
      if err < 0 ∧ ¬ (int_and usage e.GRALLOC_USAGE_HW_FB ≠ 0) then
        let freed := drm_gem_rockchip_free e abi ⟨none, fb_handle, bo⟩
        ⟨AllocReturn.NULL, handle, calls ++ freed.calls⟩
      else
        let handle := drm_gem_rockchip_alloc_fill e handle usage format internal_format
          size byte_stride internalWidth internalHeight
        ⟨AllocReturn.buf ⟨some handle, fb_handle, bo⟩, handle, calls⟩

/-- An environment on which `drm_gem_rockchip_alloc` can be evaluated: the usage bits of
`hardware/gralloc.h`, `gralloc_select_format` returning the requested format, and every
outside call succeeding (buffer object 1, GEM handle 2, file descriptor 3). -/
def sample_env : AllocEnv where
  GRALLOC_USAGE_HW_FB := 0x1000
  GRALLOC_USAGE_PRIVATE_0 := 0x10000000
  GRALLOC_USAGE_PRIVATE_1 := 0x20000000
  MALI_YUV_BT601_NARROW := 1
  MALI_YUV_BT601_WIDE := 2
  MALI_YUV_BT709_NARROW := 3
  MALI_YUV_BT709_WIDE := 4
  MALI_ARCHITECTURE_UTGARD := 0
  GRALLOC_16_BITS := false
  gralloc_select_format := fun format _ _ => format.toNat
  calloc_succeeds := true
  drmPrimeFDToHandle := fun _ => (0, 2)
  rockchip_bo_from_handle := fun _ _ => some 1
  rockchip_bo_create := fun _ => some 1
  rockchip_bo_handle := fun _ => 2
  drmPrimeHandleToFD := fun _ _ => (0, 3)
  gralloc_buffer_attr_allocate := fun handle => (0, handle)
  gralloc_buffer_attr_free := fun handle => handle

/-- A call either is no request to the backing allocator or asks it for exactly `size`
bytes. -/
def Call.requests_only (size : Int) : Call → Bool
  | Call.rockchip_bo_from_handle _ s => decide (s = size)
  | Call.rockchip_bo_create s => decide (s = size)
  | _ => true

/-- The usage value `GRALLOC_ARM_USAGE_NO_AFBC = GRALLOC_USAGE_PRIVATE_1 |
GRALLOC_USAGE_PRIVATE_2` of `gralloc_drm_handle.h` (lines 154-158), for given values of
the two usage bits. -/
def GRALLOC_ARM_USAGE_NO_AFBC (GRALLOC_USAGE_PRIVATE_1 GRALLOC_USAGE_PRIVATE_2 : Int) : Int :=
  int_or GRALLOC_USAGE_PRIVATE_1 GRALLOC_USAGE_PRIVATE_2

/-- The environment `sample_env` with an attribute region that cannot be attached:
`gralloc_buffer_attr_allocate` returns -1 and leaves the handle as it is. -/
def sample_env_attr_fails : AllocEnv :=
  { sample_env with gralloc_buffer_attr_allocate := fun handle => (-1, handle) }

/-! ## `mali_gralloc_select_format` of `mali_gralloc_formats.cpp` -/

/-- What `mali_gralloc_select_format` takes from headers outside the repository: two
format codes, the two usage constants, and the macro `USAGE_CONTAIN_VALUE(value, mask)`.
The macro is written without a usage argument and reads the variable `usage` of the
function it is expanded in, so it is taken as a function of `usage`, `value` and
`mask`. -/
structure FormatHeaders where
  HAL_PIXEL_FORMAT_YCrCb_NV12_10 : Nat
  MALI_GRALLOC_FORMAT_INTERNAL_P010 : Nat
  GRALLOC_USAGE_TO_USE_ARM_P010 : Nat
  GRALLOC_USAGE_ROT_MASK : Nat
  USAGE_CONTAIN_VALUE : Nat → Nat → Nat → Bool

/-- `mali_gralloc_select_format` (lines 36-52).  `type` is a value of the enumeration
`mali_gralloc_format_type`. -/
def mali_gralloc_select_format (c : FormatHeaders) (req_format : Nat) (type : Int)
    (usage : Nat) (buffer_size : Int) : Nat :=
  if req_format = c.HAL_PIXEL_FORMAT_YCrCb_NV12_10
      ∧ c.USAGE_CONTAIN_VALUE usage c.GRALLOC_USAGE_TO_USE_ARM_P010 c.GRALLOC_USAGE_ROT_MASK
        = true then
    c.MALI_GRALLOC_FORMAT_INTERNAL_P010
  else req_format

/-- A choice of the constants of `mali_gralloc_select_format` on which it can be
evaluated, with the macro comparing the masked usage with the value. -/
def sample_format_headers : FormatHeaders where
  HAL_PIXEL_FORMAT_YCrCb_NV12_10 := 0x17
  MALI_GRALLOC_FORMAT_INTERNAL_P010 := 0x101
  GRALLOC_USAGE_TO_USE_ARM_P010 := 0x0A000000
  GRALLOC_USAGE_ROT_MASK := 0x0F000000
  USAGE_CONTAIN_VALUE := fun usage value mask => decide (usage &&& mask = value)

/-! ## The calculators in 32-bit `int` arithmetic -/

/-- The macro `GRALLOC_ALIGN` with each operation carried out on a 32-bit `int`. -/
def GRALLOC_ALIGN_int32 (value base : Int) : Int :=
  int_and (wrap32 (value + wrap32 (base - 1))) (wrap32 (~~~ (wrap32 (base - 1))))

/-- `get_rgb_stride_and_size` (lines 116-169) with each `int` operation carried out on a
32-bit `int`.  The cell of `size` holds the `int` value of the right-hand side of the
assignment; its conversion to `size_t` leaves a non-negative value as it is. -/
def get_rgb_stride_and_size_int32 (width height pixel_size : Int) (o : Outs)
    (type : AllocType) : Outs :=
  let stride := wrap32 (width * pixel_size)
  let stride := GRALLOC_ALIGN_int32 stride 64
  let o := { o with size := store o.size (wrap32 (stride * height)) }
  let o := { o with byte_stride := store o.byte_stride stride }
  let o := { o with pixel_stride := store o.pixel_stride (wrap32 (Int.tdiv stride pixel_size)) }
  if type ≠ AllocType.UNCOMPRESSED then
    let h_aligned := GRALLOC_ALIGN_int32 height AFBC_PIXELS_PER_BLOCK
    let w_aligned :=
      if type = AllocType.AFBC_PADDED then GRALLOC_ALIGN_int32 width 64
      else if type = AllocType.AFBC_WIDEBLK then
        GRALLOC_ALIGN_int32 width AFBC_WIDEBLK_WIDTH_ALIGN
      else GRALLOC_ALIGN_int32 width AFBC_PIXELS_PER_BLOCK
    let nblocks :=
      wrap32 (Int.tdiv (wrap32 (wrap32 (Int.tdiv w_aligned AFBC_PIXELS_PER_BLOCK) * h_aligned))
        AFBC_PIXELS_PER_BLOCK)
    let header_bytes :=
      GRALLOC_ALIGN_int32 (wrap32 (nblocks * AFBC_HEADER_BUFFER_BYTES_PER_BLOCKENTRY))
        AFBC_BODY_BUFFER_BYTE_ALIGNMENT
    let body_bytes := wrap32 (wrap32 (w_aligned * h_aligned) * pixel_size)
    { o with size := store o.size (wrap32 (body_bytes + header_bytes)) }
  else o

/-- The exact values of the arithmetic expressions that `get_rgb_stride_and_size`
(lines 116-169) evaluates on `int`, in the order of the source: the operands and results
of lines 121-139, followed for a compressed type by those of lines 144-167. -/
def get_rgb_stride_and_size_values (width height pixel_size : Int) (type : AllocType) :
    List Int :=
  let stride := GRALLOC_ALIGN (width * pixel_size) 64
  let head := [width * pixel_size, width * pixel_size + (64 - 1), stride, stride * height,
    Int.tdiv stride pixel_size]
  if type ≠ AllocType.UNCOMPRESSED then
    let h_aligned := GRALLOC_ALIGN height AFBC_PIXELS_PER_BLOCK
    let base : Int :=
      if type = AllocType.AFBC_PADDED then 64
      else if type = AllocType.AFBC_WIDEBLK then AFBC_WIDEBLK_WIDTH_ALIGN
      else AFBC_PIXELS_PER_BLOCK
    let w_aligned := GRALLOC_ALIGN width base
    let nblocks :=
      Int.tdiv (Int.tdiv w_aligned AFBC_PIXELS_PER_BLOCK * h_aligned) AFBC_PIXELS_PER_BLOCK
    let entries := nblocks * AFBC_HEADER_BUFFER_BYTES_PER_BLOCKENTRY
    let header_bytes := GRALLOC_ALIGN entries AFBC_BODY_BUFFER_BYTE_ALIGNMENT
    head ++ [height + (AFBC_PIXELS_PER_BLOCK - 1), h_aligned, width + (base - 1), w_aligned,
      Int.tdiv w_aligned AFBC_PIXELS_PER_BLOCK,
      Int.tdiv w_aligned AFBC_PIXELS_PER_BLOCK * h_aligned, nblocks, entries,
      entries + (AFBC_BODY_BUFFER_BYTE_ALIGNMENT - 1), header_bytes,
      w_aligned * h_aligned, w_aligned * h_aligned * pixel_size,
      w_aligned * h_aligned * pixel_size + header_bytes]
  else head

/-- `get_afbc_yuv420_8bit_stride_and_size` (lines 184-244) with each `int` operation
carried out on a 32-bit `int`. -/
def get_afbc_yuv420_8bit_stride_and_size_int32 (AFBC_YUV420_EXTRA_MB_ROW_NEEDED : Bool)
    (width height : Int) (o : Outs) (type : AllocType) (internalHeight : Int) : RetIH :=
  if type = AllocType.UNCOMPRESSED then ⟨false, o, internalHeight⟩
  else if type = AllocType.AFBC_PADDED then ⟨false, o, internalHeight⟩
  else
    let width :=
      if type = AllocType.AFBC_WIDEBLK then
        GRALLOC_ALIGN_int32 width AFBC_WIDEBLK_WIDTH_ALIGN
      else GRALLOC_ALIGN_int32 width AFBC_PIXELS_PER_BLOCK
    let internalHeight :=
      if AFBC_YUV420_EXTRA_MB_ROW_NEEDED then wrap32 (internalHeight + AFBC_PIXELS_PER_BLOCK)
      else internalHeight
    let height := GRALLOC_ALIGN_int32 internalHeight AFBC_PIXELS_PER_BLOCK
    let yuv420_afbc_luma_stride := width
    let yuv420_afbc_chroma_stride :=
      GRALLOC_ALIGN_int32 (wrap32 (Int.tdiv yuv420_afbc_luma_stride 2)) 16
    let nblocks :=
      wrap32 (Int.tdiv (wrap32 (wrap32 (Int.tdiv width AFBC_PIXELS_PER_BLOCK) * height))
        AFBC_PIXELS_PER_BLOCK)
    let header_bytes :=
      GRALLOC_ALIGN_int32 (wrap32 (nblocks * AFBC_HEADER_BUFFER_BYTES_PER_BLOCKENTRY))
        AFBC_BODY_BUFFER_BYTE_ALIGNMENT
    let body_bytes :=
      wrap32 (wrap32 (yuv420_afbc_luma_stride + yuv420_afbc_chroma_stride) * height)
    let o := { o with size := store o.size (wrap32 (body_bytes + header_bytes)) }
    let o := { o with byte_stride := store o.byte_stride yuv420_afbc_luma_stride }
    let o := { o with pixel_stride := store o.pixel_stride yuv420_afbc_luma_stride }
    ⟨true, o, internalHeight⟩

/-- `get_yv12_stride_and_size` (lines 260-296) with each `int` operation carried out on a
32-bit `int`. -/
def get_yv12_stride_and_size_int32 (AFBC_YUV420_EXTRA_MB_ROW_NEEDED : Bool)
    (width height : Int) (o : Outs) (type : AllocType) (internalHeight : Int)
    (stride_alignment : Int) : RetIH :=
  if Int.tmod width 2 ≠ 0 ∨ Int.tmod height 2 ≠ 0 then ⟨false, o, internalHeight⟩
  else if type ≠ AllocType.UNCOMPRESSED then
    get_afbc_yuv420_8bit_stride_and_size_int32 AFBC_YUV420_EXTRA_MB_ROW_NEEDED
      width height o type internalHeight
  else
    let luma_stride := GRALLOC_ALIGN_int32 width stride_alignment
    let chroma_stride := GRALLOC_ALIGN_int32 (wrap32 (Int.tdiv luma_stride 2)) stride_alignment
    let total := wrap32 (height * wrap32 (luma_stride + chroma_stride))
    let o := { o with size := store o.size total }
    let o := { o with byte_stride := store o.byte_stride luma_stride }
    let o := { o with pixel_stride := store o.pixel_stride luma_stride }
    ⟨true, o, internalHeight⟩

/-- `get_afbc_yuv422_8bit_stride_and_size` (lines 309-356) with each `int` operation
carried out on a 32-bit `int`. -/
def get_afbc_yuv422_8bit_stride_and_size_int32 (width height : Int) (o : Outs)
    (type : AllocType) : Ret :=
  if type = AllocType.UNCOMPRESSED then ⟨false, o⟩
  else if type = AllocType.AFBC_PADDED then ⟨false, o⟩
  else
    let width :=
      if type = AllocType.AFBC_WIDEBLK then
        GRALLOC_ALIGN_int32 width AFBC_WIDEBLK_WIDTH_ALIGN
      else GRALLOC_ALIGN_int32 width AFBC_PIXELS_PER_BLOCK
    let height := GRALLOC_ALIGN_int32 height AFBC_PIXELS_PER_BLOCK
    let yuv422_afbc_luma_stride := width
    let nblocks :=
      wrap32 (Int.tdiv (wrap32 (wrap32 (Int.tdiv width AFBC_PIXELS_PER_BLOCK) * height))
        AFBC_PIXELS_PER_BLOCK)
    let header_bytes :=
      GRALLOC_ALIGN_int32 (wrap32 (nblocks * AFBC_HEADER_BUFFER_BYTES_PER_BLOCKENTRY))
        AFBC_BODY_BUFFER_BYTE_ALIGNMENT
    let body_bytes := wrap32 (wrap32 (yuv422_afbc_luma_stride * height) * 2)
    let o := { o with size := store o.size (wrap32 (body_bytes + header_bytes)) }
    let o := { o with byte_stride := store o.byte_stride yuv422_afbc_luma_stride }
    let o := { o with pixel_stride := store o.pixel_stride yuv422_afbc_luma_stride }
    ⟨true, o⟩

/-- `get_yuv_y210_stride_and_size` (lines 428-457) with each `int` operation carried out
on a 32-bit `int`. -/
def get_yuv_y210_stride_and_size_int32 (width height : Int) (o : Outs) : Ret :=
  if int_and width 1 ≠ 0 then ⟨false, o⟩
  else
    let y210_pixel_stride := GRALLOC_ALIGN_int32 width YUV_MALI_PLANE_ALIGN
    let y210_byte_stride := GRALLOC_ALIGN_int32 (wrap32 (width * 4)) YUV_MALI_PLANE_ALIGN
    let o := { o with size := store o.size (wrap32 (y210_byte_stride * height)) }
    let o := { o with byte_stride := store o.byte_stride y210_byte_stride }
    let o := { o with pixel_stride := store o.pixel_stride y210_pixel_stride }
    ⟨true, o⟩

/-- `get_yuv_y0l2_stride_and_size` (lines 474-502) with each `int` operation carried out
on a 32-bit `int`. -/
def get_yuv_y0l2_stride_and_size_int32 (width height : Int) (o : Outs) : Ret :=
  if int_and width 3 ≠ 0 then ⟨false, o⟩
  else
    let y0l2_pixel_stride := GRALLOC_ALIGN_int32 (wrap32 (width * 4)) YUV_MALI_PLANE_ALIGN
    let y0l2_byte_stride := GRALLOC_ALIGN_int32 (wrap32 (width * 4)) YUV_MALI_PLANE_ALIGN
    let total := wrap32 (y0l2_byte_stride * wrap32 (Int.tdiv height 2))
    let o := { o with size := store o.size total }
    let o := { o with byte_stride := store o.byte_stride y0l2_byte_stride }
    let o := { o with pixel_stride := store o.pixel_stride y0l2_pixel_stride }
    ⟨true, o⟩

/-- `get_yuv_y410_stride_and_size` (lines 518-541) with each `int` operation carried out
on a 32-bit `int`. -/
def get_yuv_y410_stride_and_size_int32 (width height : Int) (o : Outs) : Ret :=
  let y410_pixel_stride := GRALLOC_ALIGN_int32 width YUV_MALI_PLANE_ALIGN
  let y410_byte_stride := GRALLOC_ALIGN_int32 (wrap32 (width * 4)) YUV_MALI_PLANE_ALIGN
  let o := { o with size := store o.size (wrap32 (y410_byte_stride * height)) }
  let o := { o with byte_stride := store o.byte_stride y410_byte_stride }
  let o := { o with pixel_stride := store o.pixel_stride y410_pixel_stride }
  ⟨true, o⟩

/-- `get_yuv420_10bit_afbc_stride_and_size` (lines 559-611) with each `int` operation
carried out on a 32-bit `int`. -/
def get_yuv420_10bit_afbc_stride_and_size_int32 (width height : Int) (o : Outs)
    (type : AllocType) : Ret :=
  if int_and width 3 ≠ 0 then ⟨false, o⟩
  else if type = AllocType.UNCOMPRESSED then ⟨false, o⟩
  else if type = AllocType.AFBC_PADDED then ⟨false, o⟩
  else
    let width :=
      if type = AllocType.AFBC_WIDEBLK then
        GRALLOC_ALIGN_int32 width AFBC_WIDEBLK_WIDTH_ALIGN
      else GRALLOC_ALIGN_int32 width AFBC_PIXELS_PER_BLOCK
    let height := GRALLOC_ALIGN_int32 (wrap32 (Int.tdiv height 2)) AFBC_PIXELS_PER_BLOCK
    let yuv420_afbc_pixel_stride := GRALLOC_ALIGN_int32 width 16
    let yuv420_afbc_byte_stride := GRALLOC_ALIGN_int32 (wrap32 (width * 4)) 16
    let nblocks :=
      wrap32 (Int.tdiv (wrap32 (wrap32 (Int.tdiv width AFBC_PIXELS_PER_BLOCK) * height))
        AFBC_PIXELS_PER_BLOCK)
    let header_bytes :=
      GRALLOC_ALIGN_int32 (wrap32 (nblocks * AFBC_HEADER_BUFFER_BYTES_PER_BLOCKENTRY))
        AFBC_BODY_BUFFER_BYTE_ALIGNMENT
    let body_bytes := wrap32 (yuv420_afbc_byte_stride * height)
    let o := { o with size := store o.size (wrap32 (body_bytes + header_bytes)) }
    let o := { o with byte_stride := store o.byte_stride yuv420_afbc_byte_stride }
    let o := { o with pixel_stride := store o.pixel_stride yuv420_afbc_pixel_stride }
    ⟨true, o⟩

/-- `get_yuv422_10bit_afbc_stride_and_size` (lines 629-682) with each `int` operation
carried out on a 32-bit `int`. -/
def get_yuv422_10bit_afbc_stride_and_size_int32 (width height : Int) (o : Outs)
    (type : AllocType) : Ret :=
  if int_and width 3 ≠ 0 then ⟨false, o⟩
  else if type = AllocType.UNCOMPRESSED then ⟨false, o⟩
  else if type = AllocType.AFBC_PADDED then ⟨false, o⟩
  else
    let width :=
      if type = AllocType.AFBC_WIDEBLK then
        GRALLOC_ALIGN_int32 width AFBC_WIDEBLK_WIDTH_ALIGN
      else GRALLOC_ALIGN_int32 width AFBC_PIXELS_PER_BLOCK
    let height := GRALLOC_ALIGN_int32 height AFBC_PIXELS_PER_BLOCK
    let yuv422_afbc_pixel_stride := GRALLOC_ALIGN_int32 width 16
    let yuv422_afbc_byte_stride := GRALLOC_ALIGN_int32 (wrap32 (width * 2)) 16
    let nblocks :=
      wrap32 (Int.tdiv (wrap32 (wrap32 (Int.tdiv width AFBC_PIXELS_PER_BLOCK) * height))
        AFBC_PIXELS_PER_BLOCK)
    let header_bytes :=
      GRALLOC_ALIGN_int32 (wrap32 (nblocks * AFBC_HEADER_BUFFER_BYTES_PER_BLOCKENTRY))
        AFBC_BODY_BUFFER_BYTE_ALIGNMENT
    let body_bytes := wrap32 (wrap32 (yuv422_afbc_byte_stride * height) * 2)
    let o := { o with size := store o.size (wrap32 (body_bytes + header_bytes)) }
    let o := { o with byte_stride := store o.byte_stride yuv422_afbc_byte_stride }
    let o := { o with pixel_stride := store o.pixel_stride yuv422_afbc_pixel_stride }
    ⟨true, o⟩

/-! ## `GrallocMapper` of `3.x/GrallocMapper.cpp` -/

/-- The values of `android::hardware::graphics::mapper::V3_0::Error` that
`GrallocMapper.cpp` names. -/
inductive Error where
  | NONE
  | BAD_VALUE
  deriving DecidableEq, Repr

/-- What a method of `GrallocMapper` does that its caller can observe: an invocation of
the result callback `hidl_cb` with its arguments, or a call of a function of
`hidl_common/Mapper.h` that is handed the callback. -/
inductive MapperCall where
  | hidl_cb (error : Error) (supported : Bool)
  | common_isSupported
  deriving DecidableEq, Repr

/-- The functions of namespace `common` (`hidl_common/`, outside the repository) that
`GrallocMapper::isSupported` and `GrallocMapper::validateBufferSize` call, over a type of
descriptor infos and a type of buffers: the verdict of `validateDescriptorInfo`, the
arguments with which `common::isSupported` invokes the callback it is given, in order, and
the result of `common::validateBufferSize`. -/
structure MapperEnv (BufferDescriptorInfo Buffer : Type) where
  validateDescriptorInfo : BufferDescriptorInfo → Bool
  isSupported : BufferDescriptorInfo → List (Error × Bool)
  validateBufferSize : Buffer → BufferDescriptorInfo → Nat → Error

/-- `GrallocMapper::isSupported` (lines 118-128): the invocations of `hidl_cb` and the
call of `common::isSupported`, in order.  The `if` has no `return` and no `else`. -/
def GrallocMapper.isSupported {BufferDescriptorInfo Buffer : Type}
    (common : MapperEnv BufferDescriptorInfo Buffer) (description : BufferDescriptorInfo) :
    List MapperCall :=
  let calls :=
    if common.validateDescriptorInfo description = false then
      [MapperCall.hidl_cb Error.BAD_VALUE false]
    else []
  calls ++ [MapperCall.common_isSupported]
    ++ (common.isSupported description).map (fun r => MapperCall.hidl_cb r.1 r.2)

/-- `GrallocMapper::validateBufferSize` (lines 99-110): the result, and whether
`common::validateBufferSize` was called. -/
def GrallocMapper.validateBufferSize {BufferDescriptorInfo Buffer : Type}
    (common : MapperEnv BufferDescriptorInfo Buffer) (buffer : Buffer)
    (descriptorInfo : BufferDescriptorInfo) (in_stride : Nat) : Error × Bool :=
  if common.validateDescriptorInfo descriptorInfo = false then (Error.BAD_VALUE, false)
  else (common.validateBufferSize buffer descriptorInfo in_stride, true)

/-- Whether a call is an invocation of the result callback. -/
def MapperCall.is_hidl_cb : MapperCall → Bool
  | MapperCall.hidl_cb _ _ => true
  | MapperCall.common_isSupported => false

/-- A `common` on which the mapper can be evaluated: a descriptor info is a width, valid
when it is not 0; `common::isSupported` invokes its callback once, with
`(Error::NONE, true)`; `common::validateBufferSize` returns `Error::NONE`. -/
def sample_mapper_env : MapperEnv Nat Nat where
  validateDescriptorInfo := fun description => decide (description ≠ 0)
  isSupported := fun _ => [(Error.NONE, true)]
  validateBufferSize := fun _ _ _ => Error.NONE

/-! ## The alignment of the specification -/

/-- The specification's `align(value, base) = ceil(value / base) * base`, the ceiling of
the quotient written with the floor division of `Int`: `ceil(v / b) = -floor(-v / b)`. -/
def align (value base : Int) : Int :=
  -((-value) / base) * base

/-- The specification's size of a block-compressed packed RGB buffer:
`aligned_w * aligned_h * bytes_per_pixel + align(num_blocks * 16, 1024)` with
`num_blocks = (aligned_w / 16) * (aligned_h / 16)`. -/
def spec_rgb_afbc_size (aligned_w aligned_h bytes_per_pixel : Int) : Int :=
  aligned_w * aligned_h * bytes_per_pixel +
    align ((aligned_w / 16) * (aligned_h / 16) * 16) 1024

/-- The width alignment of the specification for a compression mode: 16 pixels for a
block-compressed buffer, 32 in wide-block mode, 64 in padded mode. -/
def spec_block_width_align : AllocType → Int
  | AllocType.AFBC_WIDEBLK => 32
  | AllocType.AFBC_PADDED => 64
  | _ => 16

/-- The specification's choice of the compression mode from the three compression bits
of the internal format and the usage bit GRALLOC_USAGE_PRIVATE_2: uncompressed when no
bit is set, otherwise padded if the usage bit is set, otherwise wide-block if the
wide-block bit is set, otherwise block-compressed. -/
def spec_alloc_type (afbc splitblk wideblk private_2 : Bool) : AllocType :=
  if afbc = false ∧ splitblk = false ∧ wideblk = false then AllocType.UNCOMPRESSED
  else if private_2 = true then AllocType.AFBC_PADDED
  else if wideblk = true then AllocType.AFBC_WIDEBLK
  else AllocType.AFBC

/-! ## Bit masks and alignment -/

theorem nat_clear_low_bits (x k : Nat) :
    x ^^^ (x &&& (2 ^ k - 1)) = x / 2 ^ k * 2 ^ k := by
  apply Nat.eq_of_testBit_eq
  intro i
  rw [Nat.testBit_xor, Nat.testBit_and, Nat.testBit_two_pow_sub_one, Nat.mul_comm,
    Nat.testBit_mul_pow_two, ← Nat.shiftRight_eq_div_pow, Nat.testBit_shiftRight]
  by_cases h : i < k
  · have h2 : ¬ (i ≥ k) := by omega
    simp [h, h2]
  · have h2 : i ≥ k := by omega
    have h3 : k + (i - k) = i := by omega
    simp [h, h2, h3]

theorem nat_mask_xor_low_bits (m k : Nat) :
    (2 ^ k - 1) ^^^ ((2 ^ k - 1) &&& m) = 2 ^ k - (m % 2 ^ k + 1) := by
  have hlt : m % 2 ^ k < 2 ^ k := Nat.mod_lt _ (Nat.pos_pow_of_pos k (by decide))
  apply Nat.eq_of_testBit_eq
  intro i
  rw [Nat.testBit_xor, Nat.testBit_and, Nat.testBit_two_pow_sub_one,
    Nat.testBit_two_pow_sub_succ hlt, Nat.testBit_mod_two_pow]
  by_cases h : i < k <;> simp [h]

/-- The operator `int_and` is the bitwise AND `Int.land` of Mathlib. -/
theorem int_and_eq_land (a b : Int) : int_and a b = Int.land a b := by
  have key : ∀ m n : Nat, m ^^^ (m &&& n) = Nat.ldiff m n := by
    intro m n
    apply Nat.eq_of_testBit_eq
    intro i
    rw [Nat.testBit_xor, Nat.testBit_and, Nat.testBit_ldiff]
    cases m.testBit i <;> cases n.testBit i <;> rfl
  cases a <;> cases b <;> simp [int_and, Int.land, key]

/-- The operator `int_or` is the bitwise OR `Int.lor` of Mathlib. -/
theorem int_or_eq_lor (a b : Int) : int_or a b = Int.lor a b := by
  have key : ∀ m n : Nat, m ^^^ (m &&& n) = Nat.ldiff m n := by
    intro m n
    apply Nat.eq_of_testBit_eq
    intro i
    rw [Nat.testBit_xor, Nat.testBit_and, Nat.testBit_ldiff]
    cases m.testBit i <;> cases n.testBit i <;> rfl
  cases a <;> cases b <;> simp [int_or, Int.lor, key]

/-- Masking with `2^k - 1` is the remainder modulo `2^k`, for negative numbers too. -/
theorem int_and_low_mask (w : Int) (k : Nat) : int_and w (2 ^ k - 1) = w % 2 ^ k := by
  have hpos : 0 < 2 ^ k := Nat.pos_pow_of_pos k (by decide)
  have hM : ((2 : Int) ^ k - 1) = Int.ofNat (2 ^ k - 1) := by
    simp [Nat.cast_sub hpos]
  rw [hM]
  cases w with
  | ofNat n =>
    show Int.ofNat (n &&& (2 ^ k - 1)) = _
    rw [Nat.and_pow_two_sub_one_eq_mod]
    simp
  | negSucc m =>
    show Int.ofNat ((2 ^ k - 1) ^^^ ((2 ^ k - 1) &&& m)) = _
    rw [nat_mask_xor_low_bits, Int.emod_negSucc]
    have hlt : m % 2 ^ k < 2 ^ k := Nat.mod_lt _ hpos
    have habs : ((2 : Int) ^ k).natAbs = 2 ^ k := by simp [Int.natAbs_pow]
    rw [habs, Int.subNatNat_of_le (by omega)]
    rfl

theorem int_and_one (w : Int) : int_and w 1 = w % 2 := by
  have h := int_and_low_mask w 1
  norm_num at h
  exact h

theorem int_and_three (w : Int) : int_and w 3 = w % 4 := by
  have h := int_and_low_mask w 2
  norm_num at h
  exact h

theorem tmod_two_ne_zero (w : Int) : Int.tmod w 2 ≠ 0 ↔ w % 2 ≠ 0 := by
  rw [Ne, Ne, ← Int.dvd_iff_tmod_eq_zero, Int.dvd_iff_emod_eq_zero]

/-- On a non-negative value the bit mask rounds down `value + (base - 1)` to a multiple
of the power of two `base`. -/
theorem GRALLOC_ALIGN_eq_div (value : Int) (k : Nat) (hv : 0 ≤ value) :
    GRALLOC_ALIGN value (2 ^ k) = (value + (2 ^ k - 1)) / 2 ^ k * 2 ^ k := by
  have hpos : 0 < 2 ^ k := Nat.pos_pow_of_pos k (by decide)
  obtain ⟨n, rfl⟩ := Int.eq_ofNat_of_zero_le hv
  have hM : ((2 : Int) ^ k - 1) = ((2 ^ k - 1 : Nat) : Int) := by
    simp [Nat.cast_sub hpos]
  unfold GRALLOC_ALIGN
  rw [hM]
  show Int.ofNat ((n + (2 ^ k - 1)) ^^^ ((n + (2 ^ k - 1)) &&& (2 ^ k - 1))) = _
  rw [nat_clear_low_bits]
  simp

/-- The ceiling form of `align` agrees with rounding down `value + (base - 1)`. -/
theorem align_eq_div (value base : Int) (hb : 0 < base) :
    align value base = (value + (base - 1)) / base * base := by
  unfold align
  congr 1
  have h1 : (-value) / base * base ≤ -value := Int.ediv_mul_le _ (by omega)
  have h2 : -value < ((-value) / base + 1) * base := Int.lt_ediv_add_one_mul_self _ hb
  apply le_antisymm
  · rw [Int.le_ediv_iff_mul_le hb]
    nlinarith
  · have h3 : (value + (base - 1)) / base < -((-value) / base) + 1 := by
      rw [Int.ediv_lt_iff_lt_mul hb]
      nlinarith
    omega

/-- The definition `align` is the rational ceiling of the quotient, times the base. -/
theorem align_eq_ceil (value base : Int) (hb : 0 < base) :
    align value base = ⌈(value : ℚ) / (base : ℚ)⌉ * base := by
  obtain ⟨d, rfl⟩ := Int.eq_ofNat_of_zero_le (le_of_lt hb)
  unfold align
  congr 1
  have h := Rat.floor_intCast_div_natCast (-value) d
  rw [← h, ← Int.ceil_neg]
  congr 1
  push_cast
  ring

theorem GRALLOC_ALIGN_eq_align (value : Int) (k : Nat) (hv : 0 ≤ value) :
    GRALLOC_ALIGN value (2 ^ k) = align value (2 ^ k) := by
  rw [GRALLOC_ALIGN_eq_div value k hv, align_eq_div value _ (by positivity)]

theorem GRALLOC_ALIGN_16 (v : Int) (hv : 0 ≤ v) : GRALLOC_ALIGN v 16 = align v 16 := by
  have h := GRALLOC_ALIGN_eq_align v 4 hv
  norm_num at h
  exact h

theorem GRALLOC_ALIGN_32 (v : Int) (hv : 0 ≤ v) : GRALLOC_ALIGN v 32 = align v 32 := by
  have h := GRALLOC_ALIGN_eq_align v 5 hv
  norm_num at h
  exact h

theorem GRALLOC_ALIGN_64 (v : Int) (hv : 0 ≤ v) : GRALLOC_ALIGN v 64 = align v 64 := by
  have h := GRALLOC_ALIGN_eq_align v 6 hv
  norm_num at h
  exact h

theorem GRALLOC_ALIGN_128 (v : Int) (hv : 0 ≤ v) : GRALLOC_ALIGN v 128 = align v 128 := by
  have h := GRALLOC_ALIGN_eq_align v 7 hv
  norm_num at h
  exact h

theorem GRALLOC_ALIGN_1024 (v : Int) (hv : 0 ≤ v) :
    GRALLOC_ALIGN v 1024 = align v 1024 := by
  have h := GRALLOC_ALIGN_eq_align v 10 hv
  norm_num at h
  exact h

theorem align_nonneg (v b : Int) (hv : 0 ≤ v) (hb : 0 < b) : 0 ≤ align v b := by
  rw [align_eq_div v b hb]
  have h : 0 ≤ (v + (b - 1)) / b := Int.ediv_nonneg (by omega) (by omega)
  positivity

theorem align_dvd (v b : Int) : b ∣ align v b :=
  Dvd.intro_left _ rfl

/-- A value in the range of a 32-bit `int` is held as it is. -/
theorem wrap32_eq (x : Int) (h1 : -2147483648 ≤ x) (h2 : x ≤ 2147483647) :
    wrap32 x = x := by
  unfold wrap32
  omega

/-! ## Packed RGB and planar 4:2:0 -/

/-- C1: for every width >= 0, height >= 0 and pixel_size in {2, 3, 4},
`get_rgb_stride_and_size` with type UNCOMPRESSED stores
byte_stride = align(width * pixel_size, 64) and size = byte_stride * height; for
1920 x 1080 at 4 bytes per pixel the stride is 7680 and the size 8294400. -/
theorem C1_rgb_uncompressed (width height pixel_size : Int) (o : Outs)
    (hw : 0 ≤ width) (hh : 0 ≤ height)
    (hp : pixel_size = 2 ∨ pixel_size = 3 ∨ pixel_size = 4) :
    (get_rgb_stride_and_size width height pixel_size o AllocType.UNCOMPRESSED).byte_stride
        = store o.byte_stride (align (width * pixel_size) 64)
      ∧ (get_rgb_stride_and_size width height pixel_size o AllocType.UNCOMPRESSED).size
        = store o.size (align (width * pixel_size) 64 * height)
      ∧ 0 ≤ align (width * pixel_size) 64 * height
      ∧ get_rgb_stride_and_size 1920 1080 4 ⟨some 0, some 0, some 0⟩ AllocType.UNCOMPRESSED
        = ⟨some 1920, some 7680, some 8294400⟩ := by
  have hwp : 0 ≤ width * pixel_size := by
    rcases hp with h | h | h <;> subst h <;> omega
  have hal : 0 ≤ align (width * pixel_size) 64 := align_nonneg _ _ hwp (by decide)
  refine ⟨?_, ?_, Int.mul_nonneg hal hh, by decide⟩
  · simp [get_rgb_stride_and_size, GRALLOC_ALIGN_64 _ hwp]
  · simp [get_rgb_stride_and_size, GRALLOC_ALIGN_64 _ hwp]

/-- C1 at 640 x 480 with 2 bytes per pixel. -/
theorem C1_rgb_uncompressed_witness :
    (get_rgb_stride_and_size 640 480 2 ⟨some 0, some 0, some 0⟩
        AllocType.UNCOMPRESSED).byte_stride = store (some 0) (align (640 * 2) 64)
      ∧ align (640 * 2) 64 = 1280 :=
  ⟨(C1_rgb_uncompressed 640 480 2 ⟨some 0, some 0, some 0⟩ (by decide) (by decide)
      (by decide)).1, by decide⟩

/-- C3: when width or height is odd (negative values included), `get_yv12_stride_and_size`
returns false for every allocation type and stride alignment and returns every output
cell and the internal height as it received them; with type UNCOMPRESSED it returns true
exactly when width and height are both even; 1921 x 1080 fails. -/
theorem C3_yv12_rejects_odd (extra_row : Bool) (width height stride_alignment : Int)
    (internalHeight : Int) (o : Outs) (type : AllocType) :
    ((width % 2 ≠ 0 ∨ height % 2 ≠ 0) →
        get_yv12_stride_and_size extra_row width height o type internalHeight
          stride_alignment = ⟨false, o, internalHeight⟩)
      ∧ ((get_yv12_stride_and_size extra_row width height o AllocType.UNCOMPRESSED
            internalHeight stride_alignment).ret = true
          ↔ (width % 2 = 0 ∧ height % 2 = 0))
      ∧ get_yv12_stride_and_size extra_row 1921 1080 o type internalHeight
          stride_alignment = ⟨false, o, internalHeight⟩ := by
  refine ⟨?_, ?_, ?_⟩
  · intro h
    have hpar : Int.tmod width 2 ≠ 0 ∨ Int.tmod height 2 ≠ 0 := by
      rw [tmod_two_ne_zero, tmod_two_ne_zero]
      exact h
    simp only [get_yv12_stride_and_size, hpar, if_true]
  · by_cases h : width % 2 ≠ 0 ∨ height % 2 ≠ 0
    · have hpar : Int.tmod width 2 ≠ 0 ∨ Int.tmod height 2 ≠ 0 := by
        rw [tmod_two_ne_zero, tmod_two_ne_zero]
        exact h
      simp only [get_yv12_stride_and_size, hpar, if_true]
      constructor
      · intro hf
        exact absurd hf (by decide)
      · intro he
        omega
    · have hpar : ¬ (Int.tmod width 2 ≠ 0 ∨ Int.tmod height 2 ≠ 0) := by
        rw [tmod_two_ne_zero, tmod_two_ne_zero]
        exact h
      simp only [get_yv12_stride_and_size, hpar, if_false, ne_eq, not_true_eq_false]
      constructor
      · intro _
        omega
      · intro _
        trivial
  · have hpar : Int.tmod 1921 2 ≠ 0 ∨ Int.tmod 1080 2 ≠ 0 := by decide
    simp only [get_yv12_stride_and_size, hpar, if_true]

/-- C3 at the negative odd width -3 in wide-block mode. -/
theorem C3_yv12_rejects_odd_witness :
    ((-3 : Int) % 2 ≠ 0 ∨ (8 : Int) % 2 ≠ 0)
      ∧ get_yv12_stride_and_size true (-3) 8 ⟨some 5, some 6, some 7⟩
          AllocType.AFBC_WIDEBLK 8 128 = ⟨false, ⟨some 5, some 6, some 7⟩, 8⟩ :=
  ⟨by decide, (C3_yv12_rejects_odd true (-3) 8 128 8 ⟨some 5, some 6, some 7⟩
    AllocType.AFBC_WIDEBLK).1 (by decide)⟩

/-- C4: for every value >= 0 and every power of two base, the bit-mask expression
`GRALLOC_ALIGN(value, base)` equals `ceil(value / base) * base`; it is a multiple of
base, it is the least multiple of base that is >= value, value <= result < value + base,
and aligning the result again leaves it as it is. -/
theorem C4_GRALLOC_ALIGN_is_ceil_multiple (value : Int) (k : Nat) (hv : 0 ≤ value) :
    GRALLOC_ALIGN value (2 ^ k) = align value (2 ^ k)
      ∧ (2 : Int) ^ k ∣ GRALLOC_ALIGN value (2 ^ k)
      ∧ value ≤ GRALLOC_ALIGN value (2 ^ k)
      ∧ (∀ m : Int, (2 : Int) ^ k ∣ m → value ≤ m → GRALLOC_ALIGN value (2 ^ k) ≤ m)
      ∧ GRALLOC_ALIGN value (2 ^ k) < value + 2 ^ k
      ∧ GRALLOC_ALIGN (GRALLOC_ALIGN value (2 ^ k)) (2 ^ k) = GRALLOC_ALIGN value (2 ^ k) := by
  have hb : (0 : Int) < 2 ^ k := by positivity
  have hdiv := GRALLOC_ALIGN_eq_div value k hv
  have hmod := Int.emod_add_ediv (value + (2 ^ k - 1)) (2 ^ k)
  have hr0 := Int.emod_nonneg (value + (2 ^ k - 1)) (ne_of_gt hb)
  have hr1 := Int.emod_lt_of_pos (value + (2 ^ k - 1)) hb
  have hcomm : (value + (2 ^ k - 1)) / 2 ^ k * 2 ^ k
      = 2 ^ k * ((value + (2 ^ k - 1)) / 2 ^ k) := Int.mul_comm _ _
  have hle : value ≤ GRALLOC_ALIGN value (2 ^ k) := by rw [hdiv]; omega
  have hlt : GRALLOC_ALIGN value (2 ^ k) < value + 2 ^ k := by rw [hdiv]; omega
  have hdvd : (2 : Int) ^ k ∣ GRALLOC_ALIGN value (2 ^ k) := by
    rw [hdiv]
    exact Dvd.intro_left _ rfl
  refine ⟨GRALLOC_ALIGN_eq_align value k hv, hdvd, hle, ?_, hlt, ?_⟩
  · intro m hm hvm
    obtain ⟨c, rfl⟩ := hm
    rw [hdiv, hcomm]
    apply Int.mul_le_mul_of_nonneg_left _ (le_of_lt hb)
    rw [← Int.lt_add_one_iff, Int.ediv_lt_iff_lt_mul hb]
    nlinarith
  · have hnn : 0 ≤ GRALLOC_ALIGN value (2 ^ k) := le_trans hv hle
    obtain ⟨c, hc⟩ := hdvd
    rw [GRALLOC_ALIGN_eq_div _ k hnn, hc]
    have h1 : 2 ^ k * c + (2 ^ k - 1) = (2 ^ k - 1) + 2 ^ k * c := by ring
    rw [h1, Int.add_mul_ediv_left _ _ (ne_of_gt hb),
      Int.ediv_eq_zero_of_lt (by omega) (by omega)]
    ring

/-- C4 at value 1081 and base 16. -/
theorem C4_GRALLOC_ALIGN_is_ceil_multiple_witness :
    (0 : Int) ≤ 1081 ∧ GRALLOC_ALIGN 1081 (2 ^ 4) = align 1081 (2 ^ 4)
      ∧ GRALLOC_ALIGN 1081 (2 ^ 4) = 1088 :=
  ⟨by decide, (C4_GRALLOC_ALIGN_is_ceil_multiple 1081 4 (by decide)).1, by decide⟩

/-! ## Block-compressed layouts -/

/-- The header-block count: the left-to-right expression `w / 16 * h / 16` of the source
is the product `(w / 16) * (h / 16)` when the height is block-aligned. -/
theorem nblocks_eq (w h : Int) (hw : 0 ≤ w) (hh : 0 ≤ h) :
    Int.tdiv (Int.tdiv w 16 * align h 16) 16 = (w / 16) * (align h 16 / 16) := by
  have hw16 : 0 ≤ w / 16 := Int.ediv_nonneg hw (by decide)
  have ha : 0 ≤ align h 16 := align_nonneg _ _ hh (by decide)
  rw [Int.tdiv_eq_ediv hw (by decide), Int.tdiv_eq_ediv (Int.mul_nonneg hw16 ha) (by decide)]
  obtain ⟨c, hc⟩ := align_dvd h 16
  rw [hc, Int.mul_ediv_cancel_left _ (by decide : (16 : Int) ≠ 0), ← Int.mul_assoc,
    Int.mul_comm (w / 16) 16, Int.mul_assoc,
    Int.mul_ediv_cancel_left _ (by decide : (16 : Int) ≠ 0)]

theorem nblocks_nonneg (w h : Int) (hw : 0 ≤ w) (hh : 0 ≤ h) :
    0 ≤ (w / 16) * (align h 16 / 16) * 16 := by
  have hw16 : 0 ≤ w / 16 := Int.ediv_nonneg hw (by decide)
  have ha : 0 ≤ align h 16 / 16 :=
    Int.ediv_nonneg (align_nonneg _ _ hh (by decide)) (by decide)
  positivity

/-- The block-aligned width computed by the compressed calculators, for a width >= 0. -/
theorem block_width_eq (width : Int) (type : AllocType) (hw : 0 ≤ width) :
    (if type = AllocType.AFBC_WIDEBLK then GRALLOC_ALIGN width AFBC_WIDEBLK_WIDTH_ALIGN
      else GRALLOC_ALIGN width AFBC_PIXELS_PER_BLOCK)
      = align width (if type = AllocType.AFBC_WIDEBLK then 32 else 16) := by
  by_cases h : type = AllocType.AFBC_WIDEBLK
  · simp only [h, if_true, AFBC_WIDEBLK_WIDTH_ALIGN, GRALLOC_ALIGN_32 _ hw]
  · simp only [h, if_false, AFBC_PIXELS_PER_BLOCK, GRALLOC_ALIGN_16 _ hw]

/-- In exact arithmetic: for every width >= 0, height >= 0, pixel_size in {2, 3, 4} and compressed type,
`get_rgb_stride_and_size` stores size = aligned_w * aligned_h * pixel_size +
align(num_blocks * 16, 1024) with aligned_h = align(height, 16), aligned_w =
align(width, 16 / 32 / 64) for AFBC / AFBC_WIDEBLK / AFBC_PADDED and num_blocks =
(aligned_w / 16) * (aligned_h / 16), which is the value of the source's
`w_aligned / 16 * h_aligned / 16`. -/
theorem rgb_compressed_exact (width height pixel_size : Int) (o : Outs) (type : AllocType)
    (hw : 0 ≤ width) (hh : 0 ≤ height)
    (hp : pixel_size = 2 ∨ pixel_size = 3 ∨ pixel_size = 4)
    (ht : type ≠ AllocType.UNCOMPRESSED) :
    (get_rgb_stride_and_size width height pixel_size o type).size
        = store o.size (spec_rgb_afbc_size (align width (spec_block_width_align type))
            (align height 16) pixel_size)
      ∧ Int.tdiv (Int.tdiv (align width (spec_block_width_align type)) 16 * align height 16) 16
        = (align width (spec_block_width_align type) / 16) * (align height 16 / 16)
      ∧ spec_block_width_align AllocType.AFBC = 16
      ∧ spec_block_width_align AllocType.AFBC_WIDEBLK = 32
      ∧ spec_block_width_align AllocType.AFBC_PADDED = 64 := by
  have hwp : 0 ≤ width * pixel_size := by
    rcases hp with h | h | h <;> subst h <;> omega
  have hsa : 0 < spec_block_width_align type := by cases type <;> decide
  have haw : 0 ≤ align width (spec_block_width_align type) := align_nonneg _ _ hw hsa
  have hwa : (if type = AllocType.AFBC_PADDED then GRALLOC_ALIGN width 64
      else if type = AllocType.AFBC_WIDEBLK then GRALLOC_ALIGN width AFBC_WIDEBLK_WIDTH_ALIGN
      else GRALLOC_ALIGN width AFBC_PIXELS_PER_BLOCK)
      = align width (spec_block_width_align type) := by
    cases type
    · exact absurd rfl ht
    · simp [spec_block_width_align, AFBC_PIXELS_PER_BLOCK, GRALLOC_ALIGN_16 _ hw]
    · simp [spec_block_width_align, AFBC_WIDEBLK_WIDTH_ALIGN, GRALLOC_ALIGN_32 _ hw]
    · simp [spec_block_width_align, GRALLOC_ALIGN_64 _ hw]
  have hnb := nblocks_eq _ height haw hh
  refine ⟨?_, hnb, rfl, rfl, rfl⟩
  have hah : GRALLOC_ALIGN height AFBC_PIXELS_PER_BLOCK = align height 16 := by
    simp only [AFBC_PIXELS_PER_BLOCK, GRALLOC_ALIGN_16 _ hh]
  simp only [get_rgb_stride_and_size, ht, ne_eq, not_false_eq_true, if_true, hwa, hah]
  simp only [AFBC_PIXELS_PER_BLOCK, AFBC_HEADER_BUFFER_BYTES_PER_BLOCKENTRY,
    AFBC_BODY_BUFFER_BYTE_ALIGNMENT, hnb, GRALLOC_ALIGN_1024 _ (nblocks_nonneg _ _ haw hh),
    spec_rgb_afbc_size, store, Option.map_map]
  rfl

/-- C7: each of the four block-compressed YUV calculators returns false (and writes
nothing) for every width and height when the type is UNCOMPRESSED and when it is
AFBC_PADDED; the two 8-bit calculators return true for every width and height when the
type is AFBC or AFBC_WIDEBLK. -/
theorem C7_afbc_yuv_mode_checks (extra_row : Bool) (width height internalHeight : Int)
    (o : Outs) :
    (get_afbc_yuv420_8bit_stride_and_size extra_row width height o AllocType.UNCOMPRESSED
        internalHeight = ⟨false, o, internalHeight⟩
      ∧ get_afbc_yuv420_8bit_stride_and_size extra_row width height o AllocType.AFBC_PADDED
        internalHeight = ⟨false, o, internalHeight⟩
      ∧ get_afbc_yuv422_8bit_stride_and_size width height o AllocType.UNCOMPRESSED
        = ⟨false, o⟩
      ∧ get_afbc_yuv422_8bit_stride_and_size width height o AllocType.AFBC_PADDED
        = ⟨false, o⟩
      ∧ get_yuv420_10bit_afbc_stride_and_size width height o AllocType.UNCOMPRESSED
        = ⟨false, o⟩
      ∧ get_yuv420_10bit_afbc_stride_and_size width height o AllocType.AFBC_PADDED
        = ⟨false, o⟩
      ∧ get_yuv422_10bit_afbc_stride_and_size width height o AllocType.UNCOMPRESSED
        = ⟨false, o⟩
      ∧ get_yuv422_10bit_afbc_stride_and_size width height o AllocType.AFBC_PADDED
        = ⟨false, o⟩)
    ∧ ((get_afbc_yuv420_8bit_stride_and_size extra_row width height o AllocType.AFBC
        internalHeight).ret = true
      ∧ (get_afbc_yuv420_8bit_stride_and_size extra_row width height o
        AllocType.AFBC_WIDEBLK internalHeight).ret = true
      ∧ (get_afbc_yuv422_8bit_stride_and_size width height o AllocType.AFBC).ret = true
      ∧ (get_afbc_yuv422_8bit_stride_and_size width height o
        AllocType.AFBC_WIDEBLK).ret = true) := by
  refine ⟨⟨rfl, rfl, rfl, rfl, ?_, ?_, ?_, ?_⟩, rfl, rfl, rfl, rfl⟩
  · by_cases h : int_and width 3 ≠ 0 <;> simp [get_yuv420_10bit_afbc_stride_and_size, h]
  · by_cases h : int_and width 3 ≠ 0 <;> simp [get_yuv420_10bit_afbc_stride_and_size, h]
  · by_cases h : int_and width 3 ≠ 0 <;> simp [get_yuv422_10bit_afbc_stride_and_size, h]
  · by_cases h : int_and width 3 ≠ 0 <;> simp [get_yuv422_10bit_afbc_stride_and_size, h]

/-! ## The dimension checks and the dispatch under AFBC_PADDED -/

theorem pX10_ret_false_iff (width height vss : Int) (o : Outs) :
    (get_yuv_pX10_stride_and_size width height vss o).ret = false
      ↔ (¬ (vss = 1 ∨ vss = 2) ∨ width % 2 ≠ 0 ∨ (vss = 2 ∧ height % 2 ≠ 0)) := by
  unfold get_yuv_pX10_stride_and_size
  rw [int_and_one, int_and_one]
  split_ifs with h1 h2
  · simp only [true_iff]
    omega
  · simp only [true_iff]
    omega
  · simp only [Bool.true_eq_false, false_iff]
    omega

theorem y210_ret_false_iff (width height : Int) (o : Outs) :
    (get_yuv_y210_stride_and_size width height o).ret = false ↔ width % 2 ≠ 0 := by
  unfold get_yuv_y210_stride_and_size
  rw [int_and_one]
  split_ifs with h1
  · simp only [true_iff]
    exact h1
  · simp only [Bool.true_eq_false, false_iff]
    exact h1

theorem y0l2_ret_false_iff (width height : Int) (o : Outs) :
    (get_yuv_y0l2_stride_and_size width height o).ret = false ↔ width % 4 ≠ 0 := by
  unfold get_yuv_y0l2_stride_and_size
  rw [int_and_three]
  split_ifs with h1
  · simp only [true_iff]
    exact h1
  · simp only [Bool.true_eq_false, false_iff]
    exact h1

theorem yv12_padded_ret (extra_row : Bool) (width height internalHeight sa : Int)
    (o : Outs) :
    (get_yv12_stride_and_size extra_row width height o AllocType.AFBC_PADDED
      internalHeight sa).ret = false := by
  unfold get_yv12_stride_and_size
  split_ifs with h1 h2
  · rfl
  · rfl
  · exact absurd (by decide) h2

theorem yuv420_10bit_padded_ret (width height : Int) (o : Outs) :
    (get_yuv420_10bit_afbc_stride_and_size width height o AllocType.AFBC_PADDED).ret
      = false := by
  by_cases h : int_and width 3 ≠ 0 <;> simp [get_yuv420_10bit_afbc_stride_and_size, h]

theorem yuv422_10bit_padded_ret (width height : Int) (o : Outs) :
    (get_yuv422_10bit_afbc_stride_and_size width height o AllocType.AFBC_PADDED).ret
      = false := by
  by_cases h : int_and width 3 ≠ 0 <;> simp [get_yuv422_10bit_afbc_stride_and_size, h]

theorem of_ret_failed (type : AllocType) (iw ih : Int) (r : Ret) :
    (LayoutStage.of_ret type iw ih r).failed = !r.ret := by
  unfold LayoutStage.of_ret
  cases hr : r.ret <;> simp [LayoutStage.failed]

/-- C8 (as amended): when the type selected by `drm_gem_rockchip_alloc` is AFBC_PADDED,
the layout computation fails for every width and height in the planar YV12 and NV12
groups and in the four block-compressed YUV families; the P010, P210, Y210, Y0L2 and
Y410 calculators receive no allocation type, and there the computation fails exactly on
their own dimension checks: P010 when width or height is odd, P210 and Y210 when width is
odd, Y0L2 when width is not a multiple of 4, Y410 never. -/
theorem C8_padded_yuv_layout (p : Platform) (internal_format : Nat) (usage w h : Int)
    (locals : Outs)
    (htype : drm_gem_rockchip_alloc_type p internal_format usage
      = some AllocType.AFBC_PADDED) :
    ((internal_format &&& p.GRALLOC_ARM_INTFMT_EXTENDED_YUV
          ≠ p.GRALLOC_ARM_INTFMT_EXTENDED_YUV
        ∧ internal_format &&& p.GRALLOC_ARM_INTFMT_ARM_AFBC_YUV
          ≠ p.GRALLOC_ARM_INTFMT_ARM_AFBC_YUV) →
      (base_case p (internal_format &&& p.GRALLOC_ARM_INTFMT_FMT_MASK)
          = BaseCase.YCrCb_420_SP
        ∨ base_case p (internal_format &&& p.GRALLOC_ARM_INTFMT_FMT_MASK)
          = BaseCase.YCrCb_NV12) →
      (drm_gem_rockchip_alloc_layout p internal_format usage w h locals).failed = true)
    ∧ (¬ (internal_format &&& p.GRALLOC_ARM_INTFMT_EXTENDED_YUV
          ≠ p.GRALLOC_ARM_INTFMT_EXTENDED_YUV
        ∧ internal_format &&& p.GRALLOC_ARM_INTFMT_ARM_AFBC_YUV
          ≠ p.GRALLOC_ARM_INTFMT_ARM_AFBC_YUV) →
      ∀ c, indexed_case p (internal_format &&& p.GRALLOC_ARM_INTFMT_FMT_MASK) = c →
        ((c = IndexedCase.YUV420_8BIT_AFBC ∨ c = IndexedCase.YUV422_8BIT_AFBC
            ∨ c = IndexedCase.YUV420_10BIT_AFBC ∨ c = IndexedCase.YUV422_10BIT_AFBC) →
          (drm_gem_rockchip_alloc_layout p internal_format usage w h locals).failed = true)
        ∧ (c = IndexedCase.P010 →
          ((drm_gem_rockchip_alloc_layout p internal_format usage w h locals).failed = true
            ↔ (w % 2 ≠ 0 ∨ h % 2 ≠ 0)))
        ∧ (c = IndexedCase.P210 →
          ((drm_gem_rockchip_alloc_layout p internal_format usage w h locals).failed = true
            ↔ w % 2 ≠ 0))
        ∧ (c = IndexedCase.Y210 →
          ((drm_gem_rockchip_alloc_layout p internal_format usage w h locals).failed = true
            ↔ w % 2 ≠ 0))
        ∧ (c = IndexedCase.Y0L2 →
          ((drm_gem_rockchip_alloc_layout p internal_format usage w h locals).failed = true
            ↔ w % 4 ≠ 0))
        ∧ (c = IndexedCase.Y410 →
          (drm_gem_rockchip_alloc_layout p internal_format usage w h locals).failed
            = false)) := by
  constructor
  · intro hb hc
    have hb' : (decide (internal_format &&& p.GRALLOC_ARM_INTFMT_EXTENDED_YUV
          = p.GRALLOC_ARM_INTFMT_EXTENDED_YUV) = false
        ∧ decide (internal_format &&& p.GRALLOC_ARM_INTFMT_ARM_AFBC_YUV
          = p.GRALLOC_ARM_INTFMT_ARM_AFBC_YUV) = false) := by
      simpa using hb
    rcases hc with hc | hc
    · simp only [drm_gem_rockchip_alloc_layout, htype, hb', and_self, if_true, hc,
        yv12_padded_ret, LayoutStage.failed]
    · simp only [drm_gem_rockchip_alloc_layout, htype, hb', and_self, if_true, hc,
        yv12_padded_ret, LayoutStage.failed]
  · intro hb c hc
    have hb' : ¬ (decide (internal_format &&& p.GRALLOC_ARM_INTFMT_EXTENDED_YUV
          = p.GRALLOC_ARM_INTFMT_EXTENDED_YUV) = false
        ∧ decide (internal_format &&& p.GRALLOC_ARM_INTFMT_ARM_AFBC_YUV
          = p.GRALLOC_ARM_INTFMT_ARM_AFBC_YUV) = false) := by
      simpa using hb
    refine ⟨?_, ?_, ?_, ?_, ?_, ?_⟩
    · intro hcase
      rcases hcase with rfl | rfl | rfl | rfl
      · simp only [drm_gem_rockchip_alloc_layout, htype, hb', if_false, hc]
        simp [get_afbc_yuv420_8bit_stride_and_size, LayoutStage.failed]
      · simp only [drm_gem_rockchip_alloc_layout, htype, hb', if_false, hc, of_ret_failed]
        simp [get_afbc_yuv422_8bit_stride_and_size]
      · simp only [drm_gem_rockchip_alloc_layout, htype, hb', if_false, hc, of_ret_failed,
          yuv420_10bit_padded_ret, Bool.not_false]
      · simp only [drm_gem_rockchip_alloc_layout, htype, hb', if_false, hc, of_ret_failed,
          yuv422_10bit_padded_ret, Bool.not_false]
    · rintro rfl
      simp only [drm_gem_rockchip_alloc_layout, htype, hb', if_false, hc, of_ret_failed,
        Bool.not_eq_true', pX10_ret_false_iff]
      simp
    · rintro rfl
      simp only [drm_gem_rockchip_alloc_layout, htype, hb', if_false, hc, of_ret_failed,
        Bool.not_eq_true', pX10_ret_false_iff]
      simp
    · rintro rfl
      simp only [drm_gem_rockchip_alloc_layout, htype, hb', if_false, hc, of_ret_failed,
        Bool.not_eq_true', y210_ret_false_iff]
    · rintro rfl
      simp only [drm_gem_rockchip_alloc_layout, htype, hb', if_false, hc, of_ret_failed,
        Bool.not_eq_true', y0l2_ret_false_iff]
    · rintro rfl
      simp only [drm_gem_rockchip_alloc_layout, htype, hb', if_false, hc, of_ret_failed]
      simp [get_yuv_y410_stride_and_size]

/-- C8 (as amended) at a 1920 x 1080 request for YCrCb_420_SP with the AFBC bit and the
usage bit GRALLOC_USAGE_PRIVATE_2. -/
theorem C8_padded_yuv_layout_witness :
    drm_gem_rockchip_alloc_type sample_platform 0x100000011 0x40000000
        = some AllocType.AFBC_PADDED
      ∧ (drm_gem_rockchip_alloc_layout sample_platform 0x100000011 0x40000000 1920 1080
          ⟨some 0, some 0, some 0⟩).failed = true :=
  ⟨by decide,
    (C8_padded_yuv_layout sample_platform 0x100000011 0x40000000 1920 1080
      ⟨some 0, some 0, some 0⟩ (by decide)).1 (by decide) (by decide)⟩

/-- C8 as stated fails: a 1920 x 1080 request for the Y410 family (extended-YUV bit, AFBC
bit) with the usage bit GRALLOC_USAGE_PRIVATE_2 selects AFBC_PADDED, and the layout
computation succeeds with byte_stride 7680 and size 8294400. -/
theorem C8_padded_y410_succeeds :
    drm_gem_rockchip_alloc_type sample_platform 0x900000104 0x40000000
        = some AllocType.AFBC_PADDED
      ∧ indexed_case sample_platform
          (0x900000104 &&& sample_platform.GRALLOC_ARM_INTFMT_FMT_MASK) = IndexedCase.Y410
      ∧ drm_gem_rockchip_alloc_layout sample_platform 0x900000104 0x40000000 1920 1080
          ⟨some 0, some 0, some 0⟩
        = LayoutStage.computed AllocType.AFBC_PADDED
            ⟨some 1920, some 7680, some 8294400⟩ 1920 1080
      ∧ (drm_gem_rockchip_alloc_layout sample_platform 0x900000104 0x40000000 1920 1080
          ⟨some 0, some 0, some 0⟩).failed = false := by
  decide

/-! ## The 10-bit layouts -/

/-- In exact arithmetic: for every width >= 0 and height >= 0, `get_yuv_y210_stride_and_size` (when it
accepts the width) and `get_yuv_y410_stride_and_size` store byte_stride =
align(width * 4, 128), pixel_stride = align(width, 128) and size = byte_stride * height;
the Y210 calculator returns false exactly when width is odd, and the Y410 calculator
always returns true. -/
theorem yuv_y210_y410_exact (width height : Int) (o : Outs) :
    ((get_yuv_y210_stride_and_size width height o).ret = false ↔ width % 2 ≠ 0)
      ∧ (get_yuv_y410_stride_and_size width height o).ret = true
      ∧ (0 ≤ width → 0 ≤ height → width % 2 = 0 →
          get_yuv_y210_stride_and_size width height o
            = ⟨true,
                { pixel_stride := store o.pixel_stride (align width 128),
                  byte_stride := store o.byte_stride (align (width * 4) 128),
                  size := store o.size (align (width * 4) 128 * height) }⟩)
      ∧ (0 ≤ width → 0 ≤ height →
          get_yuv_y410_stride_and_size width height o
            = ⟨true,
                { pixel_stride := store o.pixel_stride (align width 128),
                  byte_stride := store o.byte_stride (align (width * 4) 128),
                  size := store o.size (align (width * 4) 128 * height) }⟩) := by
  refine ⟨y210_ret_false_iff width height o, rfl, ?_, ?_⟩
  · intro hw _ he
    have h1 : ¬ (int_and width 1 ≠ 0) := by
      rw [int_and_one]
      omega
    simp only [get_yuv_y210_stride_and_size, h1, if_false, YUV_MALI_PLANE_ALIGN,
      GRALLOC_ALIGN_128 _ hw, GRALLOC_ALIGN_128 _ (by omega : 0 ≤ width * 4)]
  · intro hw _
    simp only [get_yuv_y410_stride_and_size, YUV_MALI_PLANE_ALIGN,
      GRALLOC_ALIGN_128 _ hw, GRALLOC_ALIGN_128 _ (by omega : 0 ≤ width * 4)]

/-! ## Y0L2 and the remaining block-compressed layouts -/

/-- Aligning a multiple of 16 (the block-aligned width, times any factor) to 16 leaves it
as it is. -/
theorem align_16_of_dvd (v : Int) (h : v % 16 = 0) : align v 16 = v := by
  unfold align
  omega

theorem align_16_mod (v : Int) : align v 16 % 16 = 0 := by
  unfold align
  omega

theorem align_32_mod (v : Int) : align v 32 % 16 = 0 := by
  unfold align
  omega

/-- A mask with the low `k` bits set stays below every bit it is OR-ed into. -/
theorem nat_lor_mask_mod (m k : Nat) : (m ||| (2 ^ k - 1)) % 2 ^ k = 2 ^ k - 1 := by
  rw [← Nat.and_pow_two_sub_one_eq_mod]
  apply Nat.eq_of_testBit_eq
  intro i
  rw [Nat.testBit_and, Nat.testBit_lor, Nat.testBit_two_pow_sub_one]
  by_cases h : i < k <;> simp [h]

/-- The bit mask always yields a multiple of the power of two `base`, whatever the sign
of `value`. -/
theorem GRALLOC_ALIGN_dvd (value : Int) (k : Nat) :
    (2 : Int) ^ k ∣ GRALLOC_ALIGN value (2 ^ k) := by
  have hpos : 0 < 2 ^ k := Nat.pos_pow_of_pos k (by decide)
  have hM : ((2 : Int) ^ k - 1) = ((2 ^ k - 1 : Nat) : Int) := by
    simp [Nat.cast_sub hpos]
  unfold GRALLOC_ALIGN
  rw [hM]
  generalize value + ((2 ^ k - 1 : Nat) : Int) = x
  cases x with
  | ofNat n =>
    show (2 : Int) ^ k ∣ Int.ofNat (n ^^^ (n &&& (2 ^ k - 1)))
    rw [nat_clear_low_bits]
    exact ⟨((n / 2 ^ k : Nat) : Int), by simp [Int.mul_comm]⟩
  | negSucc m =>
    show (2 : Int) ^ k ∣ Int.negSucc (m ||| (2 ^ k - 1))
    rw [Int.dvd_iff_emod_eq_zero, Int.emod_negSucc]
    have habs : ((2 : Int) ^ k).natAbs = 2 ^ k := by simp [Int.natAbs_pow]
    rw [habs, nat_lor_mask_mod, Int.subNatNat_of_le (by omega)]
    have : 2 ^ k - (2 ^ k - 1).succ = 0 := by omega
    rw [this]
    rfl

theorem GRALLOC_ALIGN_dvd_16 (v : Int) : (16 : Int) ∣ GRALLOC_ALIGN v 16 := by
  have h := GRALLOC_ALIGN_dvd v 4
  norm_num at h
  exact h

theorem GRALLOC_ALIGN_dvd_32 (v : Int) : (32 : Int) ∣ GRALLOC_ALIGN v 32 := by
  have h := GRALLOC_ALIGN_dvd v 5
  norm_num at h
  exact h

theorem GRALLOC_ALIGN_dvd_64 (v : Int) : (64 : Int) ∣ GRALLOC_ALIGN v 64 := by
  have h := GRALLOC_ALIGN_dvd v 6
  norm_num at h
  exact h

theorem GRALLOC_ALIGN_dvd_128 (v : Int) : (128 : Int) ∣ GRALLOC_ALIGN v 128 := by
  have h := GRALLOC_ALIGN_dvd v 7
  norm_num at h
  exact h

/-- In exact arithmetic: `get_yuv_y0l2_stride_and_size` returns false exactly when width is not a
multiple of 4, whatever the height (odd heights pass); otherwise, for width, height >= 0,
it stores byte_stride = align(width * 4, 128) and size = byte_stride * (height / 2), the
quotient truncated. -/
theorem yuv_y0l2_exact (width height : Int) (o : Outs) :
    ((get_yuv_y0l2_stride_and_size width height o).ret = false ↔ width % 4 ≠ 0)
      ∧ (width % 4 = 0 → 0 ≤ width → 0 ≤ height →
          (get_yuv_y0l2_stride_and_size width height o).ret = true
          ∧ (get_yuv_y0l2_stride_and_size width height o).outs.byte_stride
            = store o.byte_stride (align (width * 4) 128)
          ∧ (get_yuv_y0l2_stride_and_size width height o).outs.size
            = store o.size (align (width * 4) 128 * Int.tdiv height 2)
          ∧ Int.tdiv height 2 = height / 2)
      ∧ (get_yuv_y0l2_stride_and_size 8 5 ⟨some 0, some 0, some 0⟩
          = ⟨true, ⟨some 128, some 128, some 256⟩⟩) := by
  refine ⟨y0l2_ret_false_iff width height o, ?_, by decide⟩
  intro h4 hw hh
  have h1 : ¬ (int_and width 3 ≠ 0) := by
    rw [int_and_three]
    omega
  refine ⟨?_, ?_, ?_, Int.tdiv_eq_ediv hh (by decide)⟩
  · simp only [get_yuv_y0l2_stride_and_size, h1, if_false]
  · simp only [get_yuv_y0l2_stride_and_size, h1, if_false, YUV_MALI_PLANE_ALIGN,
      GRALLOC_ALIGN_128 _ (by omega : 0 ≤ width * 4)]
  · simp only [get_yuv_y0l2_stride_and_size, h1, if_false, YUV_MALI_PLANE_ALIGN,
      GRALLOC_ALIGN_128 _ (by omega : 0 ≤ width * 4)]

theorem block_align_pos (type : AllocType) :
    (0 : Int) < (if type = AllocType.AFBC_WIDEBLK then 32 else 16) := by
  split_ifs <;> decide

theorem block_align_mod (width : Int) (type : AllocType) :
    align width (if type = AllocType.AFBC_WIDEBLK then 32 else 16) % 16 = 0 := by
  split_ifs
  · exact align_32_mod width
  · exact align_16_mod width

theorem yuv420_10bit_ret_false_iff (width height : Int) (o : Outs) (type : AllocType) :
    (get_yuv420_10bit_afbc_stride_and_size width height o type).ret = false
      ↔ (width % 4 ≠ 0 ∨ type = AllocType.UNCOMPRESSED ∨ type = AllocType.AFBC_PADDED) := by
  unfold get_yuv420_10bit_afbc_stride_and_size
  rw [int_and_three]
  split_ifs with h1 h2 h3
  · simp only [true_iff]
    exact Or.inl h1
  · simp only [true_iff]
    exact Or.inr (Or.inl h2)
  · simp only [true_iff]
    exact Or.inr (Or.inr h3)
  · simp only [Bool.true_eq_false, false_iff]
    intro h
    rcases h with h | h | h
    · exact h1 h
    · exact h2 h
    · exact h3 h

/-- The byte stride stored by the 10-bit 4:2:0 calculator on its success path. -/
theorem yuv420_10bit_byte_stride (width height : Int) (o : Outs) (type : AllocType)
    (hw : 0 ≤ width) (h4 : width % 4 = 0)
    (ht : type = AllocType.AFBC ∨ type = AllocType.AFBC_WIDEBLK) :
    (get_yuv420_10bit_afbc_stride_and_size width height o type).outs.byte_stride
      = store o.byte_stride
          (align (align width (if type = AllocType.AFBC_WIDEBLK then 32 else 16) * 4) 16) := by
  have h0 : ¬ (int_and width 3 ≠ 0) := by
    rw [int_and_three]
    omega
  have h1 : type ≠ AllocType.UNCOMPRESSED := by rcases ht with h | h <;> subst h <;> decide
  have h2 : type ≠ AllocType.AFBC_PADDED := by rcases ht with h | h <;> subst h <;> decide
  have hl := align_nonneg width _ hw (block_align_pos type)
  simp only [get_yuv420_10bit_afbc_stride_and_size, h0, h1, h2, if_false,
    block_width_eq _ _ hw, GRALLOC_ALIGN_16 _ (by omega :
      0 ≤ align width (if type = AllocType.AFBC_WIDEBLK then 32 else 16) * 4)]

/-- The byte stride stored by the 10-bit 4:2:2 calculator on its success path. -/
theorem yuv422_10bit_byte_stride (width height : Int) (o : Outs) (type : AllocType)
    (hw : 0 ≤ width) (h4 : width % 4 = 0)
    (ht : type = AllocType.AFBC ∨ type = AllocType.AFBC_WIDEBLK) :
    (get_yuv422_10bit_afbc_stride_and_size width height o type).outs.byte_stride
      = store o.byte_stride
          (align (align width (if type = AllocType.AFBC_WIDEBLK then 32 else 16) * 2) 16) := by
  have h0 : ¬ (int_and width 3 ≠ 0) := by
    rw [int_and_three]
    omega
  have h1 : type ≠ AllocType.UNCOMPRESSED := by rcases ht with h | h <;> subst h <;> decide
  have h2 : type ≠ AllocType.AFBC_PADDED := by rcases ht with h | h <;> subst h <;> decide
  have hl := align_nonneg width _ hw (block_align_pos type)
  simp only [get_yuv422_10bit_afbc_stride_and_size, h0, h1, h2, if_false,
    block_width_eq _ _ hw, GRALLOC_ALIGN_16 _ (by omega :
      0 ≤ align width (if type = AllocType.AFBC_WIDEBLK then 32 else 16) * 2)]

/-- In exact arithmetic: for every width >= 0 that is a multiple of 4, every height >= 0
and type AFBC or AFBC_WIDEBLK, with W the block-aligned width (16 for AFBC, 32 for
AFBC_WIDEBLK), `get_yuv420_10bit_afbc_stride_and_size` stores byte_stride =
align(W * 4, 16) = 4 * W, and `get_yuv422_10bit_afbc_stride_and_size` stores byte_stride =
align(W * 2, 16) = 2 * W. -/
theorem afbc_10bit_byte_stride_exact (width height : Int) (o : Outs) (type : AllocType)
    (hw : 0 ≤ width) (h4 : width % 4 = 0) (_hh : 0 ≤ height)
    (ht : type = AllocType.AFBC ∨ type = AllocType.AFBC_WIDEBLK) :
    let W := align width (if type = AllocType.AFBC_WIDEBLK then 32 else 16)
    (get_yuv420_10bit_afbc_stride_and_size width height o type).outs.byte_stride
        = store o.byte_stride (align (W * 4) 16)
      ∧ align (W * 4) 16 = 4 * W
      ∧ (get_yuv422_10bit_afbc_stride_and_size width height o type).outs.byte_stride
        = store o.byte_stride (align (W * 2) 16)
      ∧ align (W * 2) 16 = 2 * W := by
  intro W
  have hm : W % 16 = 0 := block_align_mod width type
  refine ⟨yuv420_10bit_byte_stride width height o type hw h4 ht, ?_,
    yuv422_10bit_byte_stride width height o type hw h4 ht, ?_⟩
  · rw [align_16_of_dvd _ (by omega)]
    omega
  · rw [align_16_of_dvd _ (by omega)]
    omega

/-- In exact arithmetic: `get_yuv420_10bit_afbc_stride_and_size` returns false exactly when width is not
a multiple of 4 or the type is UNCOMPRESSED or AFBC_PADDED; otherwise, for width, height
>= 0, with W = align(width, 16 resp. 32) and H = align(height / 2, 16), the height halved
with truncation before the block alignment, it stores pixel_stride = W, byte_stride =
4 * W and size = byte_stride * H + align((W / 16) * (H / 16) * 16, 1024). -/
theorem yuv420_10bit_afbc_exact (width height : Int) (o : Outs) (type : AllocType) :
    ((get_yuv420_10bit_afbc_stride_and_size width height o type).ret = false
        ↔ (width % 4 ≠ 0 ∨ type = AllocType.UNCOMPRESSED ∨ type = AllocType.AFBC_PADDED))
      ∧ (¬ (width % 4 ≠ 0 ∨ type = AllocType.UNCOMPRESSED ∨ type = AllocType.AFBC_PADDED) →
          0 ≤ width → 0 ≤ height →
          let W := align width (if type = AllocType.AFBC_WIDEBLK then 32 else 16)
          let H := align (Int.tdiv height 2) 16
          get_yuv420_10bit_afbc_stride_and_size width height o type
            = ⟨true,
                { pixel_stride := store o.pixel_stride W,
                  byte_stride := store o.byte_stride (4 * W),
                  size := store o.size (4 * W * H +
                    align ((W / 16) * (H / 16) * 16) 1024) }⟩) := by
  refine ⟨yuv420_10bit_ret_false_iff width height o type, ?_⟩
  intro hc hw hh W H
  have h0 : ¬ (int_and width 3 ≠ 0) := by
    rw [int_and_three]
    omega
  have h1 : type ≠ AllocType.UNCOMPRESSED := fun h => hc (Or.inr (Or.inl h))
  have h2 : type ≠ AllocType.AFBC_PADDED := fun h => hc (Or.inr (Or.inr h))
  have hl : 0 ≤ W := align_nonneg width _ hw (block_align_pos type)
  have hm : W % 16 = 0 := block_align_mod width type
  have hh2 : 0 ≤ Int.tdiv height 2 := by
    rw [Int.tdiv_eq_ediv hh (by decide)]
    omega
  have hah : GRALLOC_ALIGN (Int.tdiv height 2) AFBC_PIXELS_PER_BLOCK = H := by
    simp only [AFBC_PIXELS_PER_BLOCK, GRALLOC_ALIGN_16 _ hh2, H]
  have hnb := nblocks_eq W (Int.tdiv height 2) hl hh2
  have hps : GRALLOC_ALIGN W 16 = W := by
    rw [GRALLOC_ALIGN_16 _ hl, align_16_of_dvd _ hm]
  have hbs : GRALLOC_ALIGN (W * 4) 16 = 4 * W := by
    rw [GRALLOC_ALIGN_16 _ (by omega), align_16_of_dvd _ (by omega)]
    omega
  simp only [get_yuv420_10bit_afbc_stride_and_size, h0, h1, h2, if_false,
    block_width_eq _ _ hw, hah]
  simp only [AFBC_PIXELS_PER_BLOCK, AFBC_HEADER_BUFFER_BYTES_PER_BLOCKENTRY,
    AFBC_BODY_BUFFER_BYTE_ALIGNMENT]
  rw [show align width (if type = AllocType.AFBC_WIDEBLK then 32 else 16) = W from rfl,
    hps, hbs, hnb, GRALLOC_ALIGN_1024 _ (nblocks_nonneg _ _ hl hh2)]

/-! ## Stride alignment of every family -/

theorem store_eq_some (p : Option Int) (v b : Int) (h : store p v = some b) : b = v := by
  cases p with
  | none => simp [store] at h
  | some x =>
    simp [store] at h
    exact h.symm

theorem dvd_16_block_width (width : Int) (type : AllocType) :
    (16 : Int) ∣ (if type = AllocType.AFBC_WIDEBLK
      then GRALLOC_ALIGN width AFBC_WIDEBLK_WIDTH_ALIGN
      else GRALLOC_ALIGN width AFBC_PIXELS_PER_BLOCK) := by
  split_ifs
  · exact Int.dvd_trans (by decide) (GRALLOC_ALIGN_dvd_32 width)
  · exact GRALLOC_ALIGN_dvd_16 width

/-- C15: whenever a calculator succeeds and reports a byte_stride, that stride is a
multiple of the family's alignment constant: 64 for `get_rgb_stride_and_size` (every
pixel_size and type), 128 for the P010/P210, Y210, Y0L2 and Y410 calculators, and 16 for
the four block-compressed YUV calculators. -/
theorem C15_byte_stride_multiple (extra_row : Bool)
    (width height pixel_size vss internalHeight : Int) (o : Outs) (type : AllocType)
    (b : Int) :
    ((get_rgb_stride_and_size width height pixel_size o type).byte_stride = some b →
        (64 : Int) ∣ b)
      ∧ ((get_yuv_pX10_stride_and_size width height vss o).ret = true →
          (get_yuv_pX10_stride_and_size width height vss o).outs.byte_stride = some b →
          (128 : Int) ∣ b)
      ∧ ((get_yuv_y210_stride_and_size width height o).ret = true →
          (get_yuv_y210_stride_and_size width height o).outs.byte_stride = some b →
          (128 : Int) ∣ b)
      ∧ ((get_yuv_y0l2_stride_and_size width height o).ret = true →
          (get_yuv_y0l2_stride_and_size width height o).outs.byte_stride = some b →
          (128 : Int) ∣ b)
      ∧ ((get_yuv_y410_stride_and_size width height o).ret = true →
          (get_yuv_y410_stride_and_size width height o).outs.byte_stride = some b →
          (128 : Int) ∣ b)
      ∧ ((get_afbc_yuv420_8bit_stride_and_size extra_row width height o type
            internalHeight).ret = true →
          (get_afbc_yuv420_8bit_stride_and_size extra_row width height o type
            internalHeight).outs.byte_stride = some b →
          (16 : Int) ∣ b)
      ∧ ((get_afbc_yuv422_8bit_stride_and_size width height o type).ret = true →
          (get_afbc_yuv422_8bit_stride_and_size width height o type).outs.byte_stride
            = some b →
          (16 : Int) ∣ b)
      ∧ ((get_yuv420_10bit_afbc_stride_and_size width height o type).ret = true →
          (get_yuv420_10bit_afbc_stride_and_size width height o type).outs.byte_stride
            = some b →
          (16 : Int) ∣ b)
      ∧ ((get_yuv422_10bit_afbc_stride_and_size width height o type).ret = true →
          (get_yuv422_10bit_afbc_stride_and_size width height o type).outs.byte_stride
            = some b →
          (16 : Int) ∣ b) := by
  refine ⟨?_, ?_, ?_, ?_, ?_, ?_, ?_, ?_, ?_⟩
  · intro hb
    unfold get_rgb_stride_and_size at hb
    split_ifs at hb <;>
      (rw [store_eq_some _ _ _ hb]; exact GRALLOC_ALIGN_dvd_64 _)
  · unfold get_yuv_pX10_stride_and_size
    split_ifs
    · intro hr; exact absurd hr (by decide)
    · intro hr; exact absurd hr (by decide)
    · intro _ hb
      rw [store_eq_some _ _ _ hb]
      exact GRALLOC_ALIGN_dvd_128 _
  · unfold get_yuv_y210_stride_and_size
    split_ifs
    · intro hr; exact absurd hr (by decide)
    · intro _ hb
      rw [store_eq_some _ _ _ hb]
      exact GRALLOC_ALIGN_dvd_128 _
  · unfold get_yuv_y0l2_stride_and_size
    split_ifs
    · intro hr; exact absurd hr (by decide)
    · intro _ hb
      rw [store_eq_some _ _ _ hb]
      exact GRALLOC_ALIGN_dvd_128 _
  · unfold get_yuv_y410_stride_and_size
    intro _ hb
    rw [store_eq_some _ _ _ hb]
    exact GRALLOC_ALIGN_dvd_128 _
  · by_cases h1 : type = AllocType.UNCOMPRESSED
    · simp [get_afbc_yuv420_8bit_stride_and_size, h1]
    · by_cases h2 : type = AllocType.AFBC_PADDED
      · simp [get_afbc_yuv420_8bit_stride_and_size, h2]
      · simp only [get_afbc_yuv420_8bit_stride_and_size, h1, h2, if_false]
        intro _ hb
        rw [store_eq_some _ _ _ hb]
        exact dvd_16_block_width width type
  · by_cases h1 : type = AllocType.UNCOMPRESSED
    · simp [get_afbc_yuv422_8bit_stride_and_size, h1]
    · by_cases h2 : type = AllocType.AFBC_PADDED
      · simp [get_afbc_yuv422_8bit_stride_and_size, h2]
      · simp only [get_afbc_yuv422_8bit_stride_and_size, h1, h2, if_false]
        intro _ hb
        rw [store_eq_some _ _ _ hb]
        exact dvd_16_block_width width type
  · by_cases h0 : int_and width 3 ≠ 0
    · simp [get_yuv420_10bit_afbc_stride_and_size, h0]
    · by_cases h1 : type = AllocType.UNCOMPRESSED
      · simp [get_yuv420_10bit_afbc_stride_and_size, h1]
      · by_cases h2 : type = AllocType.AFBC_PADDED
        · simp [get_yuv420_10bit_afbc_stride_and_size, h2]
        · simp only [get_yuv420_10bit_afbc_stride_and_size, h0, h1, h2, if_false]
          intro _ hb
          rw [store_eq_some _ _ _ hb]
          exact GRALLOC_ALIGN_dvd_16 _
  · by_cases h0 : int_and width 3 ≠ 0
    · simp [get_yuv422_10bit_afbc_stride_and_size, h0]
    · by_cases h1 : type = AllocType.UNCOMPRESSED
      · simp [get_yuv422_10bit_afbc_stride_and_size, h1]
      · by_cases h2 : type = AllocType.AFBC_PADDED
        · simp [get_yuv422_10bit_afbc_stride_and_size, h2]
        · simp only [get_yuv422_10bit_afbc_stride_and_size, h0, h1, h2, if_false]
          intro _ hb
          rw [store_eq_some _ _ _ hb]
          exact GRALLOC_ALIGN_dvd_16 _

/-- C15 at the 1086-pixel RGB_888 row (3258 bytes, stride 3264) and at the P010 request
1920 x 1080 (stride 3840). -/
theorem C15_byte_stride_multiple_witness :
    (get_rgb_stride_and_size 1086 4 3 ⟨some 0, some 0, some 0⟩
        AllocType.UNCOMPRESSED).byte_stride = some 3264
      ∧ (64 : Int) ∣ 3264
      ∧ (get_yuv_pX10_stride_and_size 1920 1080 2 ⟨some 0, some 0, some 0⟩).outs.byte_stride
        = some 3840
      ∧ (128 : Int) ∣ 3840 :=
  ⟨by decide,
    (C15_byte_stride_multiple false 1086 4 3 2 4 ⟨some 0, some 0, some 0⟩
      AllocType.UNCOMPRESSED 3264).1 (by decide),
    by decide,
    (C15_byte_stride_multiple false 1920 1080 4 2 1080 ⟨some 0, some 0, some 0⟩
      AllocType.UNCOMPRESSED 3840).2.1 (by decide) (by decide)⟩


/-! ## Handle validation and reference counting -/

theorem validate_handle_eq_zero_iff (abi : HandleABI) (handle : gralloc_drm_handle_t) :
    gralloc_drm_validate_handle abi (some handle) = 0
      ↔ (handle.base.version = (abi.sizeof_native_handle_t : Int)
          ∧ handle.base.numInts = (abi.GRALLOC_DRM_HANDLE_NUM_INTS : Int)
          ∧ handle.base.numFds = GRALLOC_DRM_HANDLE_NUM_FDS
          ∧ handle.magic = GRALLOC_DRM_HANDLE_MAGIC) := by
  simp only [gralloc_drm_validate_handle]
  split_ifs with h1 h2 h3 h4
  · simp [EINVAL, h1]
  · simp [EINVAL, h2]
  · simp [EINVAL, h3]
  · simp [EINVAL, h4]
  · simp only [true_iff]
    exact ⟨not_not.mp h1, not_not.mp h2, not_not.mp h3, not_not.mp h4⟩

theorem validate_handle_values (abi : HandleABI) (h : Option gralloc_drm_handle_t) :
    gralloc_drm_validate_handle abi h = 0 ∨ gralloc_drm_validate_handle abi h = -EINVAL := by
  unfold gralloc_drm_validate_handle
  cases h with
  | none => exact Or.inr rfl
  | some handle =>
    simp only
    split_ifs
    · exact Or.inr rfl
    · exact Or.inr rfl
    · exact Or.inr rfl
    · exact Or.inr rfl
    · exact Or.inl rfl

theorem flip_bit32_magic_ne (i : Nat) (hi : i < 32) :
    flip_bit32 GRALLOC_DRM_HANDLE_MAGIC i ≠ GRALLOC_DRM_HANDLE_MAGIC := by
  interval_cases i <;> decide

/-- What `gralloc_drm_handle` does with a non-NULL pointer: it takes the mutex and
increments `ref` first, and returns the pointer exactly when the handle validates. -/
theorem gralloc_drm_handle_some (abi : HandleABI) (handle : gralloc_drm_handle_t) :
    gralloc_drm_handle abi (some handle)
      = ⟨decide (gralloc_drm_validate_handle abi (some handle) = 0),
          some { handle with ref := handle.ref + 1 }, [Call.pthread_mutex_lock]⟩ := by
  by_cases hv : gralloc_drm_validate_handle abi (some handle) = 0
  · have h := (validate_handle_eq_zero_iff abi handle).mp hv
    simp [gralloc_drm_handle, hv, h.1, h.2.1, h.2.2.1, h.2.2.2]
  · have h : ¬ (handle.base.version = (abi.sizeof_native_handle_t : Int)
          ∧ handle.base.numInts = (abi.GRALLOC_DRM_HANDLE_NUM_INTS : Int)
          ∧ handle.base.numFds = GRALLOC_DRM_HANDLE_NUM_FDS
          ∧ handle.magic = GRALLOC_DRM_HANDLE_MAGIC) :=
      fun hc => hv ((validate_handle_eq_zero_iff abi handle).mpr hc)
    have h' : handle.base.version ≠ (abi.sizeof_native_handle_t : Int)
        ∨ handle.base.numInts ≠ (abi.GRALLOC_DRM_HANDLE_NUM_INTS : Int)
        ∨ handle.base.numFds ≠ GRALLOC_DRM_HANDLE_NUM_FDS
        ∨ handle.magic ≠ GRALLOC_DRM_HANDLE_MAGIC := by
      by_contra hc
      simp only [not_or, not_not, ne_eq] at hc
      exact h hc
    simp only [gralloc_drm_handle, h', if_true, hv, decide_False]

/-- C16: `gralloc_drm_validate_handle` returns 0 exactly when the handle is non-null,
base.version = sizeof(native_handle_t), base.numInts = GRALLOC_DRM_HANDLE_NUM_INTS,
base.numFds = GRALLOC_DRM_HANDLE_NUM_FDS and magic = 0x12345678; in every other case it
returns -EINVAL.  A handle whose magic is 0x12345678 with one of its 32 bits inverted is
rejected, whatever its other fields. -/
theorem C16_validate_handle (abi : HandleABI) (h : Option gralloc_drm_handle_t) :
    (gralloc_drm_validate_handle abi h = 0
        ↔ ∃ handle, h = some handle
          ∧ handle.base.version = (abi.sizeof_native_handle_t : Int)
          ∧ handle.base.numInts = (abi.GRALLOC_DRM_HANDLE_NUM_INTS : Int)
          ∧ handle.base.numFds = GRALLOC_DRM_HANDLE_NUM_FDS
          ∧ handle.magic = 0x12345678)
      ∧ (gralloc_drm_validate_handle abi h ≠ 0 → gralloc_drm_validate_handle abi h = -EINVAL)
      ∧ -EINVAL ≠ 0
      ∧ (∀ (handle : gralloc_drm_handle_t) (i : Nat), i < 32 →
          handle.magic = flip_bit32 0x12345678 i →
          gralloc_drm_validate_handle abi (some handle) = -EINVAL) := by
  refine ⟨?_, ?_, by decide, ?_⟩
  · cases h with
    | none =>
      constructor
      · intro h0
        simp [gralloc_drm_validate_handle, EINVAL] at h0
      · rintro ⟨handle, hh, _⟩
        exact absurd hh (by simp)
    | some handle =>
      rw [validate_handle_eq_zero_iff]
      constructor
      · intro hc
        exact ⟨handle, rfl, hc⟩
      · rintro ⟨handle', hh, hc⟩
        cases hh
        exact hc
  · intro hne
    rcases validate_handle_values abi h with h0 | h1
    · exact absurd h0 hne
    · exact h1
  · intro handle i hi hm
    rcases validate_handle_values abi (some handle) with h0 | h1
    · have hmagic := ((validate_handle_eq_zero_iff abi handle).mp h0).2.2.2
      rw [hm] at hmagic
      exact absurd hmagic (flip_bit32_magic_ne i hi)
    · exact h1

/-- C16 on the sample handle: accepted as it is, rejected with bit 31 of the magic
inverted. -/
theorem C16_validate_handle_witness :
    gralloc_drm_validate_handle sample_abi (some (sample_handle 1 0 64 64)) = 0
      ∧ flip_bit32 0x12345678 31 = -1842063752
      ∧ gralloc_drm_validate_handle sample_abi
          (some { sample_handle 1 0 64 64 with magic := flip_bit32 0x12345678 31 })
        = -EINVAL :=
  ⟨by decide, by decide,
    (C16_validate_handle sample_abi none).2.2.2
      { sample_handle 1 0 64 64 with magic := flip_bit32 0x12345678 31 } 31 (by decide) rfl⟩

/-- C17, evaluated where the code departs from it: on a handle that validates,
`gralloc_drm_handle` returns it with `ref` raised from 5 to 6; on the same handle with
magic 0 it returns NULL, yet `ref` is raised from 5 to 6 as well and the mutex taken
before the validation stays locked. -/
theorem C17_invalid_handle_ref_incremented :
    gralloc_drm_handle sample_abi (some { sample_handle 1 0 64 64 with ref := 5 })
        = ⟨true, some { sample_handle 1 0 64 64 with ref := 6 }, [Call.pthread_mutex_lock]⟩
      ∧ gralloc_drm_validate_handle sample_abi
          (some { sample_handle 1 0 64 64 with ref := 5, magic := 0 }) = -EINVAL
      ∧ gralloc_drm_handle sample_abi
          (some { sample_handle 1 0 64 64 with ref := 5, magic := 0 })
        = ⟨false, some { sample_handle 1 0 64 64 with ref := 6, magic := 0 },
            [Call.pthread_mutex_lock]⟩ := by
  decide

/-! ## Allocation: calculator failures and the size of the backing memory -/

/-- Every request that lines 927-1012 make to the backing allocator is for `size`
bytes. -/
theorem backing_requests_size (e : AllocEnv) (handle : gralloc_drm_handle_t) (size : Int) :
    match drm_gem_rockchip_alloc_backing e handle size with
    | BackingStage.returned out =>
      (∀ c ∈ out.calls, c.requests_only size = true) ∧ ∀ b, out.ret ≠ AllocReturn.buf b
    | BackingStage.obtained _ _ _ calls => ∀ c ∈ calls, c.requests_only size = true := by
  unfold drm_gem_rockchip_alloc_backing
  by_cases h1 : e.calloc_succeeds = false
  · simp [h1, Call.requests_only]
  · by_cases h2 : handle.prime_fd ≥ 0
    · by_cases h3 : (e.drmPrimeFDToHandle handle.prime_fd).1 ≠ 0
      · simp [h1, h2, h3, Call.requests_only]
      · cases hbo : e.rockchip_bo_from_handle (e.drmPrimeFDToHandle handle.prime_fd).2 size <;>
          simp [h1, h2, h3, hbo, Call.requests_only]
    · cases hbo : e.rockchip_bo_create size with
      | none => simp [h1, h2, hbo, Call.requests_only]
      | some bo =>
        by_cases h4 : (e.drmPrimeHandleToFD (e.rockchip_bo_handle bo) handle.prime_fd).1 ≠ 0 <;>
          simp [h1, h2, hbo, h4, Call.requests_only]

/-- When the layout part of `drm_gem_rockchip_alloc` ends with an early return, the
function returns at once: no call is made and the handle is not written. -/
theorem alloc_of_layout_failed (p : Platform) (e : AllocEnv) (abi : HandleABI)
    (handle : gralloc_drm_handle_t) (ps0 bs0 s0 : Int)
    (hf : (drm_gem_rockchip_alloc_layout p
      (e.gralloc_select_format handle.format handle.usage (handle.width * handle.height))
      handle.usage handle.width handle.height ⟨some ps0, some bs0, some s0⟩).failed = true) :
    (drm_gem_rockchip_alloc p e abi handle ps0 bs0 s0).calls = []
      ∧ (drm_gem_rockchip_alloc p e abi handle ps0 bs0 s0).handle = handle
      ∧ ((drm_gem_rockchip_alloc p e abi handle ps0 bs0 s0).ret = AllocReturn.NULL
        ∨ (drm_gem_rockchip_alloc p e abi handle ps0 bs0 s0).ret
          = AllocReturn.minus_EINVAL) := by
  cases hl : drm_gem_rockchip_alloc_layout p
      (e.gralloc_select_format handle.format handle.usage (handle.width * handle.height))
      handle.usage handle.width handle.height ⟨some ps0, some bs0, some s0⟩ with
  | return_NULL =>
    simp [drm_gem_rockchip_alloc, hl]
  | return_minus_EINVAL =>
    simp [drm_gem_rockchip_alloc, hl]
  | computed t o iw ih =>
    rw [hl] at hf
    exact absurd hf (by simp [LayoutStage.failed])

/-- C19, evaluated where the code departs from it: a 1921 x 1080 request makes
`get_yv12_stride_and_size` fail; for the format YV12 `drm_gem_rockchip_alloc` then returns
the integer -EINVAL converted to a pointer, not NULL, while for the sibling format NV12
it returns NULL.  In both cases no call is made and the handle is left as it was. -/
theorem C19_yv12_failure_returns_minus_EINVAL :
    (get_yv12_stride_and_size false 1921 1080 ⟨some 0, some 0, some 0⟩
        AllocType.UNCOMPRESSED 1080 128).ret = false
      ∧ drm_gem_rockchip_alloc sample_platform sample_env sample_abi
          (sample_handle 0x32315659 0 1921 1080) 0 0 0
        = ⟨AllocReturn.minus_EINVAL, sample_handle 0x32315659 0 1921 1080, []⟩
      ∧ drm_gem_rockchip_alloc sample_platform sample_env sample_abi
          (sample_handle 0x15 0 1921 1080) 0 0 0
        = ⟨AllocReturn.NULL, sample_handle 0x15 0 1921 1080, []⟩ := by
  decide

/-- C20 (as amended): on every allocation whose layout part succeeds, every request
that `drm_gem_rockchip_alloc` makes to the backing allocator (`rockchip_bo_create` or
`rockchip_bo_from_handle`) is for the value of the local `size`, and a returned buffer
has that value, converted from `size_t` to the 32-bit `int` of the field, in
`handle->size`: the same value when it is at most 2^31 - 1.  For every case group except
the NV12 one, the locals are
exactly what the group's calculator stored; for the NV12 group (YCrCb_NV12,
YCrCb_NV12_10, YCrCb_NV12_VIDEO) `size` is the size stored by `get_yv12_stride_and_size`
plus `w * h / 2`, plus `sizeof(struct tVPU_FRAME)` unless `GET_VPU_INTO_FROM_HEAD` is
set. -/
theorem C20_backing_size (p : Platform) (e : AllocEnv) (abi : HandleABI)
    (handle : gralloc_drm_handle_t) (ps0 bs0 s0 : Int)
    (type : AllocType) (o : Outs) (iw ih : Int)
    (hl : drm_gem_rockchip_alloc_layout p
      (e.gralloc_select_format handle.format handle.usage (handle.width * handle.height))
      handle.usage handle.width handle.height ⟨some ps0, some bs0, some s0⟩
        = LayoutStage.computed type o iw ih) :
    let w := handle.width
    let h := handle.height
    let internal_format :=
      e.gralloc_select_format handle.format handle.usage (handle.width * handle.height)
    let fmt := internal_format &&& p.GRALLOC_ARM_INTFMT_FMT_MASK
    let l : Outs := ⟨some ps0, some bs0, some s0⟩
    let extra := p.AFBC_YUV420_EXTRA_MB_ROW_NEEDED
    let out := drm_gem_rockchip_alloc p e abi handle ps0 bs0 s0
    (∀ c ∈ out.calls, c.requests_only (deref o.size) = true)
      ∧ (∀ b, out.ret = AllocReturn.buf b →
          out.handle.size = wrap32 (deref o.size)
            ∧ (0 ≤ deref o.size → deref o.size ≤ 2147483647 →
              out.handle.size = deref o.size)
            ∧ b.handle = some out.handle)
      ∧ ((internal_format &&& p.GRALLOC_ARM_INTFMT_EXTENDED_YUV
            ≠ p.GRALLOC_ARM_INTFMT_EXTENDED_YUV
          ∧ internal_format &&& p.GRALLOC_ARM_INTFMT_ARM_AFBC_YUV
            ≠ p.GRALLOC_ARM_INTFMT_ARM_AFBC_YUV) →
        match base_case p fmt with
        | BaseCase.RGBA_8888 => o = get_rgb_stride_and_size w h 4 l type
        | BaseCase.RGB_888 => o = get_rgb_stride_and_size w h 3 l type
        | BaseCase.RGB_565 => o = get_rgb_stride_and_size w h 2 l type
        | BaseCase.YCrCb_420_SP =>
          ∃ sa, (sa = 16 ∨ sa = 128) ∧ o = (get_yv12_stride_and_size extra w h l type h sa).outs
        | BaseCase.YCrCb_NV12 =>
          o.size = (get_yv12_stride_and_size extra w h l type h 128).outs.size.map
            (fun size => size + Int.tdiv (w * h) 2
              + (if p.GET_VPU_INTO_FROM_HEAD = false then p.sizeof_tVPU_FRAME else 0))
        | BaseCase.default => False)
      ∧ (¬ (internal_format &&& p.GRALLOC_ARM_INTFMT_EXTENDED_YUV
            ≠ p.GRALLOC_ARM_INTFMT_EXTENDED_YUV
          ∧ internal_format &&& p.GRALLOC_ARM_INTFMT_ARM_AFBC_YUV
            ≠ p.GRALLOC_ARM_INTFMT_ARM_AFBC_YUV) →
        match indexed_case p fmt with
        | IndexedCase.Y0L2 => o = (get_yuv_y0l2_stride_and_size w h l).outs
        | IndexedCase.P010 => o = (get_yuv_pX10_stride_and_size w h 2 l).outs
        | IndexedCase.P210 => o = (get_yuv_pX10_stride_and_size w h 1 l).outs
        | IndexedCase.Y210 => o = (get_yuv_y210_stride_and_size w h l).outs
        | IndexedCase.Y410 => o = (get_yuv_y410_stride_and_size w h l).outs
        | IndexedCase.YUV420_8BIT_AFBC =>
          o = (get_afbc_yuv420_8bit_stride_and_size extra w h l type h).outs
        | IndexedCase.YUV422_8BIT_AFBC =>
          o = (get_afbc_yuv422_8bit_stride_and_size w h l type).outs
        | IndexedCase.YUV420_10BIT_AFBC =>
          o = (get_yuv420_10bit_afbc_stride_and_size w h l type).outs
        | IndexedCase.YUV422_10BIT_AFBC =>
          o = (get_yuv422_10bit_afbc_stride_and_size w h l type).outs
        | IndexedCase.default => False) := by
  intro w h internal_format fmt l extra out
  have hb := backing_requests_size e handle (deref o.size)
  refine ⟨?_, ?_, ?_, ?_⟩
  · simp only [out, drm_gem_rockchip_alloc, hl]
    cases hbk : drm_gem_rockchip_alloc_backing e handle (deref o.size) with
    | returned r =>
      rw [hbk] at hb
      exact hb.1
    | obtained bo fb hd calls =>
      rw [hbk] at hb
      simp only at hb ⊢
      by_cases hc : (e.gralloc_buffer_attr_allocate hd).1 < 0
          ∧ ¬ (int_and handle.usage e.GRALLOC_USAGE_HW_FB ≠ 0)
      · rw [if_pos hc]
        intro c hc'
        simp only [drm_gem_rockchip_free, gralloc_drm_handle, List.append_nil,
          List.mem_append, List.mem_singleton] at hc'
        rcases hc' with hc' | rfl
        · exact hb c hc'
        · rfl
      · rw [if_neg hc]
        intro c hc'
        simp only [List.mem_append, List.mem_singleton] at hc'
        rcases hc' with hc' | rfl
        · exact hb c hc'
        · rfl
  · intro b
    simp only [out, drm_gem_rockchip_alloc, hl]
    cases hbk : drm_gem_rockchip_alloc_backing e handle (deref o.size) with
    | returned r =>
      rw [hbk] at hb
      intro hr
      exact absurd hr (hb.2 b)
    | obtained bo fb hd calls =>
      simp only
      by_cases hc : (e.gralloc_buffer_attr_allocate hd).1 < 0
          ∧ ¬ (int_and handle.usage e.GRALLOC_USAGE_HW_FB ≠ 0)
      · rw [if_pos hc]
        intro hr
        exact absurd hr (by simp)
      · rw [if_neg hc]
        intro hr
        simp only [AllocReturn.buf.injEq] at hr
        exact ⟨rfl, fun h0 h1 => wrap32_eq _ (by omega) h1, by rw [← hr]⟩
  · intro hbase
    have hb' : (decide (internal_format &&& p.GRALLOC_ARM_INTFMT_EXTENDED_YUV
          = p.GRALLOC_ARM_INTFMT_EXTENDED_YUV) = false
        ∧ decide (internal_format &&& p.GRALLOC_ARM_INTFMT_ARM_AFBC_YUV
          = p.GRALLOC_ARM_INTFMT_ARM_AFBC_YUV) = false) := by
      simpa using hbase
    cases ht : drm_gem_rockchip_alloc_type p internal_format handle.usage with
    | none =>
      simp only [drm_gem_rockchip_alloc_layout, internal_format, ht] at hl
      exact absurd hl (by simp)
    | some t =>
      simp only [drm_gem_rockchip_alloc_layout, ht, hb', and_self, if_true] at hl
      cases hc : base_case p fmt with
      | RGBA_8888 =>
        simp only [fmt, internal_format] at hc
        simp only [hc, LayoutStage.computed.injEq] at hl
        obtain ⟨rfl, rfl, -, -⟩ := hl
        rfl
      | RGB_888 =>
        simp only [fmt, internal_format] at hc
        simp only [hc, LayoutStage.computed.injEq] at hl
        obtain ⟨rfl, rfl, -, -⟩ := hl
        rfl
      | RGB_565 =>
        simp only [fmt, internal_format] at hc
        simp only [hc, LayoutStage.computed.injEq] at hl
        obtain ⟨rfl, rfl, -, -⟩ := hl
        rfl
      | YCrCb_420_SP =>
        simp only [fmt, internal_format] at hc
        simp only [hc] at hl
        split_ifs at hl with h1 h2
        · simp only [LayoutStage.computed.injEq] at hl
          obtain ⟨rfl, rfl, -, -⟩ := hl
          exact ⟨16, Or.inl rfl, rfl⟩
        · simp only [LayoutStage.computed.injEq] at hl
          obtain ⟨rfl, rfl, -, -⟩ := hl
          exact ⟨128, Or.inr rfl, rfl⟩
      | YCrCb_NV12 =>
        simp only [fmt, internal_format] at hc
        simp only [hc] at hl
        split_ifs at hl with h1 h2
        · simp only [LayoutStage.computed.injEq] at hl
          obtain ⟨rfl, rfl, -, -⟩ := hl
          simp [h2, Option.map_map, YUV_MALI_PLANE_ALIGN, w, h, Function.comp_def]
        · simp only [LayoutStage.computed.injEq] at hl
          obtain ⟨rfl, rfl, -, -⟩ := hl
          simp [h2, Option.map_map, YUV_MALI_PLANE_ALIGN, w, h, Function.comp_def]
      | default =>
        simp only [fmt, internal_format] at hc
        simp only [hc] at hl
        exact absurd hl (by simp)
  · intro hidx
    have hb' : ¬ (decide (internal_format &&& p.GRALLOC_ARM_INTFMT_EXTENDED_YUV
          = p.GRALLOC_ARM_INTFMT_EXTENDED_YUV) = false
        ∧ decide (internal_format &&& p.GRALLOC_ARM_INTFMT_ARM_AFBC_YUV
          = p.GRALLOC_ARM_INTFMT_ARM_AFBC_YUV) = false) := by
      simpa using hidx
    cases ht : drm_gem_rockchip_alloc_type p internal_format handle.usage with
    | none =>
      simp only [drm_gem_rockchip_alloc_layout, internal_format, ht] at hl
      exact absurd hl (by simp)
    | some t =>
      simp only [drm_gem_rockchip_alloc_layout, ht, hb', if_false] at hl
      cases hc : indexed_case p fmt <;>
        simp only [fmt, internal_format] at hc <;>
        simp only [hc, LayoutStage.of_ret] at hl <;>
        (first
          | exact absurd hl (by simp)
          | (split_ifs at hl
             simp only [LayoutStage.computed.injEq] at hl
             obtain ⟨rfl, rfl, -, -⟩ := hl
             rfl))

/-- C20 (as amended) at a 1920 x 1080 RGBA_8888 request: the only size asked of the
backing allocator is 8294400, and the returned buffer's handle stores it.  At a
32768 x 43690 YCrCb_NV12 request the size asked of the backing allocator is 2863267904
and the `int` field of the handle holds -1431699392. -/
theorem C20_backing_size_witness :
    (∀ c ∈ (drm_gem_rockchip_alloc sample_platform sample_env sample_abi
        (sample_handle 1 0 1920 1080) 0 0 0).calls, c.requests_only 8294400 = true)
      ∧ (drm_gem_rockchip_alloc sample_platform sample_env sample_abi
          (sample_handle 1 0 1920 1080) 0 0 0).calls
        = [Call.calloc, Call.rockchip_bo_create 8294400, Call.rockchip_bo_handle 1,
            Call.drmPrimeHandleToFD 2, Call.gralloc_buffer_attr_allocate]
      ∧ (drm_gem_rockchip_alloc sample_platform sample_env sample_abi
          (sample_handle 1 0 1920 1080) 0 0 0).handle.size = 8294400
      ∧ (drm_gem_rockchip_alloc sample_platform sample_env sample_abi
          (sample_handle 0x15 0 32768 43690) 0 0 0).calls
        = [Call.calloc, Call.rockchip_bo_create 2863267904, Call.rockchip_bo_handle 1,
            Call.drmPrimeHandleToFD 2, Call.gralloc_buffer_attr_allocate]
      ∧ (drm_gem_rockchip_alloc sample_platform sample_env sample_abi
          (sample_handle 0x15 0 32768 43690) 0 0 0).handle.size = -1431699392
      ∧ wrap32 2863267904 = -1431699392 :=
  ⟨(C20_backing_size sample_platform sample_env sample_abi (sample_handle 1 0 1920 1080)
      0 0 0 AllocType.UNCOMPRESSED ⟨some 1920, some 7680, some 8294400⟩ 1920 1080
      (by decide)).1,
    by decide, by decide, by decide, by decide, by decide⟩

/-- C20 as stated fails for the NV12 family: for a 176 x 144 YCrCb_NV12 request the
calculator `get_yv12_stride_and_size` succeeds with size 55296, and
`drm_gem_rockchip_alloc` asks `rockchip_bo_create` for 68032 bytes
(55296 + 176 * 144 / 2 + the 64 bytes taken for `struct tVPU_FRAME`) and stores 68032 in
the handle. -/
theorem C20_nv12_size_exceeds_calculator :
    get_yv12_stride_and_size false 176 144 ⟨some 0, some 0, some 0⟩ AllocType.UNCOMPRESSED
        144 128
        = ⟨true, ⟨some 256, some 256, some 55296⟩, 144⟩
      ∧ (drm_gem_rockchip_alloc sample_platform sample_env sample_abi
          (sample_handle 0x15 0 176 144) 0 0 0).calls
        = [Call.calloc, Call.rockchip_bo_create 68032, Call.rockchip_bo_handle 1,
            Call.drmPrimeHandleToFD 2, Call.gralloc_buffer_attr_allocate]
      ∧ (drm_gem_rockchip_alloc sample_platform sample_env sample_abi
          (sample_handle 0x15 0 176 144) 0 0 0).handle.size = 68032
      ∧ (68032 : Int) ≠ 55296 := by
  decide


/-! ## Planar 4:2:0 alignment and the allocation type -/

/-- C21 (as amended): in the first `switch` of `drm_gem_rockchip_alloc`, the YV12 group
(YCrCb_420_SP, YCbCr_420_888, YV12) calls `get_yv12_stride_and_size` with stride
alignment 16 when the usage has a software read or write bit set and 128 otherwise; the
NV12 group (YCrCb_NV12, YCrCb_NV12_10, YCrCb_NV12_VIDEO) calls it with 128 whatever the
usage. -/
theorem C21_yv12_stride_alignment (p : Platform) (internal_format : Nat)
    (usage w h : Int) (locals : Outs) (type : AllocType)
    (ht : drm_gem_rockchip_alloc_type p internal_format usage = some type)
    (hbase : internal_format &&& p.GRALLOC_ARM_INTFMT_EXTENDED_YUV
        ≠ p.GRALLOC_ARM_INTFMT_EXTENDED_YUV
      ∧ internal_format &&& p.GRALLOC_ARM_INTFMT_ARM_AFBC_YUV
        ≠ p.GRALLOC_ARM_INTFMT_ARM_AFBC_YUV) :
    (base_case p (internal_format &&& p.GRALLOC_ARM_INTFMT_FMT_MASK)
        = BaseCase.YCrCb_420_SP →
      ∃ stride_alignment : Int,
        stride_alignment
          = (if int_and usage
              (int_or p.GRALLOC_USAGE_SW_READ_MASK p.GRALLOC_USAGE_SW_WRITE_MASK) ≠ 0
            then 16 else 128)
        ∧ drm_gem_rockchip_alloc_layout p internal_format usage w h locals
          = (if (get_yv12_stride_and_size p.AFBC_YUV420_EXTRA_MB_ROW_NEEDED w h locals type
                h stride_alignment).ret = false
            then LayoutStage.return_minus_EINVAL
            else LayoutStage.computed type
              (get_yv12_stride_and_size p.AFBC_YUV420_EXTRA_MB_ROW_NEEDED w h locals type
                h stride_alignment).outs w
              (get_yv12_stride_and_size p.AFBC_YUV420_EXTRA_MB_ROW_NEEDED w h locals type
                h stride_alignment).internalHeight))
    ∧ (base_case p (internal_format &&& p.GRALLOC_ARM_INTFMT_FMT_MASK)
        = BaseCase.YCrCb_NV12 →
      drm_gem_rockchip_alloc_layout p internal_format usage w h locals
        = (if (get_yv12_stride_and_size p.AFBC_YUV420_EXTRA_MB_ROW_NEEDED w h locals type
              h 128).ret = false
          then LayoutStage.return_NULL
          else LayoutStage.computed type
            { (get_yv12_stride_and_size p.AFBC_YUV420_EXTRA_MB_ROW_NEEDED w h locals type
                h 128).outs with
              size := (get_yv12_stride_and_size p.AFBC_YUV420_EXTRA_MB_ROW_NEEDED w h locals
                type h 128).outs.size.map (fun size => size + Int.tdiv (w * h) 2
                  + (if p.GET_VPU_INTO_FROM_HEAD = false then p.sizeof_tVPU_FRAME else 0)) }
            w
            (get_yv12_stride_and_size p.AFBC_YUV420_EXTRA_MB_ROW_NEEDED w h locals type
              h 128).internalHeight)) := by
  have hb' : (decide (internal_format &&& p.GRALLOC_ARM_INTFMT_EXTENDED_YUV
        = p.GRALLOC_ARM_INTFMT_EXTENDED_YUV) = false
      ∧ decide (internal_format &&& p.GRALLOC_ARM_INTFMT_ARM_AFBC_YUV
        = p.GRALLOC_ARM_INTFMT_ARM_AFBC_YUV) = false) := by
    simpa using hbase
  constructor
  · intro hc
    refine ⟨_, rfl, ?_⟩
    simp only [drm_gem_rockchip_alloc_layout, ht, hb', and_self, if_true, hc,
      YUV_ANDROID_PLANE_ALIGN, YUV_MALI_PLANE_ALIGN]
  · intro hc
    by_cases hr : (get_yv12_stride_and_size p.AFBC_YUV420_EXTRA_MB_ROW_NEEDED w h locals
        type h 128).ret = false
    · simp only [drm_gem_rockchip_alloc_layout, ht, hb', and_self, if_true, hc,
        YUV_MALI_PLANE_ALIGN, hr]
    · by_cases hv : p.GET_VPU_INTO_FROM_HEAD = false
      · simp only [drm_gem_rockchip_alloc_layout, ht, hb', and_self, if_true, hc,
          YUV_MALI_PLANE_ALIGN, hr, if_false, hv, Option.map_map, Function.comp_def]
      · simp only [drm_gem_rockchip_alloc_layout, ht, hb', and_self, if_true, hc,
          YUV_MALI_PLANE_ALIGN, hr, if_false, hv, Option.map_map, Function.comp_def]
        simp

/-- C21 (as amended) at 176 x 144 with the usage GRALLOC_USAGE_SW_READ_OFTEN: YV12 is laid
out with byte stride 176 (alignment 16). -/
theorem C21_yv12_stride_alignment_witness :
    drm_gem_rockchip_alloc_layout sample_platform 0x32315659 3 176 144
        ⟨some 0, some 0, some 0⟩
      = LayoutStage.computed AllocType.UNCOMPRESSED ⟨some 176, some 176, some 39168⟩ 176 144 := by
  obtain ⟨sa, hsa, hl⟩ := (C21_yv12_stride_alignment sample_platform 0x32315659 3 176 144
    ⟨some 0, some 0, some 0⟩ AllocType.UNCOMPRESSED (by decide) (by decide)).1 (by decide)
  rw [hl, hsa]
  decide

/-- C21 as stated fails for the NV12 family: a 176 x 144 YCrCb_NV12 request with the
software usage GRALLOC_USAGE_SW_READ_OFTEN is laid out with byte stride 256, the stride of
alignment 128, where alignment 16 gives 176 (as it does for YV12 with the same usage). -/
theorem C21_nv12_ignores_software_usage :
    int_and 3 (int_or sample_platform.GRALLOC_USAGE_SW_READ_MASK
        sample_platform.GRALLOC_USAGE_SW_WRITE_MASK) ≠ 0
      ∧ base_case sample_platform (0x15 &&& sample_platform.GRALLOC_ARM_INTFMT_FMT_MASK)
        = BaseCase.YCrCb_NV12
      ∧ drm_gem_rockchip_alloc_layout sample_platform 0x15 3 176 144
          ⟨some 0, some 0, some 0⟩
        = LayoutStage.computed AllocType.UNCOMPRESSED ⟨some 256, some 256, some 68032⟩
            176 144
      ∧ (get_yv12_stride_and_size false 176 144 ⟨some 0, some 0, some 0⟩
          AllocType.UNCOMPRESSED 144 128).outs.byte_stride = some 256
      ∧ (get_yv12_stride_and_size false 176 144 ⟨some 0, some 0, some 0⟩
          AllocType.UNCOMPRESSED 144 16).outs.byte_stride = some 176 := by
  decide

/-- Two integers with the same bits are equal. -/
theorem int_eq_of_testBit_eq (a b : Int) (h : ∀ i, a.testBit i = b.testBit i) : a = b := by
  have big : ∀ m n : Nat, Nat.testBit m (m + n) = false ∧ Nat.testBit n (m + n) = false := by
    intro m n
    have h1 : m < 2 ^ (m + n) :=
      lt_of_lt_of_le (Nat.lt_two_pow m) (Nat.pow_le_pow_right (by decide) (by omega))
    have h2 : n < 2 ^ (m + n) :=
      lt_of_lt_of_le (Nat.lt_two_pow n) (Nat.pow_le_pow_right (by decide) (by omega))
    exact ⟨Nat.testBit_eq_false_of_lt h1, Nat.testBit_eq_false_of_lt h2⟩
  cases a with
  | ofNat m =>
    cases b with
    | ofNat n =>
      have : m = n := Nat.eq_of_testBit_eq (fun i => by simpa [Int.testBit] using h i)
      rw [this]
    | negSucc n =>
      have hi := h (m + n)
      simp [Int.testBit, (big m n).1, (big m n).2] at hi
  | negSucc m =>
    cases b with
    | ofNat n =>
      have hi := h (m + n)
      simp [Int.testBit, (big m n).1, (big m n).2] at hi
    | negSucc n =>
      have : m = n := Nat.eq_of_testBit_eq (fun i => by simpa [Int.testBit] using h i)
      rw [this]

/-- A usage that has all the bits of `a | b` set has all the bits of `b` set. -/
theorem int_and_of_int_and_int_or (u a b : Int)
    (h : int_and u (int_or a b) = int_or a b) : int_and u b = b := by
  rw [int_and_eq_land] at *
  rw [int_or_eq_lor] at h
  have hbit : ∀ i, (Int.land u (Int.lor a b)).testBit i = (Int.lor a b).testBit i := by
    intro i
    rw [h]
  apply int_eq_of_testBit_eq
  intro i
  have hi := hbit i
  rw [Int.testBit_land, Int.testBit_lor] at hi
  rw [Int.testBit_land]
  cases hu : u.testBit i <;> cases ha : a.testBit i <;> cases hb : b.testBit i <;>
    simp [hu, ha, hb] at hi ⊢

/-- A bitwise OR is zero exactly when both operands are. -/
theorem nat_lor_eq_zero_iff (x y : Nat) : x ||| y = 0 ↔ x = 0 ∧ y = 0 := by
  constructor
  · intro h
    have hbit : ∀ i, (x.testBit i || y.testBit i) = false := by
      intro i
      rw [← Nat.testBit_or, h, Nat.zero_testBit]
    constructor
    · apply Nat.eq_of_testBit_eq
      intro i
      have hi := hbit i
      rw [Nat.zero_testBit]
      cases hx : x.testBit i
      · rfl
      · simp [hx] at hi
    · apply Nat.eq_of_testBit_eq
      intro i
      have hi := hbit i
      rw [Nat.zero_testBit]
      cases hy : y.testBit i
      · rfl
      · simp [hy] at hi
  · rintro ⟨hx, hy⟩
    rw [hx, hy]
    rfl

/-- The test of the compression bits of line 732, bit by bit. -/
theorem compression_bits_eq_zero_iff (f a s w : Nat) :
    f &&& (a ||| s ||| w) = 0 ↔ f &&& a = 0 ∧ f &&& s = 0 ∧ f &&& w = 0 := by
  rw [Nat.and_or_distrib_left, Nat.and_or_distrib_left, nat_lor_eq_zero_iff,
    nat_lor_eq_zero_iff, and_assoc]

/-- C22 (as amended): a usage with the bits of GRALLOC_ARM_USAGE_NO_AFBC
(GRALLOC_USAGE_PRIVATE_1 | GRALLOC_USAGE_PRIVATE_2) set gives the type UNCOMPRESSED only
for an internal format without AFBC, AFBC_SPLITBLK and AFBC_WIDEBLK bits; for a format
that carries one of them the type selected is AFBC_PADDED. -/
theorem C22_no_afbc_usage_type (p : Platform) (GRALLOC_USAGE_PRIVATE_1 : Int)
    (internal_format : Nat) (usage : Int)
    (h2 : p.GRALLOC_USAGE_PRIVATE_2 ≠ 0)
    (hu : int_and usage
        (GRALLOC_ARM_USAGE_NO_AFBC GRALLOC_USAGE_PRIVATE_1 p.GRALLOC_USAGE_PRIVATE_2)
      = GRALLOC_ARM_USAGE_NO_AFBC GRALLOC_USAGE_PRIVATE_1 p.GRALLOC_USAGE_PRIVATE_2) :
    drm_gem_rockchip_alloc_type p internal_format usage
      = some (if internal_format &&& (p.GRALLOC_ARM_INTFMT_AFBC
            ||| p.GRALLOC_ARM_INTFMT_AFBC_SPLITBLK ||| p.GRALLOC_ARM_INTFMT_AFBC_WIDEBLK) = 0
          then AllocType.UNCOMPRESSED else AllocType.AFBC_PADDED) := by
  have hp : int_and usage p.GRALLOC_USAGE_PRIVATE_2 ≠ 0 := by
    rw [int_and_of_int_and_int_or usage GRALLOC_USAGE_PRIVATE_1 p.GRALLOC_USAGE_PRIVATE_2 hu]
    exact h2
  by_cases hc : internal_format &&& (p.GRALLOC_ARM_INTFMT_AFBC
      ||| p.GRALLOC_ARM_INTFMT_AFBC_SPLITBLK ||| p.GRALLOC_ARM_INTFMT_AFBC_WIDEBLK) = 0
  · simp [drm_gem_rockchip_alloc_type, hc]
  · simp [drm_gem_rockchip_alloc_type, hc, hp]

/-- C22 (as amended) for RGBA_8888 with and without the AFBC bit, usage
GRALLOC_USAGE_PRIVATE_1 | GRALLOC_USAGE_PRIVATE_2. -/
theorem C22_no_afbc_usage_type_witness :
    drm_gem_rockchip_alloc_type sample_platform 1 0x60000000 = some AllocType.UNCOMPRESSED
      ∧ drm_gem_rockchip_alloc_type sample_platform 0x100000001 0x60000000
        = some AllocType.AFBC_PADDED :=
  ⟨C22_no_afbc_usage_type sample_platform 0x20000000 1 0x60000000 (by decide) (by decide),
   C22_no_afbc_usage_type sample_platform 0x20000000 0x100000001 0x60000000 (by decide)
     (by decide)⟩

/-- C22 as stated fails: RGBA_8888 with the AFBC bit and the usage
GRALLOC_USAGE_PRIVATE_1 | GRALLOC_USAGE_PRIVATE_2 (all of GRALLOC_ARM_USAGE_NO_AFBC) is
given the type AFBC_PADDED, and the RGB calculator then returns the compressed layout, not
the uncompressed one. -/
theorem C22_no_afbc_usage_selects_padded :
    int_and 0x60000000 (GRALLOC_ARM_USAGE_NO_AFBC sample_env.GRALLOC_USAGE_PRIVATE_1
        sample_platform.GRALLOC_USAGE_PRIVATE_2)
      = GRALLOC_ARM_USAGE_NO_AFBC sample_env.GRALLOC_USAGE_PRIVATE_1
          sample_platform.GRALLOC_USAGE_PRIVATE_2
      ∧ drm_gem_rockchip_alloc_type sample_platform 0x100000001 0x60000000
        = some AllocType.AFBC_PADDED
      ∧ drm_gem_rockchip_alloc_type sample_platform 0x100000001 0x60000000
        ≠ some AllocType.UNCOMPRESSED
      ∧ drm_gem_rockchip_alloc_layout sample_platform 0x100000001 0x60000000 100 100
          ⟨some 0, some 0, some 0⟩
        ≠ LayoutStage.computed AllocType.UNCOMPRESSED
            (get_rgb_stride_and_size 100 100 4 ⟨some 0, some 0, some 0⟩
              AllocType.UNCOMPRESSED) 100 100 := by
  decide

/-! ## Format selection, delegation and the two validators -/

/-- C23: `mali_gralloc_select_format` has a result for every input (it is a total
function into the format codes, with no error value); for a requested format other than
HAL_PIXEL_FORMAT_YCrCb_NV12_10 the result is the requested format; for
HAL_PIXEL_FORMAT_YCrCb_NV12_10 it is MALI_GRALLOC_FORMAT_INTERNAL_P010 when
`USAGE_CONTAIN_VALUE(GRALLOC_USAGE_TO_USE_ARM_P010, GRALLOC_USAGE_ROT_MASK)` holds of the
usage and the requested format when it does not; two calls that differ only in type and
buffer size return the same format. -/
theorem C23_select_format (c : FormatHeaders) (req_format : Nat) (type : Int)
    (usage : Nat) (buffer_size : Int) :
    (req_format ≠ c.HAL_PIXEL_FORMAT_YCrCb_NV12_10 →
        mali_gralloc_select_format c req_format type usage buffer_size = req_format)
      ∧ (req_format = c.HAL_PIXEL_FORMAT_YCrCb_NV12_10 →
        (c.USAGE_CONTAIN_VALUE usage c.GRALLOC_USAGE_TO_USE_ARM_P010
            c.GRALLOC_USAGE_ROT_MASK = true →
          mali_gralloc_select_format c req_format type usage buffer_size
            = c.MALI_GRALLOC_FORMAT_INTERNAL_P010)
        ∧ (c.USAGE_CONTAIN_VALUE usage c.GRALLOC_USAGE_TO_USE_ARM_P010
            c.GRALLOC_USAGE_ROT_MASK = false →
          mali_gralloc_select_format c req_format type usage buffer_size = req_format))
      ∧ (∀ type2 buffer_size2 : Int,
        mali_gralloc_select_format c req_format type2 usage buffer_size2
          = mali_gralloc_select_format c req_format type usage buffer_size) := by
  refine ⟨?_, ?_, ?_⟩
  · intro hne
    simp [mali_gralloc_select_format, hne]
  · intro he
    constructor
    · intro hu
      simp [mali_gralloc_select_format, he, hu]
    · intro hu
      simp [mali_gralloc_select_format, he, hu]
  · intro type2 buffer_size2
    rfl

/-- C23 on the sample header values: RGBA_8888 (1) passes through, NV12_10 (0x17) becomes
the internal P010 code with the ARM P010 usage and stays NV12_10 without it. -/
theorem C23_select_format_witness :
    mali_gralloc_select_format sample_format_headers 1 0 0x0A000000 4096 = 1
      ∧ mali_gralloc_select_format sample_format_headers 0x17 0 0x0A000000 4096 = 0x101
      ∧ mali_gralloc_select_format sample_format_headers 0x17 0 0 4096 = 0x17 :=
  ⟨(C23_select_format sample_format_headers 1 0 0x0A000000 4096).1 (by decide),
   ((C23_select_format sample_format_headers 0x17 0 0x0A000000 4096).2.1 rfl).1 (by decide),
   ((C23_select_format sample_format_headers 0x17 0 0 4096).2.1 rfl).2 (by decide)⟩

/-- C27: for even width and height and a type other than UNCOMPRESSED,
`get_yv12_stride_and_size` returns the result, the outputs and the internal height of
`get_afbc_yuv420_8bit_stride_and_size` on the same width, height, type and internal
height, whatever the stride alignment. -/
theorem C27_yv12_delegates (AFBC_YUV420_EXTRA_MB_ROW_NEEDED : Bool) (width height : Int)
    (o : Outs) (type : AllocType) (internalHeight stride_alignment : Int)
    (hw : Int.tmod width 2 = 0) (hh : Int.tmod height 2 = 0)
    (ht : type ≠ AllocType.UNCOMPRESSED) :
    get_yv12_stride_and_size AFBC_YUV420_EXTRA_MB_ROW_NEEDED width height o type
        internalHeight stride_alignment
      = get_afbc_yuv420_8bit_stride_and_size AFBC_YUV420_EXTRA_MB_ROW_NEEDED width height o
          type internalHeight
    ∧ ∀ stride_alignment2 : Int,
      get_yv12_stride_and_size AFBC_YUV420_EXTRA_MB_ROW_NEEDED width height o type
          internalHeight stride_alignment2
        = get_yv12_stride_and_size AFBC_YUV420_EXTRA_MB_ROW_NEEDED width height o type
            internalHeight stride_alignment := by
  have key : ∀ sa : Int,
      get_yv12_stride_and_size AFBC_YUV420_EXTRA_MB_ROW_NEEDED width height o type
          internalHeight sa
        = get_afbc_yuv420_8bit_stride_and_size AFBC_YUV420_EXTRA_MB_ROW_NEEDED width height
            o type internalHeight := by
    intro sa
    simp only [get_yv12_stride_and_size, hw, hh, ne_eq, not_true_eq_false, or_self,
      if_false, ht, not_false_eq_true, if_true]
  refine ⟨key stride_alignment, ?_⟩
  intro stride_alignment2
  rw [key stride_alignment2, key stride_alignment]

/-- C27 at 100 x 100, type AFBC: alignment 16 and alignment 128 both give the compressed
4:2:0 layout, stride 112 and size 20736. -/
theorem C27_yv12_delegates_witness :
    get_yv12_stride_and_size false 100 100 ⟨some 0, some 0, some 0⟩ AllocType.AFBC 100 16
        = get_afbc_yuv420_8bit_stride_and_size false 100 100 ⟨some 0, some 0, some 0⟩
            AllocType.AFBC 100
      ∧ get_yv12_stride_and_size false 100 100 ⟨some 0, some 0, some 0⟩ AllocType.AFBC 100 128
        = get_yv12_stride_and_size false 100 100 ⟨some 0, some 0, some 0⟩ AllocType.AFBC
            100 16
      ∧ get_afbc_yuv420_8bit_stride_and_size false 100 100 ⟨some 0, some 0, some 0⟩
          AllocType.AFBC 100
        = ⟨true, ⟨some 112, some 112, some 20736⟩, 100⟩ :=
  ⟨(C27_yv12_delegates false 100 100 ⟨some 0, some 0, some 0⟩ AllocType.AFBC 100 16
      (by decide) (by decide) (by decide)).1,
   (C27_yv12_delegates false 100 100 ⟨some 0, some 0, some 0⟩ AllocType.AFBC 100 16
      (by decide) (by decide) (by decide)).2 128,
   by decide⟩

/-- C28: whenever `drm_gem_rockchip_alloc` gets past its type selection, the type is the
one the specification names from the AFBC, AFBC_SPLITBLK and AFBC_WIDEBLK bits of the
internal format and GRALLOC_USAGE_PRIVATE_2 of the usage: UNCOMPRESSED exactly when none
of the three bits is set, otherwise AFBC_PADDED with GRALLOC_USAGE_PRIVATE_2, otherwise
AFBC_WIDEBLK with the AFBC_WIDEBLK bit, otherwise AFBC.  The selection does not get past
(line 744 returns) exactly for a wide-block ARM AFBC YUV format without
GRALLOC_USAGE_PRIVATE_2 in a build where MALI_USE_YUV_AFBC_WIDEBLK is not 1. -/
theorem C28_alloc_type (p : Platform) (internal_format : Nat) (usage : Int) :
    drm_gem_rockchip_alloc_type p internal_format usage
        = (if 1 ≠ p.MALI_USE_YUV_AFBC_WIDEBLK
              ∧ internal_format &&& p.GRALLOC_ARM_INTFMT_ARM_AFBC_YUV
                = p.GRALLOC_ARM_INTFMT_ARM_AFBC_YUV
              ∧ internal_format &&& p.GRALLOC_ARM_INTFMT_AFBC_WIDEBLK ≠ 0
              ∧ int_and usage p.GRALLOC_USAGE_PRIVATE_2 = 0
          then none
          else some (spec_alloc_type
            (decide (internal_format &&& p.GRALLOC_ARM_INTFMT_AFBC ≠ 0))
            (decide (internal_format &&& p.GRALLOC_ARM_INTFMT_AFBC_SPLITBLK ≠ 0))
            (decide (internal_format &&& p.GRALLOC_ARM_INTFMT_AFBC_WIDEBLK ≠ 0))
            (decide (int_and usage p.GRALLOC_USAGE_PRIVATE_2 ≠ 0))))
      ∧ (drm_gem_rockchip_alloc_type p internal_format usage = some AllocType.UNCOMPRESSED
          ↔ internal_format &&& p.GRALLOC_ARM_INTFMT_AFBC = 0
            ∧ internal_format &&& p.GRALLOC_ARM_INTFMT_AFBC_SPLITBLK = 0
            ∧ internal_format &&& p.GRALLOC_ARM_INTFMT_AFBC_WIDEBLK = 0) := by
  have hz := compression_bits_eq_zero_iff internal_format p.GRALLOC_ARM_INTFMT_AFBC
    p.GRALLOC_ARM_INTFMT_AFBC_SPLITBLK p.GRALLOC_ARM_INTFMT_AFBC_WIDEBLK
  by_cases ha : internal_format &&& p.GRALLOC_ARM_INTFMT_AFBC = 0 <;>
  by_cases hs : internal_format &&& p.GRALLOC_ARM_INTFMT_AFBC_SPLITBLK = 0 <;>
  by_cases hw : internal_format &&& p.GRALLOC_ARM_INTFMT_AFBC_WIDEBLK = 0 <;>
  by_cases hp : int_and usage p.GRALLOC_USAGE_PRIVATE_2 = 0 <;>
  by_cases hm : 1 = p.MALI_USE_YUV_AFBC_WIDEBLK <;>
  by_cases hy : internal_format &&& p.GRALLOC_ARM_INTFMT_ARM_AFBC_YUV
      = p.GRALLOC_ARM_INTFMT_ARM_AFBC_YUV <;>
  simp [drm_gem_rockchip_alloc_type, spec_alloc_type, hz, ha, hs, hw, hp, hm, hy]

/-- C29: `gralloc_drm_handle` returns a non-null pointer exactly when
`gralloc_drm_validate_handle` returns 0 on the same handle, and the pointer it then
returns is the one it was given (the object behind it has every field as before except
`ref`, which the call incremented). -/
theorem C29_validators_agree (abi : HandleABI) (h : Option gralloc_drm_handle_t) :
    ((gralloc_drm_handle abi h).returns_handle = true
        ↔ gralloc_drm_validate_handle abi h = 0)
      ∧ ((gralloc_drm_handle abi h).returns_handle = true →
          ∃ handle, h = some handle
            ∧ (gralloc_drm_handle abi h).handle
              = some { handle with ref := handle.ref + 1 }) := by
  cases h with
  | none =>
    refine ⟨?_, ?_⟩
    · simp [gralloc_drm_handle, gralloc_drm_validate_handle, EINVAL]
    · intro hr
      simp [gralloc_drm_handle] at hr
  | some handle =>
    rw [gralloc_drm_handle_some]
    refine ⟨?_, ?_⟩
    · simp
    · intro _
      exact ⟨handle, rfl, rfl⟩

/-- C29 on the sample handle: both validators accept it, and both reject it with magic
0. -/
theorem C29_validators_agree_witness :
    gralloc_drm_validate_handle sample_abi (some (sample_handle 1 0 64 64)) = 0
      ∧ (∃ handle, some (sample_handle 1 0 64 64) = some handle
        ∧ (gralloc_drm_handle sample_abi (some (sample_handle 1 0 64 64))).handle
          = some { handle with ref := handle.ref + 1 })
      ∧ (gralloc_drm_handle sample_abi
          (some { sample_handle 1 0 64 64 with magic := 0 })).returns_handle = false
      ∧ gralloc_drm_validate_handle sample_abi
          (some { sample_handle 1 0 64 64 with magic := 0 }) ≠ 0 :=
  ⟨(C29_validators_agree sample_abi (some (sample_handle 1 0 64 64))).1.mp (by decide),
   (C29_validators_agree sample_abi (some (sample_handle 1 0 64 64))).2 (by decide),
   by decide, by decide⟩

/-- C30: two calls of `get_afbc_yuv420_8bit_stride_and_size` that differ only in the
height argument return the same result, pixel_stride, byte_stride, size and internal
height; when AFBC_YUV420_EXTRA_MB_ROW_NEEDED is not set the call leaves `*internalHeight`
as it was. -/
theorem C30_afbc_yuv420_ignores_height (AFBC_YUV420_EXTRA_MB_ROW_NEEDED : Bool)
    (width height height2 : Int) (o : Outs) (type : AllocType) (internalHeight : Int) :
    get_afbc_yuv420_8bit_stride_and_size AFBC_YUV420_EXTRA_MB_ROW_NEEDED width height o type
        internalHeight
      = get_afbc_yuv420_8bit_stride_and_size AFBC_YUV420_EXTRA_MB_ROW_NEEDED width height2 o
          type internalHeight
    ∧ (get_afbc_yuv420_8bit_stride_and_size false width height o type
        internalHeight).internalHeight = internalHeight := by
  refine ⟨rfl, ?_⟩
  by_cases h1 : type = AllocType.UNCOMPRESSED
  · simp [get_afbc_yuv420_8bit_stride_and_size, h1]
  · by_cases h2 : type = AllocType.AFBC_PADDED
    · simp [get_afbc_yuv420_8bit_stride_and_size, h2]
    · simp [get_afbc_yuv420_8bit_stride_and_size, h1, h2]


/-! ## What a finished allocation leaves in the handle, and the failure paths -/

/-- Lines 927-1012 write nothing into the handle except `prime_fd`, and never end with a
buffer returned. -/
theorem backing_keeps_pixel_stride (e : AllocEnv) (handle : gralloc_drm_handle_t)
    (size : Int) :
    match drm_gem_rockchip_alloc_backing e handle size with
    | BackingStage.returned out => ∀ b, out.ret ≠ AllocReturn.buf b
    | BackingStage.obtained _ _ hd _ => hd.pixel_stride = handle.pixel_stride := by
  unfold drm_gem_rockchip_alloc_backing
  by_cases h1 : e.calloc_succeeds = false
  · simp [h1]
  · by_cases h2 : handle.prime_fd ≥ 0
    · by_cases h3 : (e.drmPrimeFDToHandle handle.prime_fd).1 ≠ 0
      · simp [h1, h2, h3]
      · cases hbo : e.rockchip_bo_from_handle (e.drmPrimeFDToHandle handle.prime_fd).2 size <;>
          simp [h1, h2, h3, hbo]
    · cases hbo : e.rockchip_bo_create size with
      | none => simp [h1, h2, hbo]
      | some bo =>
        by_cases h4 : (e.drmPrimeHandleToFD (e.rockchip_bo_handle bo) handle.prime_fd).1 ≠ 0 <;>
          simp [h1, h2, hbo, h4]

/-- The fields that lines 1035-1064 write, and `pixel_stride`, which they do not. -/
theorem fill_fields (e : AllocEnv) (handle : gralloc_drm_handle_t) (usage format : Int)
    (internal_format : Nat) (size byte_stride internalWidth internalHeight : Int) :
    (drm_gem_rockchip_alloc_fill e handle usage format internal_format size byte_stride
        internalWidth internalHeight).byte_stride = byte_stride
      ∧ (drm_gem_rockchip_alloc_fill e handle usage format internal_format size byte_stride
        internalWidth internalHeight).stride = byte_stride
      ∧ (drm_gem_rockchip_alloc_fill e handle usage format internal_format size byte_stride
        internalWidth internalHeight).size = wrap32 size
      ∧ (drm_gem_rockchip_alloc_fill e handle usage format internal_format size byte_stride
        internalWidth internalHeight).internalWidth = internalWidth
      ∧ (drm_gem_rockchip_alloc_fill e handle usage format internal_format size byte_stride
        internalWidth internalHeight).internalHeight = internalHeight
      ∧ (drm_gem_rockchip_alloc_fill e handle usage format internal_format size byte_stride
        internalWidth internalHeight).pixel_stride = handle.pixel_stride := by
  unfold drm_gem_rockchip_alloc_fill
  refine ⟨rfl, rfl, rfl, rfl, rfl, ?_⟩
  simp only
  split_ifs <;> rfl

/-- C24 (as amended): after a successful `drm_gem_rockchip_alloc` the handle of the
returned buffer carries the byte stride (in `byte_stride` and in `stride`), the size
converted from `size_t` to the 32-bit `int` of the field (the same value when it is at
most 2^31 - 1), the internal width and the internal height that the layout part produced;
`pixel_stride` is
not written: with an attribute region that does not touch it, `handle.pixel_stride` has
the value it had before the call. -/
theorem C24_handle_geometry (p : Platform) (e : AllocEnv) (abi : HandleABI)
    (handle : gralloc_drm_handle_t) (ps0 bs0 s0 : Int)
    (type : AllocType) (o : Outs) (iw ih : Int) (b : rockchip_buffer)
    (hl : drm_gem_rockchip_alloc_layout p
      (e.gralloc_select_format handle.format handle.usage (handle.width * handle.height))
      handle.usage handle.width handle.height ⟨some ps0, some bs0, some s0⟩
        = LayoutStage.computed type o iw ih)
    (hr : (drm_gem_rockchip_alloc p e abi handle ps0 bs0 s0).ret = AllocReturn.buf b)
    (hattr : ∀ g, (e.gralloc_buffer_attr_allocate g).2.pixel_stride = g.pixel_stride) :
    b.handle = some (drm_gem_rockchip_alloc p e abi handle ps0 bs0 s0).handle
      ∧ (drm_gem_rockchip_alloc p e abi handle ps0 bs0 s0).handle.byte_stride
        = deref o.byte_stride
      ∧ (drm_gem_rockchip_alloc p e abi handle ps0 bs0 s0).handle.stride
        = deref o.byte_stride
      ∧ ((drm_gem_rockchip_alloc p e abi handle ps0 bs0 s0).handle.size
          = wrap32 (deref o.size)
        ∧ (0 ≤ deref o.size → deref o.size ≤ 2147483647 →
          (drm_gem_rockchip_alloc p e abi handle ps0 bs0 s0).handle.size = deref o.size))
      ∧ (drm_gem_rockchip_alloc p e abi handle ps0 bs0 s0).handle.internalWidth = iw
      ∧ (drm_gem_rockchip_alloc p e abi handle ps0 bs0 s0).handle.internalHeight = ih
      ∧ (drm_gem_rockchip_alloc p e abi handle ps0 bs0 s0).handle.pixel_stride
        = handle.pixel_stride := by
  have hb := backing_keeps_pixel_stride e handle (deref o.size)
  simp only [drm_gem_rockchip_alloc, hl] at hr ⊢
  cases hbk : drm_gem_rockchip_alloc_backing e handle (deref o.size) with
  | returned r =>
    rw [hbk] at hb hr
    exact absurd hr (hb b)
  | obtained bo fb hd calls =>
    rw [hbk] at hb hr
    simp only at hb hr ⊢
    by_cases hc : (e.gralloc_buffer_attr_allocate hd).1 < 0
        ∧ ¬ (int_and handle.usage e.GRALLOC_USAGE_HW_FB ≠ 0)
    · rw [if_pos hc] at hr
      exact absurd hr (by simp)
    · rw [if_neg hc] at hr ⊢
      simp only [AllocReturn.buf.injEq] at hr
      obtain ⟨f1, f2, f3, f4, f5, f6⟩ := fill_fields e (e.gralloc_buffer_attr_allocate hd).2
        handle.usage
        (if e.MALI_ARCHITECTURE_UTGARD = 1 ∧ int_and handle.usage e.GRALLOC_USAGE_HW_FB ≠ 0
          then
            if e.GRALLOC_16_BITS = true then (p.HAL_PIXEL_FORMAT_RGB_565 : Int)
            else (p.HAL_PIXEL_FORMAT_RGBA_8888 : Int)
          else handle.format)
        (e.gralloc_select_format handle.format handle.usage (handle.width * handle.height))
        (deref o.size) (deref o.byte_stride) iw ih
      refine ⟨by rw [← hr], f1, f2,
        ⟨f3, fun h0 h1 => by rw [f3]; exact wrap32_eq _ (by omega) h1⟩, f4, f5, ?_⟩
      rw [f6, hattr, hb]

/-- C24 (as amended) at a 1920 x 1080 RGBA_8888 request on a handle whose `pixel_stride`
is 7 before the call: byte_stride, stride, size, internalWidth and internalHeight are
those of the layout, `pixel_stride` is still 7. -/
theorem C24_handle_geometry_witness :
    (drm_gem_rockchip_alloc sample_platform sample_env sample_abi
        { sample_handle 1 0 1920 1080 with pixel_stride := 7 } 0 0 0).handle
      = { sample_handle 1 0 1920 1080 with
            prime_fd := 3, yuv_info := 1, stride := 7680, byte_stride := 7680,
            size := 8294400, internalWidth := 1920, internalHeight := 1080,
            internal_format := 1, pixel_stride := 7 }
      ∧ (drm_gem_rockchip_alloc sample_platform sample_env sample_abi
          { sample_handle 1 0 1920 1080 with pixel_stride := 7 } 0 0 0).handle.byte_stride
        = deref (some 7680)
      ∧ (drm_gem_rockchip_alloc sample_platform sample_env sample_abi
          { sample_handle 1 0 1920 1080 with pixel_stride := 7 } 0 0 0).handle.pixel_stride
        = 7 :=
  ⟨by decide,
   (C24_handle_geometry sample_platform sample_env sample_abi
      { sample_handle 1 0 1920 1080 with pixel_stride := 7 } 0 0 0
      AllocType.UNCOMPRESSED ⟨some 1920, some 7680, some 8294400⟩ 1920 1080
      ⟨some (drm_gem_rockchip_alloc sample_platform sample_env sample_abi
        { sample_handle 1 0 1920 1080 with pixel_stride := 7 } 0 0 0).handle, 2, 1⟩
      (by decide) (by decide) (fun _ => rfl)).2.1,
   (C24_handle_geometry sample_platform sample_env sample_abi
      { sample_handle 1 0 1920 1080 with pixel_stride := 7 } 0 0 0
      AllocType.UNCOMPRESSED ⟨some 1920, some 7680, some 8294400⟩ 1920 1080
      ⟨some (drm_gem_rockchip_alloc sample_platform sample_env sample_abi
        { sample_handle 1 0 1920 1080 with pixel_stride := 7 } 0 0 0).handle, 2, 1⟩
      (by decide) (by decide) (fun _ => rfl)).2.2.2.2.2.2⟩

/-- C24 as stated fails for `pixel_stride`: a 1920 x 1080 RGBA_8888 request succeeds, the
calculator produces pixel_stride 1920 and byte_stride 7680, and the handle of the returned
buffer has byte_stride 7680 but pixel_stride 0, the value it had before the call. -/
theorem C24_pixel_stride_not_written :
    drm_gem_rockchip_alloc_layout sample_platform 1 0 1920 1080 ⟨some 0, some 0, some 0⟩
        = LayoutStage.computed AllocType.UNCOMPRESSED
            ⟨some 1920, some 7680, some 8294400⟩ 1920 1080
      ∧ (∃ b, (drm_gem_rockchip_alloc sample_platform sample_env sample_abi
          (sample_handle 1 0 1920 1080) 0 0 0).ret = AllocReturn.buf b
        ∧ b.handle = some (drm_gem_rockchip_alloc sample_platform sample_env sample_abi
          (sample_handle 1 0 1920 1080) 0 0 0).handle)
      ∧ (drm_gem_rockchip_alloc sample_platform sample_env sample_abi
          (sample_handle 1 0 1920 1080) 0 0 0).handle.byte_stride = 7680
      ∧ (drm_gem_rockchip_alloc sample_platform sample_env sample_abi
          (sample_handle 1 0 1920 1080) 0 0 0).handle.pixel_stride = 0
      ∧ (drm_gem_rockchip_alloc sample_platform sample_env sample_abi
          (sample_handle 1 0 1920 1080) 0 0 0).handle.pixel_stride ≠ 1920 := by
  refine ⟨by decide, ⟨⟨some (drm_gem_rockchip_alloc sample_platform sample_env sample_abi
    (sample_handle 1 0 1920 1080) 0 0 0).handle, 2, 1⟩, by decide, rfl⟩, by decide,
    by decide, by decide⟩

/-- C25, evaluated where the code departs from it: a 64 x 64 RGBA_8888 request on an
environment whose `gralloc_buffer_attr_allocate` returns -1.  With GRALLOC_USAGE_HW_FB
the allocation succeeds.  Without it `drm_gem_rockchip_alloc` returns NULL, but
`drm_gem_rockchip_free` is called while `buf->base.handle` is still NULL, so it makes no
call at all: the buffer object 1 from `rockchip_bo_create`, the file descriptor 3 and the
wrapper from `calloc` are never released.  Called on the same buffer with the handle
attached, `drm_gem_rockchip_free` releases all of them. -/
theorem C25_attr_failure_releases_nothing :
    (∃ b, (drm_gem_rockchip_alloc sample_platform sample_env_attr_fails sample_abi
        (sample_handle 1 0x1000 64 64) 0 0 0).ret = AllocReturn.buf b)
      ∧ drm_gem_rockchip_alloc sample_platform sample_env_attr_fails sample_abi
          (sample_handle 1 0 64 64) 0 0 0
        = ⟨AllocReturn.NULL, { sample_handle 1 0 64 64 with prime_fd := 3 },
            [Call.calloc, Call.rockchip_bo_create 16384, Call.rockchip_bo_handle 1,
              Call.drmPrimeHandleToFD 2, Call.gralloc_buffer_attr_allocate]⟩
      ∧ (drm_gem_rockchip_alloc sample_platform sample_env_attr_fails sample_abi
          (sample_handle 1 0 64 64) 0 0 0).calls.all (fun c => !c.is_release) = true
      ∧ (∀ (e : AllocEnv) (abi : HandleABI) (fb_handle bo : Nat),
          drm_gem_rockchip_free e abi ⟨none, fb_handle, bo⟩ = ⟨none, []⟩)
      ∧ (drm_gem_rockchip_free sample_env_attr_fails sample_abi
          ⟨some { sample_handle 1 0 64 64 with prime_fd := 3 }, 2, 1⟩).calls
        = [Call.pthread_mutex_lock, Call.gralloc_buffer_attr_free, Call.close 3,
            Call.rockchip_bo_destroy 1, Call.free] := by
  refine ⟨⟨⟨some (drm_gem_rockchip_alloc sample_platform sample_env_attr_fails sample_abi
    (sample_handle 1 0x1000 64 64) 0 0 0).handle, 2, 1⟩, by decide⟩, by decide, by decide,
    fun _ _ _ _ => rfl, by decide⟩

/-- C26, evaluated where the code departs from it: on a buffer whose handle pointer is
NULL `drm_gem_rockchip_free` does nothing; on a buffer whose handle has magic 0 (it fails
`gralloc_drm_validate_handle`) it makes no release call, but the handle does not stay as
it was: `ref` goes from 5 to 6 and `pthread_mutex_lock` is called with no unlock. -/
theorem C26_free_invalid_handle_changes_ref :
    drm_gem_rockchip_free sample_env sample_abi ⟨none, 2, 1⟩ = ⟨none, []⟩
      ∧ gralloc_drm_validate_handle sample_abi
          (some { sample_handle 1 0 64 64 with ref := 5, magic := 0 }) = -EINVAL
      ∧ drm_gem_rockchip_free sample_env sample_abi
          ⟨some { sample_handle 1 0 64 64 with ref := 5, magic := 0 }, 2, 1⟩
        = ⟨some { sample_handle 1 0 64 64 with ref := 6, magic := 0 },
            [Call.pthread_mutex_lock]⟩
      ∧ (drm_gem_rockchip_free sample_env sample_abi
          ⟨some { sample_handle 1 0 64 64 with ref := 5, magic := 0 }, 2, 1⟩).calls.all
            (fun c => !c.is_release) = true
      ∧ (drm_gem_rockchip_free sample_env sample_abi
          ⟨some { sample_handle 1 0 64 64 with ref := 5, magic := 0 }, 2, 1⟩).handle
        ≠ some { sample_handle 1 0 64 64 with ref := 5, magic := 0 } := by
  decide


/-! ## Bounds on the reported sizes and strides -/

/-- Rounding up does not go below the value. -/
theorem align_ge (v b : Int) (hb : 0 < b) : v ≤ align v b := by
  rw [align_eq_div v b hb]
  have h := Int.lt_ediv_add_one_mul_self (v + (b - 1)) hb
  nlinarith

/-- Rounding up adds less than the base. -/
theorem align_lt (v b : Int) (hb : 0 < b) : align v b < v + b := by
  rw [align_eq_div v b hb]
  have h := Int.ediv_mul_le (v + (b - 1)) (ne_of_gt hb)
  omega

/-- In exact arithmetic: for every even width >= 0, even height >= 0 and stride_alignment 16 or 128,
`get_yv12_stride_and_size` with type UNCOMPRESSED succeeds and stores a size that is at
least width * height + 2 * (width / 2) * (height / 2), the bytes of the luma plane and
the two chroma planes, and a byte_stride that is at least width. -/
theorem yv12_size_covers_planes_exact (AFBC_YUV420_EXTRA_MB_ROW_NEEDED : Bool)
    (width height stride_alignment internalHeight : Int) (o : Outs)
    (hw : 0 ≤ width) (hwe : width % 2 = 0) (hh : 0 ≤ height) (hhe : height % 2 = 0)
    (ha : stride_alignment = 16 ∨ stride_alignment = 128) :
    ∃ size byte_stride : Int,
      (get_yv12_stride_and_size AFBC_YUV420_EXTRA_MB_ROW_NEEDED width height o
          AllocType.UNCOMPRESSED internalHeight stride_alignment).ret = true
        ∧ (get_yv12_stride_and_size AFBC_YUV420_EXTRA_MB_ROW_NEEDED width height o
          AllocType.UNCOMPRESSED internalHeight stride_alignment).outs.size
          = store o.size size
        ∧ (get_yv12_stride_and_size AFBC_YUV420_EXTRA_MB_ROW_NEEDED width height o
          AllocType.UNCOMPRESSED internalHeight stride_alignment).outs.byte_stride
          = store o.byte_stride byte_stride
        ∧ size ≥ width * height + 2 * (width / 2) * (height / 2)
        ∧ byte_stride ≥ width := by
  have hpar : ¬ (Int.tmod width 2 ≠ 0 ∨ Int.tmod height 2 ≠ 0) := by
    rw [tmod_two_ne_zero, tmod_two_ne_zero]
    omega
  have hsa : (0 : Int) < stride_alignment := by rcases ha with h | h <;> omega
  have hl : 0 ≤ align width stride_alignment := align_nonneg _ _ hw hsa
  have hl2 : 0 ≤ align width stride_alignment / 2 := Int.ediv_nonneg hl (by decide)
  have hge : width ≤ align width stride_alignment := align_ge _ _ hsa
  have hge2 : align width stride_alignment / 2
      ≤ align (align width stride_alignment / 2) stride_alignment := align_ge _ _ hsa
  refine ⟨height * (align width stride_alignment
      + align (align width stride_alignment / 2) stride_alignment),
    align width stride_alignment, ?_, ?_, ?_, ?_, hge⟩
  · simp only [get_yv12_stride_and_size, hpar, if_false, ne_eq, not_true_eq_false]
  · rcases ha with h | h <;> subst h
    · simp only [get_yv12_stride_and_size, hpar, if_false, ne_eq, not_true_eq_false,
        GRALLOC_ALIGN_16 _ hw, Int.tdiv_eq_ediv hl (by decide : (0 : Int) ≤ 2),
        GRALLOC_ALIGN_16 _ hl2]
    · simp only [get_yv12_stride_and_size, hpar, if_false, ne_eq, not_true_eq_false,
        GRALLOC_ALIGN_128 _ hw, Int.tdiv_eq_ediv hl (by decide : (0 : Int) ≤ 2),
        GRALLOC_ALIGN_128 _ hl2]
  · rcases ha with h | h <;> subst h
    · simp only [get_yv12_stride_and_size, hpar, if_false, ne_eq, not_true_eq_false,
        GRALLOC_ALIGN_16 _ hw]
    · simp only [get_yv12_stride_and_size, hpar, if_false, ne_eq, not_true_eq_false,
        GRALLOC_ALIGN_128 _ hw]
  · obtain ⟨k, hk⟩ : ∃ k, width = 2 * k := ⟨width / 2, by omega⟩
    obtain ⟨m, hm⟩ : ∃ m, height = 2 * m := ⟨height / 2, by omega⟩
    have hk2 : width / 2 = k := by omega
    have hm2 : height / 2 = m := by omega
    have hk0 : 0 ≤ k := by omega
    have hm0 : 0 ≤ m := by omega
    have hc : k ≤ align (align width stride_alignment / 2) stride_alignment := by omega
    have hsum : 3 * k ≤ align width stride_alignment
        + align (align width stride_alignment / 2) stride_alignment := by omega
    have hprod := Int.mul_le_mul_of_nonneg_left hsum hh
    have e : width * height + 2 * k * m = height * (3 * k) := by
      rw [hk, hm]
      ring
    rw [hk2, hm2, e]
    exact hprod

/-- The byte stride and the pixel stride that `get_rgb_stride_and_size` stores, for every
type. -/
theorem rgb_strides (width height pixel_size : Int) (o : Outs) (type : AllocType) :
    (get_rgb_stride_and_size width height pixel_size o type).byte_stride
        = store o.byte_stride (GRALLOC_ALIGN (width * pixel_size) 64)
      ∧ (get_rgb_stride_and_size width height pixel_size o type).pixel_stride
        = store o.pixel_stride
            (Int.tdiv (GRALLOC_ALIGN (width * pixel_size) 64) pixel_size) := by
  unfold get_rgb_stride_and_size
  simp only
  split_ifs <;> exact ⟨rfl, rfl⟩


/-- In exact arithmetic: in `get_rgb_stride_and_size` the pixel stride stored is the truncated quotient
byte_stride / pixel_size; for every width >= 0 it satisfies
pixel_stride * pixel_size = byte_stride when pixel_size is 2 or 4, and
byte_stride - 2 <= pixel_stride * 3 <= byte_stride when pixel_size is 3; at width 1 and
pixel_size 3 the byte stride is 64 and the pixel stride 21, so 21 * 3 < 64. -/
theorem rgb_pixel_stride_exact (width height pixel_size : Int) (o : Outs) (type : AllocType)
    (hw : 0 ≤ width) :
    (∃ byte_stride pixel_stride : Int,
      (get_rgb_stride_and_size width height pixel_size o type).byte_stride
          = store o.byte_stride byte_stride
        ∧ (get_rgb_stride_and_size width height pixel_size o type).pixel_stride
          = store o.pixel_stride pixel_stride
        ∧ pixel_stride = Int.tdiv byte_stride pixel_size
        ∧ (pixel_size = 2 ∨ pixel_size = 4 → pixel_stride * pixel_size = byte_stride)
        ∧ (pixel_size = 3 →
            byte_stride - 2 ≤ pixel_stride * 3 ∧ pixel_stride * 3 ≤ byte_stride))
      ∧ (get_rgb_stride_and_size 1 height 3 ⟨some 0, some 0, some 0⟩ type).byte_stride
        = some 64
      ∧ (get_rgb_stride_and_size 1 height 3 ⟨some 0, some 0, some 0⟩ type).pixel_stride
        = some 21
      ∧ (21 : Int) * 3 < 64 := by
  refine ⟨⟨GRALLOC_ALIGN (width * pixel_size) 64,
    Int.tdiv (GRALLOC_ALIGN (width * pixel_size) 64) pixel_size,
    (rgb_strides width height pixel_size o type).1,
    (rgb_strides width height pixel_size o type).2, rfl, ?_, ?_⟩, ?_, ?_, by decide⟩
  · intro hp
    rcases hp with h | h <;> subst h
    · have hwp : (0 : Int) ≤ width * 2 := by omega
      have ha : 0 ≤ align (width * 2) 64 := align_nonneg _ _ hwp (by decide)
      rw [GRALLOC_ALIGN_64 _ hwp, Int.tdiv_eq_ediv ha (by decide)]
      have hm : align (width * 2) 64 % 64 = 0 :=
        Int.emod_eq_zero_of_dvd (align_dvd (width * 2) 64)
      omega
    · have hwp : (0 : Int) ≤ width * 4 := by omega
      have ha : 0 ≤ align (width * 4) 64 := align_nonneg _ _ hwp (by decide)
      rw [GRALLOC_ALIGN_64 _ hwp, Int.tdiv_eq_ediv ha (by decide)]
      have hm : align (width * 4) 64 % 64 = 0 :=
        Int.emod_eq_zero_of_dvd (align_dvd (width * 4) 64)
      omega
  · intro h
    subst h
    have hwp : (0 : Int) ≤ width * 3 := by omega
    have ha : 0 ≤ align (width * 3) 64 := align_nonneg _ _ hwp (by decide)
    rw [GRALLOC_ALIGN_64 _ hwp, Int.tdiv_eq_ediv ha (by decide)]
    omega
  · rw [(rgb_strides 1 height 3 ⟨some 0, some 0, some 0⟩ type).1]
    decide
  · rw [(rgb_strides 1 height 3 ⟨some 0, some 0, some 0⟩ type).2]
    decide

/-- Four bytes per pixel on a block-aligned width cover the 64-byte aligned line. -/
theorem rgb4_line_le (width b : Int) (hw : 0 ≤ width)
    (hb : b = 16 ∨ b = 32 ∨ b = 64) :
    GRALLOC_ALIGN (width * 4) 64 ≤ align width b * 4 ∧ 0 ≤ align width b := by
  have hwp : (0 : Int) ≤ width * 4 := by omega
  rw [GRALLOC_ALIGN_64 _ hwp, align_eq_div (width * 4) 64 (by decide)]
  rcases hb with h | h | h <;> subst h
  · rw [align_eq_div width 16 (by decide)]
    omega
  · rw [align_eq_div width 32 (by decide)]
    omega
  · rw [align_eq_div width 64 (by decide)]
    omega

/-- The size of a compressed buffer of 4 bytes per pixel covers the lines of the public
height, for any aligned width that covers the 64-byte aligned line. -/
theorem rgb4_size_bound (width height w_aligned : Int) (hw : 0 ≤ width) (hh : 0 ≤ height)
    (hl : GRALLOC_ALIGN (width * 4) 64 ≤ w_aligned * 4) (h0 : 0 ≤ w_aligned) :
    GRALLOC_ALIGN (width * 4) 64 * height
      ≤ w_aligned * GRALLOC_ALIGN height 16 * 4
        + GRALLOC_ALIGN (Int.tdiv (Int.tdiv w_aligned 16 * GRALLOC_ALIGN height 16) 16 * 16)
            1024 := by
  have hwp : (0 : Int) ≤ width * 4 := by omega
  have hs0 : 0 ≤ GRALLOC_ALIGN (width * 4) 64 := by
    rw [GRALLOC_ALIGN_64 _ hwp]
    exact align_nonneg _ _ hwp (by decide)
  have hha : height ≤ GRALLOC_ALIGN height 16 := by
    rw [GRALLOC_ALIGN_16 _ hh]
    exact align_ge _ _ (by decide)
  have hha0 : 0 ≤ GRALLOC_ALIGN height 16 := le_trans hh hha
  have hn : 0 ≤ Int.tdiv (Int.tdiv w_aligned 16 * GRALLOC_ALIGN height 16) 16 * 16 := by
    rw [Int.tdiv_eq_ediv h0 (by decide)]
    have h1 : 0 ≤ w_aligned / 16 := Int.ediv_nonneg h0 (by decide)
    rw [Int.tdiv_eq_ediv (Int.mul_nonneg h1 hha0) (by decide)]
    have h2 : 0 ≤ w_aligned / 16 * GRALLOC_ALIGN height 16 / 16 :=
      Int.ediv_nonneg (Int.mul_nonneg h1 hha0) (by decide)
    omega
  have hhd : 0 ≤ GRALLOC_ALIGN
      (Int.tdiv (Int.tdiv w_aligned 16 * GRALLOC_ALIGN height 16) 16 * 16) 1024 := by
    rw [GRALLOC_ALIGN_1024 _ hn]
    exact align_nonneg _ _ hn (by decide)
  have h1 : GRALLOC_ALIGN (width * 4) 64 * height
      ≤ GRALLOC_ALIGN (width * 4) 64 * GRALLOC_ALIGN height 16 :=
    Int.mul_le_mul_of_nonneg_left hha hs0
  have h2 : GRALLOC_ALIGN (width * 4) 64 * GRALLOC_ALIGN height 16
      ≤ w_aligned * 4 * GRALLOC_ALIGN height 16 :=
    Int.mul_le_mul_of_nonneg_right hl hha0
  have h3 : w_aligned * 4 * GRALLOC_ALIGN height 16
      = w_aligned * GRALLOC_ALIGN height 16 * 4 := by ring
  omega

/-- In exact arithmetic: for pixel_size 4, every width >= 0, height >= 0 and compressed type, the size
that `get_rgb_stride_and_size` stores is at least the stored byte_stride times the
height; for pixel_size 2 the bound fails at width 16, height 1600, type AFBC, where the
size is 53248 and byte_stride * height is 64 * 1600 = 102400. -/
theorem rgb_compressed_size_covers_lines_exact (width height : Int) (o : Outs)
    (type : AllocType) (hw : 0 ≤ width) (hh : 0 ≤ height)
    (ht : type ≠ AllocType.UNCOMPRESSED) :
    (∃ size byte_stride : Int,
      (get_rgb_stride_and_size width height 4 o type).size = store o.size size
        ∧ (get_rgb_stride_and_size width height 4 o type).byte_stride
          = store o.byte_stride byte_stride
        ∧ size ≥ byte_stride * height)
      ∧ get_rgb_stride_and_size 16 1600 2 ⟨some 0, some 0, some 0⟩ AllocType.AFBC
        = ⟨some 32, some 64, some 53248⟩
      ∧ (53248 : Int) < 64 * 1600 := by
  refine ⟨?_, by decide, by decide⟩
  cases type with
  | UNCOMPRESSED => exact absurd rfl ht
  | AFBC =>
    have hb := rgb4_line_le width 16 hw (Or.inl rfl)
    rw [← GRALLOC_ALIGN_16 _ hw] at hb
    refine ⟨_, _, ?_, (rgb_strides width height 4 o AllocType.AFBC).1,
      rgb4_size_bound width height (GRALLOC_ALIGN width 16) hw hh hb.1 hb.2⟩
    cases hs : o.size <;>
      simp [get_rgb_stride_and_size, store, hs, AFBC_PIXELS_PER_BLOCK,
        AFBC_HEADER_BUFFER_BYTES_PER_BLOCKENTRY, AFBC_BODY_BUFFER_BYTE_ALIGNMENT]
  | AFBC_WIDEBLK =>
    have hb := rgb4_line_le width 32 hw (Or.inr (Or.inl rfl))
    rw [← GRALLOC_ALIGN_32 _ hw] at hb
    refine ⟨_, _, ?_, (rgb_strides width height 4 o AllocType.AFBC_WIDEBLK).1,
      rgb4_size_bound width height (GRALLOC_ALIGN width 32) hw hh hb.1 hb.2⟩
    cases hs : o.size <;>
      simp [get_rgb_stride_and_size, store, hs, AFBC_PIXELS_PER_BLOCK,
        AFBC_WIDEBLK_WIDTH_ALIGN,
        AFBC_HEADER_BUFFER_BYTES_PER_BLOCKENTRY, AFBC_BODY_BUFFER_BYTE_ALIGNMENT]
  | AFBC_PADDED =>
    have hb := rgb4_line_le width 64 hw (Or.inr (Or.inr rfl))
    rw [← GRALLOC_ALIGN_64 _ hw] at hb
    refine ⟨_, _, ?_, (rgb_strides width height 4 o AllocType.AFBC_PADDED).1,
      rgb4_size_bound width height (GRALLOC_ALIGN width 64) hw hh hb.1 hb.2⟩
    cases hs : o.size <;>
      simp [get_rgb_stride_and_size, store, hs, AFBC_PIXELS_PER_BLOCK,
        AFBC_HEADER_BUFFER_BYTES_PER_BLOCKENTRY, AFBC_BODY_BUFFER_BYTE_ALIGNMENT]

/-! ## The 32-bit computation of `get_rgb_stride_and_size` -/

/-- On a non-negative value that leaves room for the rounding, the 32-bit `GRALLOC_ALIGN`
is the exact one, for the four bases the calculator uses. -/
theorem GRALLOC_ALIGN_int32_eq (v b : Int) (hb : b = 16 ∨ b = 32 ∨ b = 64 ∨ b = 1024)
    (hv : 0 ≤ v) (hv2 : v ≤ 2147482624) :
    GRALLOC_ALIGN_int32 v b = GRALLOC_ALIGN v b := by
  unfold GRALLOC_ALIGN_int32 GRALLOC_ALIGN
  rcases hb with h | h | h | h <;> subst h
  · rw [show wrap32 ((16 : Int) - 1) = 16 - 1 from by decide,
      show wrap32 (~~~ ((16 : Int) - 1)) = ~~~ (16 - 1) from by decide,
      wrap32_eq (v + (16 - 1)) (by omega) (by omega)]
  · rw [show wrap32 ((32 : Int) - 1) = 32 - 1 from by decide,
      show wrap32 (~~~ ((32 : Int) - 1)) = ~~~ (32 - 1) from by decide,
      wrap32_eq (v + (32 - 1)) (by omega) (by omega)]
  · rw [show wrap32 ((64 : Int) - 1) = 64 - 1 from by decide,
      show wrap32 (~~~ ((64 : Int) - 1)) = ~~~ (64 - 1) from by decide,
      wrap32_eq (v + (64 - 1)) (by omega) (by omega)]
  · rw [show wrap32 ((1024 : Int) - 1) = 1024 - 1 from by decide,
      show wrap32 (~~~ ((1024 : Int) - 1)) = ~~~ (1024 - 1) from by decide,
      wrap32_eq (v + (1024 - 1)) (by omega) (by omega)]

/-- The exact `GRALLOC_ALIGN` of a value between 0 and a multiple `c * b` of the base
stays between the value and `c * b`. -/
theorem GRALLOC_ALIGN_bounds (v b c : Int) (hb : b = 16 ∨ b = 32 ∨ b = 64 ∨ b = 1024)
    (hv : 0 ≤ v) (hc : v ≤ c * b) :
    v ≤ GRALLOC_ALIGN v b ∧ GRALLOC_ALIGN v b ≤ c * b := by
  rcases hb with h | h | h | h <;> subst h
  · rw [GRALLOC_ALIGN_16 _ hv, align_eq_div v 16 (by decide)]
    omega
  · rw [GRALLOC_ALIGN_32 _ hv, align_eq_div v 32 (by decide)]
    omega
  · rw [GRALLOC_ALIGN_64 _ hv, align_eq_div v 64 (by decide)]
    omega
  · rw [GRALLOC_ALIGN_1024 _ hv, align_eq_div v 1024 (by decide)]
    omega

/-- Bounds of a product of two bounded non-negative factors. -/
theorem mul_bounds (a b A B : Int) (ha : 0 ≤ a) (haA : a ≤ A) (hb : 0 ≤ b) (hbB : b ≤ B) :
    0 ≤ a * b ∧ a * b ≤ A * B :=
  ⟨Int.mul_nonneg ha hb, Int.mul_le_mul haA hbB hb (le_trans ha haA)⟩

/-- Bounds of a truncated quotient of a non-negative value by a positive divisor. -/
theorem tdiv_bounds (a d : Int) (ha : 0 ≤ a) (hd : 0 < d) :
    0 ≤ Int.tdiv a d ∧ Int.tdiv a d ≤ a := by
  rw [Int.tdiv_eq_ediv ha (le_of_lt hd)]
  exact ⟨Int.ediv_nonneg ha (le_of_lt hd), Int.ediv_le_self d ha⟩

/-- Bounds of a truncated quotient by 16. -/
theorem tdiv16_bounds (a A : Int) (ha : 0 ≤ a) (hA : a ≤ 16 * A) :
    0 ≤ Int.tdiv a 16 ∧ Int.tdiv a 16 ≤ A := by
  rw [Int.tdiv_eq_ediv ha (by decide)]
  omega

/-- The values of lines 121-139 of `get_rgb_stride_and_size` for a width and height up to
16384 and 2 to 4 bytes per pixel. -/
theorem rgb_head_bounds (width height pixel_size : Int)
    (hw0 : 0 ≤ width) (hw1 : width ≤ 16384) (hh0 : 0 ≤ height) (hh1 : height ≤ 16384)
    (hp0 : 2 ≤ pixel_size) (hp1 : pixel_size ≤ 4) :
    (0 ≤ width * pixel_size ∧ width * pixel_size ≤ 65536)
      ∧ (0 ≤ GRALLOC_ALIGN (width * pixel_size) 64
        ∧ GRALLOC_ALIGN (width * pixel_size) 64 ≤ 65536)
      ∧ (0 ≤ GRALLOC_ALIGN (width * pixel_size) 64 * height
        ∧ GRALLOC_ALIGN (width * pixel_size) 64 * height ≤ 1073741824)
      ∧ (0 ≤ Int.tdiv (GRALLOC_ALIGN (width * pixel_size) 64) pixel_size
        ∧ Int.tdiv (GRALLOC_ALIGN (width * pixel_size) 64) pixel_size ≤ 65536) := by
  have hW := mul_bounds width pixel_size 16384 4 hw0 hw1 (by omega) hp1
  have hW1 : width * pixel_size ≤ 1024 * 64 := by omega
  have hS := GRALLOC_ALIGN_bounds (width * pixel_size) 64 1024 (by decide) hW.1 hW1
  have hS0 : 0 ≤ GRALLOC_ALIGN (width * pixel_size) 64 := le_trans hW.1 hS.1
  have hSH := mul_bounds (GRALLOC_ALIGN (width * pixel_size) 64) height (1024 * 64) 16384
    hS0 hS.2 hh0 hh1
  have hQ := tdiv_bounds (GRALLOC_ALIGN (width * pixel_size) 64) pixel_size hS0 (by omega)
  refine ⟨⟨hW.1, by omega⟩, ⟨hS0, by omega⟩, ⟨hSH.1, by omega⟩, ⟨hQ.1, by omega⟩⟩

/-- The values of lines 144-167 of `get_rgb_stride_and_size` for an aligned width and
height up to 16384 and 2 to 4 bytes per pixel. -/
theorem rgb_tail_bounds (wa ha ps : Int)
    (hw0 : 0 ≤ wa) (hw1 : wa ≤ 16384) (hh0 : 0 ≤ ha) (hh1 : ha ≤ 16384)
    (hp0 : 2 ≤ ps) (hp1 : ps ≤ 4) :
    (0 ≤ Int.tdiv wa 16 ∧ Int.tdiv wa 16 ≤ 1024)
      ∧ (0 ≤ Int.tdiv wa 16 * ha ∧ Int.tdiv wa 16 * ha ≤ 16777216)
      ∧ (0 ≤ Int.tdiv (Int.tdiv wa 16 * ha) 16
        ∧ Int.tdiv (Int.tdiv wa 16 * ha) 16 ≤ 1048576)
      ∧ (0 ≤ GRALLOC_ALIGN (Int.tdiv (Int.tdiv wa 16 * ha) 16 * 16) 1024
        ∧ GRALLOC_ALIGN (Int.tdiv (Int.tdiv wa 16 * ha) 16 * 16) 1024 ≤ 16777216)
      ∧ (0 ≤ wa * ha ∧ wa * ha ≤ 268435456)
      ∧ (0 ≤ wa * ha * ps ∧ wa * ha * ps ≤ 1073741824) := by
  have hq := tdiv16_bounds wa 1024 hw0 (by omega)
  have hqh := mul_bounds (Int.tdiv wa 16) ha 1024 16384 hq.1 hq.2 hh0 hh1
  have hnb := tdiv16_bounds (Int.tdiv wa 16 * ha) 1048576 hqh.1 (by omega)
  have hen0 : 0 ≤ Int.tdiv (Int.tdiv wa 16 * ha) 16 * 16 := by omega
  have hhd := GRALLOC_ALIGN_bounds (Int.tdiv (Int.tdiv wa 16 * ha) 16 * 16) 1024 16384
    (by decide) hen0 (by omega)
  have hwh := mul_bounds wa ha 16384 16384 hw0 hw1 hh0 hh1
  have hwhp := mul_bounds (wa * ha) ps (16384 * 16384) 4 hwh.1 hwh.2 (by omega) hp1
  refine ⟨⟨hq.1, hq.2⟩, ⟨hqh.1, by omega⟩, ⟨hnb.1, hnb.2⟩, ⟨by omega, by omega⟩,
    ⟨hwh.1, by omega⟩, ⟨hwhp.1, by omega⟩⟩

/-- Lines 144-167 of `get_rgb_stride_and_size` in 32-bit arithmetic give the exact size. -/
theorem rgb_tail_int32_eq (wa ha ps : Int)
    (hw0 : 0 ≤ wa) (hw1 : wa ≤ 16384) (hh0 : 0 ≤ ha) (hh1 : ha ≤ 16384)
    (hp0 : 2 ≤ ps) (hp1 : ps ≤ 4) :
    wrap32 (wrap32 (wrap32 (wa * ha) * ps)
        + GRALLOC_ALIGN_int32
            (wrap32 (wrap32 (Int.tdiv (wrap32 (wrap32 (Int.tdiv wa 16) * ha)) 16) * 16)) 1024)
      = wa * ha * ps + GRALLOC_ALIGN (Int.tdiv (Int.tdiv wa 16 * ha) 16 * 16) 1024 := by
  obtain ⟨h1, h2, h3, h4, h5, h6⟩ := rgb_tail_bounds wa ha ps hw0 hw1 hh0 hh1 hp0 hp1
  rw [wrap32_eq (Int.tdiv wa 16) (by omega) (by omega),
    wrap32_eq (Int.tdiv wa 16 * ha) (by omega) (by omega),
    wrap32_eq (Int.tdiv (Int.tdiv wa 16 * ha) 16) (by omega) (by omega),
    wrap32_eq (Int.tdiv (Int.tdiv wa 16 * ha) 16 * 16) (by omega) (by omega),
    GRALLOC_ALIGN_int32_eq _ 1024 (by decide) (by omega) (by omega),
    wrap32_eq (wa * ha) (by omega) (by omega),
    wrap32_eq (wa * ha * ps) (by omega) (by omega),
    wrap32_eq _ (by omega) (by omega)]

/-- Lines 121-139 of `get_rgb_stride_and_size` in 32-bit arithmetic give the exact
values. -/
theorem rgb_head_int32_eq (width height pixel_size : Int)
    (hw0 : 0 ≤ width) (hw1 : width ≤ 16384) (hh0 : 0 ≤ height) (hh1 : height ≤ 16384)
    (hp0 : 2 ≤ pixel_size) (hp1 : pixel_size ≤ 4) :
    GRALLOC_ALIGN_int32 (wrap32 (width * pixel_size)) 64
        = GRALLOC_ALIGN (width * pixel_size) 64
      ∧ wrap32 (GRALLOC_ALIGN (width * pixel_size) 64 * height)
        = GRALLOC_ALIGN (width * pixel_size) 64 * height
      ∧ wrap32 (Int.tdiv (GRALLOC_ALIGN (width * pixel_size) 64) pixel_size)
        = Int.tdiv (GRALLOC_ALIGN (width * pixel_size) 64) pixel_size := by
  obtain ⟨h1, h2, h3, h4⟩ := rgb_head_bounds width height pixel_size hw0 hw1 hh0 hh1 hp0 hp1
  refine ⟨?_, wrap32_eq _ (by omega) (by omega), wrap32_eq _ (by omega) (by omega)⟩
  rw [wrap32_eq (width * pixel_size) (by omega) (by omega),
    GRALLOC_ALIGN_int32_eq _ 64 (by decide) (by omega) (by omega)]

/-- C34: for every width and height in 0..16384, pixel_size in {2, 3, 4} and allocation
type, every value that `get_rgb_stride_and_size` computes lies in the range of a 32-bit
`int` (none exceeds 2^31 - 1, none is negative), and the computation carried out on
32-bit `int`s stores the same pixel_stride, byte_stride and size as the exact one.  At
width = height = 32768 with pixel_size 4 the exact size is 2^32, above 2^31 - 1, and the
32-bit computation stores 0. -/
theorem C34_rgb_int32_exact (width height pixel_size : Int) (o : Outs) (type : AllocType)
    (hw0 : 0 ≤ width) (hw1 : width ≤ 16384) (hh0 : 0 ≤ height) (hh1 : height ≤ 16384)
    (hp : pixel_size = 2 ∨ pixel_size = 3 ∨ pixel_size = 4) :
    (∀ v ∈ get_rgb_stride_and_size_values width height pixel_size type,
        0 ≤ v ∧ v ≤ 2147483647)
      ∧ get_rgb_stride_and_size_int32 width height pixel_size o type
        = get_rgb_stride_and_size width height pixel_size o type
      ∧ (get_rgb_stride_and_size 32768 32768 4 ⟨some 0, some 0, some 0⟩
          AllocType.UNCOMPRESSED).size = some 4294967296
      ∧ (4294967296 : Int) > 2147483647
      ∧ (get_rgb_stride_and_size_int32 32768 32768 4 ⟨some 0, some 0, some 0⟩
          AllocType.UNCOMPRESSED).size = some 0 := by
  have hp0 : 2 ≤ pixel_size := by rcases hp with h | h | h <;> omega
  have hp1 : pixel_size ≤ 4 := by rcases hp with h | h | h <;> omega
  obtain ⟨b1, b2, b3, b4⟩ :=
    rgb_head_bounds width height pixel_size hw0 hw1 hh0 hh1 hp0 hp1
  obtain ⟨e1, e2, e3⟩ :=
    rgb_head_int32_eq width height pixel_size hw0 hw1 hh0 hh1 hp0 hp1
  have hH := GRALLOC_ALIGN_bounds height 16 1024 (by decide) hh0 (by omega)
  have hH0 : 0 ≤ GRALLOC_ALIGN height 16 := le_trans hh0 hH.1
  have eH : GRALLOC_ALIGN_int32 height 16 = GRALLOC_ALIGN height 16 :=
    GRALLOC_ALIGN_int32_eq height 16 (by decide) hh0 (by omega)
  have key : ∀ b : Int, (b = 16 ∨ b = 32 ∨ b = 64) → ∀ c : Int, 16384 = c * b →
      (∀ v ∈ [height + (16 - 1), GRALLOC_ALIGN height 16, width + (b - 1),
          GRALLOC_ALIGN width b, Int.tdiv (GRALLOC_ALIGN width b) 16,
          Int.tdiv (GRALLOC_ALIGN width b) 16 * GRALLOC_ALIGN height 16,
          Int.tdiv (Int.tdiv (GRALLOC_ALIGN width b) 16 * GRALLOC_ALIGN height 16) 16,
          Int.tdiv (Int.tdiv (GRALLOC_ALIGN width b) 16 * GRALLOC_ALIGN height 16) 16 * 16,
          Int.tdiv (Int.tdiv (GRALLOC_ALIGN width b) 16 * GRALLOC_ALIGN height 16) 16 * 16
            + (1024 - 1),
          GRALLOC_ALIGN
            (Int.tdiv (Int.tdiv (GRALLOC_ALIGN width b) 16 * GRALLOC_ALIGN height 16) 16
              * 16) 1024,
          GRALLOC_ALIGN width b * GRALLOC_ALIGN height 16,
          GRALLOC_ALIGN width b * GRALLOC_ALIGN height 16 * pixel_size,
          GRALLOC_ALIGN width b * GRALLOC_ALIGN height 16 * pixel_size
            + GRALLOC_ALIGN
              (Int.tdiv (Int.tdiv (GRALLOC_ALIGN width b) 16 * GRALLOC_ALIGN height 16) 16
                * 16) 1024],
          0 ≤ v ∧ v ≤ 2147483647)
        ∧ GRALLOC_ALIGN_int32 width b = GRALLOC_ALIGN width b
        ∧ wrap32 (wrap32 (wrap32 (GRALLOC_ALIGN width b * GRALLOC_ALIGN height 16)
              * pixel_size)
            + GRALLOC_ALIGN_int32
                (wrap32 (wrap32 (Int.tdiv (wrap32 (wrap32
                  (Int.tdiv (GRALLOC_ALIGN width b) 16) * GRALLOC_ALIGN height 16)) 16)
                  * 16)) 1024)
          = GRALLOC_ALIGN width b * GRALLOC_ALIGN height 16 * pixel_size
            + GRALLOC_ALIGN
              (Int.tdiv (Int.tdiv (GRALLOC_ALIGN width b) 16 * GRALLOC_ALIGN height 16) 16
                * 16) 1024 := by
    intro b hb c hc
    have hb4 : b = 16 ∨ b = 32 ∨ b = 64 ∨ b = 1024 := by
      rcases hb with h | h | h
      · exact Or.inl h
      · exact Or.inr (Or.inl h)
      · exact Or.inr (Or.inr (Or.inl h))
    have hWa := GRALLOC_ALIGN_bounds width b c hb4 hw0 (by omega)
    have hWa0 : 0 ≤ GRALLOC_ALIGN width b := le_trans hw0 hWa.1
    have hWa1 : GRALLOC_ALIGN width b ≤ 16384 := by omega
    obtain ⟨t1, t2, t3, t4, t5, t6⟩ := rgb_tail_bounds (GRALLOC_ALIGN width b)
      (GRALLOC_ALIGN height 16) pixel_size hWa0 hWa1 hH0 (by omega) hp0 hp1
    refine ⟨?_, GRALLOC_ALIGN_int32_eq width b hb4 hw0 (by omega),
      rgb_tail_int32_eq (GRALLOC_ALIGN width b) (GRALLOC_ALIGN height 16) pixel_size
        hWa0 hWa1 hH0 (by omega) hp0 hp1⟩
    intro v hv
    simp only [List.mem_cons, List.mem_singleton, List.not_mem_nil, or_false] at hv
    rcases hv with h | h | h | h | h | h | h | h | h | h | h | h | h <;> subst h <;>
      constructor <;> omega
  have head : ∀ v ∈ [width * pixel_size, width * pixel_size + (64 - 1),
      GRALLOC_ALIGN (width * pixel_size) 64, GRALLOC_ALIGN (width * pixel_size) 64 * height,
      Int.tdiv (GRALLOC_ALIGN (width * pixel_size) 64) pixel_size],
      0 ≤ v ∧ v ≤ 2147483647 := by
    intro v hv
    simp only [List.mem_cons, List.mem_singleton, List.not_mem_nil, or_false] at hv
    rcases hv with h | h | h | h | h <;> subst h <;> constructor <;> omega
  refine ⟨?_, ?_, by decide, by decide, by decide⟩
  · intro v hv
    cases type with
    | UNCOMPRESSED =>
      simp only [get_rgb_stride_and_size_values, ne_eq, not_true_eq_false, if_false] at hv
      exact head v hv
    | AFBC =>
      simp only [get_rgb_stride_and_size_values, ne_eq, reduceCtorEq, not_false_eq_true,
        if_true, if_false, AFBC_PIXELS_PER_BLOCK, AFBC_HEADER_BUFFER_BYTES_PER_BLOCKENTRY,
        AFBC_BODY_BUFFER_BYTE_ALIGNMENT, List.mem_append] at hv
      rcases hv with hv | hv
      · exact head v hv
      · exact (key 16 (Or.inl rfl) 1024 (by decide)).1 v hv
    | AFBC_WIDEBLK =>
      simp only [get_rgb_stride_and_size_values, ne_eq, reduceCtorEq, not_false_eq_true,
        if_true, if_false, AFBC_PIXELS_PER_BLOCK, AFBC_HEADER_BUFFER_BYTES_PER_BLOCKENTRY,
        AFBC_BODY_BUFFER_BYTE_ALIGNMENT, AFBC_WIDEBLK_WIDTH_ALIGN, List.mem_append] at hv
      rcases hv with hv | hv
      · exact head v hv
      · exact (key 32 (Or.inr (Or.inl rfl)) 512 (by decide)).1 v hv
    | AFBC_PADDED =>
      simp only [get_rgb_stride_and_size_values, ne_eq, reduceCtorEq, not_false_eq_true,
        if_true, if_false, AFBC_PIXELS_PER_BLOCK, AFBC_HEADER_BUFFER_BYTES_PER_BLOCKENTRY,
        AFBC_BODY_BUFFER_BYTE_ALIGNMENT, List.mem_append] at hv
      rcases hv with hv | hv
      · exact head v hv
      · exact (key 64 (Or.inr (Or.inr rfl)) 256 (by decide)).1 v hv
  · cases type with
    | UNCOMPRESSED =>
      simp only [get_rgb_stride_and_size_int32, get_rgb_stride_and_size, ne_eq,
        not_true_eq_false, if_false, e1, e2, e3]
    | AFBC =>
      obtain ⟨-, k2, k3⟩ := key 16 (Or.inl rfl) 1024 (by decide)
      simp only [get_rgb_stride_and_size_int32, get_rgb_stride_and_size, ne_eq,
        reduceCtorEq, not_false_eq_true, if_true, if_false, AFBC_PIXELS_PER_BLOCK,
        AFBC_HEADER_BUFFER_BYTES_PER_BLOCKENTRY, AFBC_BODY_BUFFER_BYTE_ALIGNMENT,
        e1, e2, e3, eH, k2, k3]
    | AFBC_WIDEBLK =>
      obtain ⟨-, k2, k3⟩ := key 32 (Or.inr (Or.inl rfl)) 512 (by decide)
      simp only [get_rgb_stride_and_size_int32, get_rgb_stride_and_size, ne_eq,
        reduceCtorEq, not_false_eq_true, if_true, if_false, AFBC_PIXELS_PER_BLOCK,
        AFBC_HEADER_BUFFER_BYTES_PER_BLOCKENTRY, AFBC_BODY_BUFFER_BYTE_ALIGNMENT,
        AFBC_WIDEBLK_WIDTH_ALIGN, e1, e2, e3, eH, k2, k3]
    | AFBC_PADDED =>
      obtain ⟨-, k2, k3⟩ := key 64 (Or.inr (Or.inr rfl)) 256 (by decide)
      simp only [get_rgb_stride_and_size_int32, get_rgb_stride_and_size, ne_eq,
        reduceCtorEq, not_false_eq_true, if_true, if_false, AFBC_PIXELS_PER_BLOCK,
        AFBC_HEADER_BUFFER_BYTES_PER_BLOCKENTRY, AFBC_BODY_BUFFER_BYTE_ALIGNMENT,
        e1, e2, e3, eH, k2, k3]

/-- C34 at 1920 x 1080 with 4 bytes per pixel, type AFBC, and at the largest request
16384 x 16384, type AFBC_PADDED, where the size is 2^30 + 2^24. -/
theorem C34_rgb_int32_exact_witness :
    get_rgb_stride_and_size_int32 1920 1080 4 ⟨some 0, some 0, some 0⟩ AllocType.AFBC
        = get_rgb_stride_and_size 1920 1080 4 ⟨some 0, some 0, some 0⟩ AllocType.AFBC
      ∧ (∀ v ∈ get_rgb_stride_and_size_values 16384 16384 4 AllocType.AFBC_PADDED,
          0 ≤ v ∧ v ≤ 2147483647)
      ∧ get_rgb_stride_and_size 16384 16384 4 ⟨some 0, some 0, some 0⟩
          AllocType.AFBC_PADDED
        = ⟨some 16384, some 65536, some 1090519040⟩ :=
  ⟨(C34_rgb_int32_exact 1920 1080 4 ⟨some 0, some 0, some 0⟩ AllocType.AFBC (by decide)
      (by decide) (by decide) (by decide) (by decide)).2.1,
   (C34_rgb_int32_exact 16384 16384 4 ⟨some 0, some 0, some 0⟩ AllocType.AFBC_PADDED
      (by decide) (by decide) (by decide) (by decide) (by decide)).1,
   by decide⟩

/-! ## The result callback of `GrallocMapper::isSupported` -/

/-- C35, evaluated where the code departs from it: on a descriptor info that
`validateDescriptorInfo` rejects, `GrallocMapper::isSupported` invokes the callback with
(Error::BAD_VALUE, false) and then, having no `return`, calls `common::isSupported` with
the same callback, so with a `common::isSupported` that reports once the callback is
invoked twice.  `GrallocMapper::validateBufferSize` on the same descriptor info returns
Error::BAD_VALUE without calling on.  Whatever the functions of `common` do,
`common::isSupported` is called on every request. -/
theorem C35_isSupported_reports_twice :
    sample_mapper_env.validateDescriptorInfo 0 = false
      ∧ GrallocMapper.isSupported sample_mapper_env 0
        = [MapperCall.hidl_cb Error.BAD_VALUE false, MapperCall.common_isSupported,
            MapperCall.hidl_cb Error.NONE true]
      ∧ ((GrallocMapper.isSupported sample_mapper_env 0).filter
          MapperCall.is_hidl_cb).length = 2
      ∧ GrallocMapper.validateBufferSize sample_mapper_env 0 0 0 = (Error.BAD_VALUE, false)
      ∧ GrallocMapper.isSupported sample_mapper_env 1
        = [MapperCall.common_isSupported, MapperCall.hidl_cb Error.NONE true]
      ∧ (∀ (D B : Type) (common : MapperEnv D B) (description : D),
          MapperCall.common_isSupported ∈ GrallocMapper.isSupported common description) := by
  refine ⟨by decide, by decide, by decide, by decide, by decide, ?_⟩
  intro D B common description
  simp [GrallocMapper.isSupported]


/-! ## The calculators in 32-bit arithmetic -/

/-- On a non-negative value that leaves room for the rounding, the 32-bit `GRALLOC_ALIGN`
with base 128 is the exact one. -/
theorem GRALLOC_ALIGN_int32_eq_128 (v : Int) (hv : 0 ≤ v) (hv2 : v ≤ 2147483520) :
    GRALLOC_ALIGN_int32 v 128 = GRALLOC_ALIGN v 128 := by
  unfold GRALLOC_ALIGN_int32 GRALLOC_ALIGN
  rw [show wrap32 ((128 : Int) - 1) = 128 - 1 from by decide,
    show wrap32 (~~~ ((128 : Int) - 1)) = ~~~ (128 - 1) from by decide,
    wrap32_eq (v + (128 - 1)) (by omega) (by omega)]

/-- The exact `GRALLOC_ALIGN` with base 128 of a value between 0 and `c * 128` stays
between the value and `c * 128`. -/
theorem GRALLOC_ALIGN_bounds_128 (v c : Int) (hv : 0 ≤ v) (hc : v ≤ c * 128) :
    v ≤ GRALLOC_ALIGN v 128 ∧ GRALLOC_ALIGN v 128 ≤ c * 128 := by
  rw [GRALLOC_ALIGN_128 _ hv, align_eq_div v 128 (by decide)]
  omega

/-- The header size of the block-compressed calculators, computed on 32-bit `int`s from
an aligned width up to 16384 and an aligned height up to 32768, is the exact one and at
most 2^25. -/
theorem header_int32_eq (wa ha : Int) (hw0 : 0 ≤ wa) (hw1 : wa ≤ 16384) (hh0 : 0 ≤ ha)
    (hh1 : ha ≤ 32768) :
    GRALLOC_ALIGN_int32
        (wrap32 (wrap32 (Int.tdiv (wrap32 (wrap32 (Int.tdiv wa 16) * ha)) 16) * 16)) 1024
      = GRALLOC_ALIGN (Int.tdiv (Int.tdiv wa 16 * ha) 16 * 16) 1024
    ∧ 0 ≤ GRALLOC_ALIGN (Int.tdiv (Int.tdiv wa 16 * ha) 16 * 16) 1024
    ∧ GRALLOC_ALIGN (Int.tdiv (Int.tdiv wa 16 * ha) 16 * 16) 1024 ≤ 33554432 := by
  have hq := tdiv16_bounds wa 1024 hw0 (by omega)
  have hqh := mul_bounds (Int.tdiv wa 16) ha 1024 32768 hq.1 hq.2 hh0 hh1
  have hnb := tdiv16_bounds (Int.tdiv wa 16 * ha) 2097152 hqh.1 (by omega)
  have hen0 : 0 ≤ Int.tdiv (Int.tdiv wa 16 * ha) 16 * 16 := by omega
  have hhd := GRALLOC_ALIGN_bounds (Int.tdiv (Int.tdiv wa 16 * ha) 16 * 16) 1024 32768
    (by decide) hen0 (by omega)
  refine ⟨?_, by omega, by omega⟩
  rw [wrap32_eq (Int.tdiv wa 16) (by omega) (by omega),
    wrap32_eq (Int.tdiv wa 16 * ha) (by omega) (by omega),
    wrap32_eq (Int.tdiv (Int.tdiv wa 16 * ha) 16) (by omega) (by omega),
    wrap32_eq (Int.tdiv (Int.tdiv wa 16 * ha) 16 * 16) (by omega) (by omega),
    GRALLOC_ALIGN_int32_eq _ 1024 (by decide) (by omega) (by omega)]

/-- The block-aligned width of the compressed YUV calculators on 32-bit `int`s, for a
width from 0 to 16384. -/
theorem block_width_int32_eq (width : Int) (type : AllocType) (hw0 : 0 ≤ width)
    (hw1 : width ≤ 16384) :
    (if type = AllocType.AFBC_WIDEBLK then GRALLOC_ALIGN_int32 width 32
      else GRALLOC_ALIGN_int32 width 16)
      = (if type = AllocType.AFBC_WIDEBLK then GRALLOC_ALIGN width 32
        else GRALLOC_ALIGN width 16)
    ∧ width ≤ (if type = AllocType.AFBC_WIDEBLK then GRALLOC_ALIGN width 32
        else GRALLOC_ALIGN width 16)
    ∧ (if type = AllocType.AFBC_WIDEBLK then GRALLOC_ALIGN width 32
        else GRALLOC_ALIGN width 16) ≤ 16384 := by
  have h32 := GRALLOC_ALIGN_bounds width 32 512 (by decide) hw0 (by omega)
  have h16 := GRALLOC_ALIGN_bounds width 16 1024 (by decide) hw0 (by omega)
  have e32 := GRALLOC_ALIGN_int32_eq width 32 (by decide) hw0 (by omega)
  have e16 := GRALLOC_ALIGN_int32_eq width 16 (by decide) hw0 (by omega)
  simp only [e32, e16]
  split_ifs
  · exact ⟨trivial, h32.1, by omega⟩
  · exact ⟨trivial, h16.1, by omega⟩

/-- The values of `width * 4`, its stride of alignment 128 and the stride times a height,
for a width and height from 0 to 16384, on 32-bit `int`s. -/
theorem packed_stride_int32_eq (width height k : Int) (hw0 : 0 ≤ width) (hw1 : width ≤ 16384)
    (hh0 : 0 ≤ height) (hh1 : height ≤ 16384) (hk : k = 2 ∨ k = 4) :
    wrap32 (width * k) = width * k
      ∧ GRALLOC_ALIGN_int32 (width * k) 128 = GRALLOC_ALIGN (width * k) 128
      ∧ wrap32 (GRALLOC_ALIGN (width * k) 128 * height)
        = GRALLOC_ALIGN (width * k) 128 * height
      ∧ 0 ≤ GRALLOC_ALIGN (width * k) 128 * height
      ∧ GRALLOC_ALIGN (width * k) 128 * height ≤ 268435456 * k
      ∧ GRALLOC_ALIGN_int32 width 128 = GRALLOC_ALIGN width 128 := by
  rcases hk with h | h <;> subst h
  · have b := GRALLOC_ALIGN_bounds_128 (width * 2) 256 (by omega) (by omega)
    have m := mul_bounds (GRALLOC_ALIGN (width * 2) 128) height (256 * 128) 16384
      (by omega) b.2 hh0 hh1
    exact ⟨wrap32_eq _ (by omega) (by omega),
      GRALLOC_ALIGN_int32_eq_128 _ (by omega) (by omega),
      wrap32_eq _ (by omega) (by omega), m.1, by omega,
      GRALLOC_ALIGN_int32_eq_128 _ hw0 (by omega)⟩
  · have b := GRALLOC_ALIGN_bounds_128 (width * 4) 512 (by omega) (by omega)
    have m := mul_bounds (GRALLOC_ALIGN (width * 4) 128) height (512 * 128) 16384
      (by omega) b.2 hh0 hh1
    exact ⟨wrap32_eq _ (by omega) (by omega),
      GRALLOC_ALIGN_int32_eq_128 _ (by omega) (by omega),
      wrap32_eq _ (by omega) (by omega), m.1, by omega,
      GRALLOC_ALIGN_int32_eq_128 _ hw0 (by omega)⟩

/-- For a width and height from 0 to 16384, the 32-bit computation of
`get_yuv_y410_stride_and_size` is the exact one. -/
theorem y410_int32_eq (width height : Int) (o : Outs) (hw0 : 0 ≤ width) (hw1 : width ≤ 16384)
    (hh0 : 0 ≤ height) (hh1 : height ≤ 16384) :
    get_yuv_y410_stride_and_size_int32 width height o
      = get_yuv_y410_stride_and_size width height o := by
  obtain ⟨e1, e2, e3, -, -, e4⟩ :=
    packed_stride_int32_eq width height 4 hw0 hw1 hh0 hh1 (Or.inr rfl)
  simp only [get_yuv_y410_stride_and_size_int32, get_yuv_y410_stride_and_size,
    YUV_MALI_PLANE_ALIGN, e1, e2, e3, e4]

/-- Whether `get_yuv_y210_stride_and_size` succeeds does not depend on the arithmetic. -/
theorem y210_int32_ret (width height : Int) (o : Outs) :
    (get_yuv_y210_stride_and_size_int32 width height o).ret
      = (get_yuv_y210_stride_and_size width height o).ret := by
  unfold get_yuv_y210_stride_and_size_int32 get_yuv_y210_stride_and_size
  split_ifs <;> rfl

/-- For a width and height from 0 to 16384, the 32-bit computation of
`get_yuv_y210_stride_and_size` is the exact one. -/
theorem y210_int32_eq (width height : Int) (o : Outs) (hw0 : 0 ≤ width) (hw1 : width ≤ 16384)
    (hh0 : 0 ≤ height) (hh1 : height ≤ 16384) :
    get_yuv_y210_stride_and_size_int32 width height o
      = get_yuv_y210_stride_and_size width height o := by
  obtain ⟨e1, e2, e3, -, -, e4⟩ :=
    packed_stride_int32_eq width height 4 hw0 hw1 hh0 hh1 (Or.inr rfl)
  simp only [get_yuv_y210_stride_and_size_int32, get_yuv_y210_stride_and_size,
    YUV_MALI_PLANE_ALIGN, e1, e2, e3, e4]

/-- Whether `get_yuv_y0l2_stride_and_size` succeeds does not depend on the arithmetic. -/
theorem y0l2_int32_ret (width height : Int) (o : Outs) :
    (get_yuv_y0l2_stride_and_size_int32 width height o).ret
      = (get_yuv_y0l2_stride_and_size width height o).ret := by
  unfold get_yuv_y0l2_stride_and_size_int32 get_yuv_y0l2_stride_and_size
  split_ifs <;> rfl

/-- For a width and height from 0 to 16384, the 32-bit computation of
`get_yuv_y0l2_stride_and_size` is the exact one. -/
theorem y0l2_int32_eq (width height : Int) (o : Outs) (hw0 : 0 ≤ width) (hw1 : width ≤ 16384)
    (hh0 : 0 ≤ height) (hh1 : height ≤ 16384) :
    get_yuv_y0l2_stride_and_size_int32 width height o
      = get_yuv_y0l2_stride_and_size width height o := by
  have hq := tdiv_bounds height 2 hh0 (by decide)
  obtain ⟨e1, e2, e3, -, -, -⟩ :=
    packed_stride_int32_eq width (Int.tdiv height 2) 4 hw0 hw1 hq.1 (by omega) (Or.inr rfl)
  have e0 := wrap32_eq (Int.tdiv height 2) (by omega) (by omega)
  simp only [get_yuv_y0l2_stride_and_size_int32, get_yuv_y0l2_stride_and_size,
    YUV_MALI_PLANE_ALIGN, e0, e1, e2, e3]

/-- Whether `get_afbc_yuv420_8bit_stride_and_size` succeeds does not depend on the
arithmetic. -/
theorem afbc420_int32_ret (extra : Bool) (width height : Int) (o : Outs) (type : AllocType)
    (internalHeight : Int) :
    (get_afbc_yuv420_8bit_stride_and_size_int32 extra width height o type internalHeight).ret
      = (get_afbc_yuv420_8bit_stride_and_size extra width height o type internalHeight).ret := by
  unfold get_afbc_yuv420_8bit_stride_and_size_int32 get_afbc_yuv420_8bit_stride_and_size
  split_ifs <;> rfl

/-- Whether `get_yv12_stride_and_size` succeeds does not depend on the arithmetic. -/
theorem yv12_int32_ret (extra : Bool) (width height : Int) (o : Outs) (type : AllocType)
    (internalHeight stride_alignment : Int) :
    (get_yv12_stride_and_size_int32 extra width height o type internalHeight
        stride_alignment).ret
      = (get_yv12_stride_and_size extra width height o type internalHeight
        stride_alignment).ret := by
  unfold get_yv12_stride_and_size_int32 get_yv12_stride_and_size
  split_ifs
  · rfl
  · exact afbc420_int32_ret extra width height o type internalHeight
  · rfl

/-- For a width and height from 0 to 16384 and stride alignment 16 or 128, the 32-bit
computation of `get_yv12_stride_and_size` with type UNCOMPRESSED is the exact one. -/
theorem yv12_int32_eq (extra : Bool) (width height : Int) (o : Outs)
    (internalHeight stride_alignment : Int) (hw0 : 0 ≤ width) (hw1 : width ≤ 16384)
    (hh0 : 0 ≤ height) (hh1 : height ≤ 16384)
    (ha : stride_alignment = 16 ∨ stride_alignment = 128) :
    get_yv12_stride_and_size_int32 extra width height o AllocType.UNCOMPRESSED
        internalHeight stride_alignment
      = get_yv12_stride_and_size extra width height o AllocType.UNCOMPRESSED
        internalHeight stride_alignment := by
  rcases ha with h | h <;> subst h
  · have bl := GRALLOC_ALIGN_bounds width 16 1024 (by decide) hw0 (by omega)
    have el := GRALLOC_ALIGN_int32_eq width 16 (by decide) hw0 (by omega)
    have hq := tdiv_bounds (GRALLOC_ALIGN width 16) 2 (by omega) (by decide)
    have hq1 : Int.tdiv (GRALLOC_ALIGN width 16) 2 ≤ 8192 := by
      rw [Int.tdiv_eq_ediv (by omega) (by decide)]
      omega
    have eq := wrap32_eq (Int.tdiv (GRALLOC_ALIGN width 16) 2) (by omega) (by omega)
    have bc := GRALLOC_ALIGN_bounds (Int.tdiv (GRALLOC_ALIGN width 16) 2) 16 512
      (by decide) hq.1 (by omega)
    have ec := GRALLOC_ALIGN_int32_eq (Int.tdiv (GRALLOC_ALIGN width 16) 2) 16 (by decide)
      hq.1 (by omega)
    have es := wrap32_eq (GRALLOC_ALIGN width 16
      + GRALLOC_ALIGN (Int.tdiv (GRALLOC_ALIGN width 16) 2) 16) (by omega) (by omega)
    have bm := mul_bounds height (GRALLOC_ALIGN width 16
      + GRALLOC_ALIGN (Int.tdiv (GRALLOC_ALIGN width 16) 2) 16) 16384 24576 hh0 hh1
      (by omega) (by omega)
    have em := wrap32_eq (height * (GRALLOC_ALIGN width 16
      + GRALLOC_ALIGN (Int.tdiv (GRALLOC_ALIGN width 16) 2) 16)) (by omega) (by omega)
    simp only [get_yv12_stride_and_size_int32, get_yv12_stride_and_size, ne_eq,
      not_true_eq_false, if_false, el, eq, ec, es, em]
  · have bl := GRALLOC_ALIGN_bounds_128 width 128 hw0 (by omega)
    have el := GRALLOC_ALIGN_int32_eq_128 width hw0 (by omega)
    have hq := tdiv_bounds (GRALLOC_ALIGN width 128) 2 (by omega) (by decide)
    have hq1 : Int.tdiv (GRALLOC_ALIGN width 128) 2 ≤ 8192 := by
      rw [Int.tdiv_eq_ediv (by omega) (by decide)]
      omega
    have eq := wrap32_eq (Int.tdiv (GRALLOC_ALIGN width 128) 2) (by omega) (by omega)
    have bc := GRALLOC_ALIGN_bounds_128 (Int.tdiv (GRALLOC_ALIGN width 128) 2) 64
      hq.1 (by omega)
    have ec := GRALLOC_ALIGN_int32_eq_128 (Int.tdiv (GRALLOC_ALIGN width 128) 2)
      hq.1 (by omega)
    have es := wrap32_eq (GRALLOC_ALIGN width 128
      + GRALLOC_ALIGN (Int.tdiv (GRALLOC_ALIGN width 128) 2) 128) (by omega) (by omega)
    have bm := mul_bounds height (GRALLOC_ALIGN width 128
      + GRALLOC_ALIGN (Int.tdiv (GRALLOC_ALIGN width 128) 2) 128) 16384 24576 hh0 hh1
      (by omega) (by omega)
    have em := wrap32_eq (height * (GRALLOC_ALIGN width 128
      + GRALLOC_ALIGN (Int.tdiv (GRALLOC_ALIGN width 128) 2) 128)) (by omega) (by omega)
    simp only [get_yv12_stride_and_size_int32, get_yv12_stride_and_size, ne_eq,
      not_true_eq_false, if_false, el, eq, ec, es, em]

/-- Whether `get_afbc_yuv422_8bit_stride_and_size` succeeds does not depend on the
arithmetic. -/
theorem afbc422_int32_ret (width height : Int) (o : Outs) (type : AllocType) :
    (get_afbc_yuv422_8bit_stride_and_size_int32 width height o type).ret
      = (get_afbc_yuv422_8bit_stride_and_size width height o type).ret := by
  unfold get_afbc_yuv422_8bit_stride_and_size_int32 get_afbc_yuv422_8bit_stride_and_size
  split_ifs <;> rfl

/-- The strides and size of `get_yuv420_10bit_afbc_stride_and_size` on 32-bit `int`s, from
an aligned width and height up to 16384. -/
theorem yuv420_10bit_tail_int32 (wa ha : Int) (hw0 : 0 ≤ wa) (hw1 : wa ≤ 16384)
    (hh0 : 0 ≤ ha) (hh1 : ha ≤ 16384) :
    GRALLOC_ALIGN_int32 wa 16 = GRALLOC_ALIGN wa 16
      ∧ wrap32 (wa * 4) = wa * 4
      ∧ GRALLOC_ALIGN_int32 (wa * 4) 16 = GRALLOC_ALIGN (wa * 4) 16
      ∧ wrap32 (GRALLOC_ALIGN (wa * 4) 16 * ha) = GRALLOC_ALIGN (wa * 4) 16 * ha
      ∧ wrap32 (GRALLOC_ALIGN (wa * 4) 16 * ha
          + GRALLOC_ALIGN (Int.tdiv (Int.tdiv wa 16 * ha) 16 * 16) 1024)
        = GRALLOC_ALIGN (wa * 4) 16 * ha
          + GRALLOC_ALIGN (Int.tdiv (Int.tdiv wa 16 * ha) 16 * 16) 1024 := by
  obtain ⟨-, hd0, hd1⟩ := header_int32_eq wa ha hw0 hw1 hh0 (by omega)
  have bs := GRALLOC_ALIGN_bounds (wa * 4) 16 4096 (by decide) (by omega) (by omega)
  have bm := mul_bounds (GRALLOC_ALIGN (wa * 4) 16) ha 65536 16384 (by omega) (by omega)
    hh0 hh1
  exact ⟨GRALLOC_ALIGN_int32_eq wa 16 (by decide) hw0 (by omega),
    wrap32_eq _ (by omega) (by omega),
    GRALLOC_ALIGN_int32_eq _ 16 (by decide) (by omega) (by omega),
    wrap32_eq _ (by omega) (by omega), wrap32_eq _ (by omega) (by omega)⟩

/-- Whether `get_yuv420_10bit_afbc_stride_and_size` succeeds does not depend on the
arithmetic. -/
theorem yuv420_10bit_int32_ret (width height : Int) (o : Outs) (type : AllocType) :
    (get_yuv420_10bit_afbc_stride_and_size_int32 width height o type).ret
      = (get_yuv420_10bit_afbc_stride_and_size width height o type).ret := by
  unfold get_yuv420_10bit_afbc_stride_and_size_int32 get_yuv420_10bit_afbc_stride_and_size
  split_ifs <;> rfl

/-- For a width and height from 0 to 16384, the 32-bit computation of
`get_yuv420_10bit_afbc_stride_and_size` is the exact one. -/
theorem yuv420_10bit_int32_eq (width height : Int) (o : Outs) (type : AllocType)
    (hw0 : 0 ≤ width) (hw1 : width ≤ 16384) (hh0 : 0 ≤ height) (hh1 : height ≤ 16384) :
    get_yuv420_10bit_afbc_stride_and_size_int32 width height o type
      = get_yuv420_10bit_afbc_stride_and_size width height o type := by
  by_cases h0 : int_and width 3 ≠ 0
  · unfold get_yuv420_10bit_afbc_stride_and_size_int32
      get_yuv420_10bit_afbc_stride_and_size
    rw [if_pos h0, if_pos h0]
  · by_cases h1 : type = AllocType.UNCOMPRESSED
    · simp only [get_yuv420_10bit_afbc_stride_and_size_int32,
        get_yuv420_10bit_afbc_stride_and_size, h0, h1, if_true, if_false]
    · by_cases h2 : type = AllocType.AFBC_PADDED
      · simp only [get_yuv420_10bit_afbc_stride_and_size_int32,
          get_yuv420_10bit_afbc_stride_and_size, h0, h2, if_true, reduceCtorEq, if_false]
      · obtain ⟨ew, bw0, bw1⟩ := block_width_int32_eq width type hw0 hw1
        have hq := tdiv_bounds height 2 hh0 (by decide)
        have eq := wrap32_eq (Int.tdiv height 2) (by omega) (by omega)
        have bh := GRALLOC_ALIGN_bounds (Int.tdiv height 2) 16 1024 (by decide) hq.1
          (by omega)
        have eh := GRALLOC_ALIGN_int32_eq (Int.tdiv height 2) 16 (by decide) hq.1 (by omega)
        obtain ⟨eH, -, -⟩ := header_int32_eq _ (GRALLOC_ALIGN (Int.tdiv height 2) 16)
          (le_trans hw0 bw0) bw1 (le_trans hq.1 bh.1) (by omega)
        obtain ⟨t1, t2, t3, t4, t5⟩ := yuv420_10bit_tail_int32 _
          (GRALLOC_ALIGN (Int.tdiv height 2) 16) (le_trans hw0 bw0) bw1
          (le_trans hq.1 bh.1) (by omega)
        simp only [get_yuv420_10bit_afbc_stride_and_size_int32,
          get_yuv420_10bit_afbc_stride_and_size, h0, h1, h2, if_false,
          AFBC_WIDEBLK_WIDTH_ALIGN, AFBC_PIXELS_PER_BLOCK,
          AFBC_HEADER_BUFFER_BYTES_PER_BLOCKENTRY, AFBC_BODY_BUFFER_BYTE_ALIGNMENT,
          ew, eq, eh, eH, t1, t2, t3, t4, t5]

/-- The strides and size of `get_yuv422_10bit_afbc_stride_and_size` on 32-bit `int`s, from
an aligned width and height up to 16384. -/
theorem yuv422_10bit_tail_int32 (wa ha : Int) (hw0 : 0 ≤ wa) (hw1 : wa ≤ 16384)
    (hh0 : 0 ≤ ha) (hh1 : ha ≤ 16384) :
    GRALLOC_ALIGN_int32 wa 16 = GRALLOC_ALIGN wa 16
      ∧ wrap32 (wa * 2) = wa * 2
      ∧ GRALLOC_ALIGN_int32 (wa * 2) 16 = GRALLOC_ALIGN (wa * 2) 16
      ∧ wrap32 (GRALLOC_ALIGN (wa * 2) 16 * ha) = GRALLOC_ALIGN (wa * 2) 16 * ha
      ∧ wrap32 (GRALLOC_ALIGN (wa * 2) 16 * ha * 2) = GRALLOC_ALIGN (wa * 2) 16 * ha * 2
      ∧ wrap32 (GRALLOC_ALIGN (wa * 2) 16 * ha * 2
          + GRALLOC_ALIGN (Int.tdiv (Int.tdiv wa 16 * ha) 16 * 16) 1024)
        = GRALLOC_ALIGN (wa * 2) 16 * ha * 2
          + GRALLOC_ALIGN (Int.tdiv (Int.tdiv wa 16 * ha) 16 * 16) 1024 := by
  obtain ⟨-, hd0, hd1⟩ := header_int32_eq wa ha hw0 hw1 hh0 (by omega)
  have bs := GRALLOC_ALIGN_bounds (wa * 2) 16 2048 (by decide) (by omega) (by omega)
  have bm := mul_bounds (GRALLOC_ALIGN (wa * 2) 16) ha 32768 16384 (by omega) (by omega)
    hh0 hh1
  exact ⟨GRALLOC_ALIGN_int32_eq wa 16 (by decide) hw0 (by omega),
    wrap32_eq _ (by omega) (by omega),
    GRALLOC_ALIGN_int32_eq _ 16 (by decide) (by omega) (by omega),
    wrap32_eq _ (by omega) (by omega), wrap32_eq _ (by omega) (by omega),
    wrap32_eq _ (by omega) (by omega)⟩

/-- Whether `get_yuv422_10bit_afbc_stride_and_size` succeeds does not depend on the
arithmetic. -/
theorem yuv422_10bit_int32_ret (width height : Int) (o : Outs) (type : AllocType) :
    (get_yuv422_10bit_afbc_stride_and_size_int32 width height o type).ret
      = (get_yuv422_10bit_afbc_stride_and_size width height o type).ret := by
  unfold get_yuv422_10bit_afbc_stride_and_size_int32 get_yuv422_10bit_afbc_stride_and_size
  split_ifs <;> rfl

/-- For a width and height from 0 to 16384, the 32-bit computation of
`get_yuv422_10bit_afbc_stride_and_size` is the exact one. -/
theorem yuv422_10bit_int32_eq (width height : Int) (o : Outs) (type : AllocType)
    (hw0 : 0 ≤ width) (hw1 : width ≤ 16384) (hh0 : 0 ≤ height) (hh1 : height ≤ 16384) :
    get_yuv422_10bit_afbc_stride_and_size_int32 width height o type
      = get_yuv422_10bit_afbc_stride_and_size width height o type := by
  by_cases h0 : int_and width 3 ≠ 0
  · unfold get_yuv422_10bit_afbc_stride_and_size_int32
      get_yuv422_10bit_afbc_stride_and_size
    rw [if_pos h0, if_pos h0]
  · by_cases h1 : type = AllocType.UNCOMPRESSED
    · simp only [get_yuv422_10bit_afbc_stride_and_size_int32,
        get_yuv422_10bit_afbc_stride_and_size, h0, h1, if_true, if_false]
    · by_cases h2 : type = AllocType.AFBC_PADDED
      · simp only [get_yuv422_10bit_afbc_stride_and_size_int32,
          get_yuv422_10bit_afbc_stride_and_size, h0, h2, if_true, reduceCtorEq, if_false]
      · obtain ⟨ew, bw0, bw1⟩ := block_width_int32_eq width type hw0 hw1
        have bh := GRALLOC_ALIGN_bounds height 16 1024 (by decide) hh0 (by omega)
        have eh := GRALLOC_ALIGN_int32_eq height 16 (by decide) hh0 (by omega)
        obtain ⟨eH, -, -⟩ := header_int32_eq _ (GRALLOC_ALIGN height 16)
          (le_trans hw0 bw0) bw1 (le_trans hh0 bh.1) (by omega)
        obtain ⟨t1, t2, t3, t4, t5, t6⟩ := yuv422_10bit_tail_int32 _
          (GRALLOC_ALIGN height 16) (le_trans hw0 bw0) bw1 (le_trans hh0 bh.1) (by omega)
        simp only [get_yuv422_10bit_afbc_stride_and_size_int32,
          get_yuv422_10bit_afbc_stride_and_size, h0, h1, h2, if_false,
          AFBC_WIDEBLK_WIDTH_ALIGN, AFBC_PIXELS_PER_BLOCK,
          AFBC_HEADER_BUFFER_BYTES_PER_BLOCKENTRY, AFBC_BODY_BUFFER_BYTE_ALIGNMENT,
          ew, eh, eH, t1, t2, t3, t4, t5, t6]

/-- For a width and height from 0 to 16384 and 2, 3 or 4 bytes per pixel, the 32-bit
computation of `get_rgb_stride_and_size` is the exact one. -/
theorem rgb_int32_eq (width height pixel_size : Int) (o : Outs) (type : AllocType)
    (hw0 : 0 ≤ width) (hw1 : width ≤ 16384) (hh0 : 0 ≤ height) (hh1 : height ≤ 16384)
    (hp : pixel_size = 2 ∨ pixel_size = 3 ∨ pixel_size = 4) :
    get_rgb_stride_and_size_int32 width height pixel_size o type
      = get_rgb_stride_and_size width height pixel_size o type := by
  have hp0 : 2 ≤ pixel_size := by rcases hp with h | h | h <;> omega
  have hp1 : pixel_size ≤ 4 := by rcases hp with h | h | h <;> omega
  obtain ⟨e1, e2, e3⟩ :=
    rgb_head_int32_eq width height pixel_size hw0 hw1 hh0 hh1 hp0 hp1
  have hH := GRALLOC_ALIGN_bounds height 16 1024 (by decide) hh0 (by omega)
  have eH : GRALLOC_ALIGN_int32 height 16 = GRALLOC_ALIGN height 16 :=
    GRALLOC_ALIGN_int32_eq height 16 (by decide) hh0 (by omega)
  have key : ∀ b : Int, (b = 16 ∨ b = 32 ∨ b = 64 ∨ b = 1024) → ∀ c : Int, 16384 = c * b →
      GRALLOC_ALIGN_int32 width b = GRALLOC_ALIGN width b
        ∧ wrap32 (wrap32 (wrap32 (GRALLOC_ALIGN width b * GRALLOC_ALIGN height 16)
              * pixel_size)
            + GRALLOC_ALIGN_int32
                (wrap32 (wrap32 (Int.tdiv (wrap32 (wrap32
                  (Int.tdiv (GRALLOC_ALIGN width b) 16) * GRALLOC_ALIGN height 16)) 16)
                  * 16)) 1024)
          = GRALLOC_ALIGN width b * GRALLOC_ALIGN height 16 * pixel_size
            + GRALLOC_ALIGN
              (Int.tdiv (Int.tdiv (GRALLOC_ALIGN width b) 16 * GRALLOC_ALIGN height 16) 16
                * 16) 1024 := by
    intro b hb c hc
    have hWa := GRALLOC_ALIGN_bounds width b c hb hw0 (by omega)
    exact ⟨GRALLOC_ALIGN_int32_eq width b hb hw0 (by omega),
      rgb_tail_int32_eq (GRALLOC_ALIGN width b) (GRALLOC_ALIGN height 16) pixel_size
        (le_trans hw0 hWa.1) (by omega) (le_trans hh0 hH.1) (by omega) hp0 hp1⟩
  cases type with
  | UNCOMPRESSED =>
    simp only [get_rgb_stride_and_size_int32, get_rgb_stride_and_size, ne_eq,
      not_true_eq_false, if_false, e1, e2, e3]
  | AFBC =>
    obtain ⟨k2, k3⟩ := key 16 (by decide) 1024 (by decide)
    simp only [get_rgb_stride_and_size_int32, get_rgb_stride_and_size, ne_eq,
      reduceCtorEq, not_false_eq_true, if_true, if_false, AFBC_PIXELS_PER_BLOCK,
      AFBC_HEADER_BUFFER_BYTES_PER_BLOCKENTRY, AFBC_BODY_BUFFER_BYTE_ALIGNMENT,
      e1, e2, e3, eH, k2, k3]
  | AFBC_WIDEBLK =>
    obtain ⟨k2, k3⟩ := key 32 (by decide) 512 (by decide)
    simp only [get_rgb_stride_and_size_int32, get_rgb_stride_and_size, ne_eq,
      reduceCtorEq, not_false_eq_true, if_true, if_false, AFBC_PIXELS_PER_BLOCK,
      AFBC_HEADER_BUFFER_BYTES_PER_BLOCKENTRY, AFBC_BODY_BUFFER_BYTE_ALIGNMENT,
      AFBC_WIDEBLK_WIDTH_ALIGN, e1, e2, e3, eH, k2, k3]
  | AFBC_PADDED =>
    obtain ⟨k2, k3⟩ := key 64 (by decide) 256 (by decide)
    simp only [get_rgb_stride_and_size_int32, get_rgb_stride_and_size, ne_eq,
      reduceCtorEq, not_false_eq_true, if_true, if_false, AFBC_PIXELS_PER_BLOCK,
      AFBC_HEADER_BUFFER_BYTES_PER_BLOCKENTRY, AFBC_BODY_BUFFER_BYTE_ALIGNMENT,
      e1, e2, e3, eH, k2, k3]

/-! ## Layout claims on the 32-bit computation -/

/-- C5 (as amended): for every width and height from 0 to 16384, pixel_size in {2, 3, 4}
and compressed type, `get_rgb_stride_and_size`, computed on 32-bit `int`s, stores
size = aligned_w * aligned_h * pixel_size + align(num_blocks * 16, 1024) with aligned_h =
align(height, 16), aligned_w = align(width, 16 / 32 / 64) for AFBC / AFBC_WIDEBLK /
AFBC_PADDED and num_blocks = (aligned_w / 16) * (aligned_h / 16), which is the value of
the source's `w_aligned / 16 * h_aligned / 16`. -/
theorem C5_rgb_compressed (width height pixel_size : Int) (o : Outs) (type : AllocType)
    (hw : 0 ≤ width) (hw1 : width ≤ 16384) (hh : 0 ≤ height) (hh1 : height ≤ 16384)
    (hp : pixel_size = 2 ∨ pixel_size = 3 ∨ pixel_size = 4)
    (ht : type ≠ AllocType.UNCOMPRESSED) :
    (get_rgb_stride_and_size_int32 width height pixel_size o type).size
        = store o.size (spec_rgb_afbc_size (align width (spec_block_width_align type))
            (align height 16) pixel_size)
      ∧ Int.tdiv (Int.tdiv (align width (spec_block_width_align type)) 16 * align height 16) 16
        = (align width (spec_block_width_align type) / 16) * (align height 16 / 16)
      ∧ spec_block_width_align AllocType.AFBC = 16
      ∧ spec_block_width_align AllocType.AFBC_WIDEBLK = 32
      ∧ spec_block_width_align AllocType.AFBC_PADDED = 64 := by
  rw [rgb_int32_eq width height pixel_size o type hw hw1 hh hh1 hp]
  exact rgb_compressed_exact width height pixel_size o type hw hh hp ht

/-- C5 (as amended) at 1920 x 1080, 4 bytes per pixel, type AFBC. -/
theorem C5_rgb_compressed_witness :
    (get_rgb_stride_and_size_int32 1920 1080 4 ⟨some 0, some 0, some 0⟩ AllocType.AFBC).size
        = store (some 0) (spec_rgb_afbc_size (align 1920 (spec_block_width_align
            AllocType.AFBC)) (align 1080 16) 4)
      ∧ spec_rgb_afbc_size (align 1920 (spec_block_width_align AllocType.AFBC))
          (align 1080 16) 4 = 8486912 :=
  ⟨(C5_rgb_compressed 1920 1080 4 ⟨some 0, some 0, some 0⟩ AllocType.AFBC (by decide)
      (by decide) (by decide) (by decide) (by decide) (by decide)).1, by decide⟩

/-- C5 as stated fails: at 32768 x 32768 with 4 bytes per pixel and type AFBC the formula
gives 4362076160, which a 32-bit `int` does not hold; `w_aligned * h_aligned * pixel_size`
computed on `int` is 0, and the size stored is the header alone, 67108864. -/
theorem C5_rgb_compressed_size_wraps :
    (get_rgb_stride_and_size_int32 32768 32768 4 ⟨some 0, some 0, some 0⟩
        AllocType.AFBC).size = some 67108864
      ∧ spec_rgb_afbc_size (align 32768 (spec_block_width_align AllocType.AFBC))
          (align 32768 16) 4 = 4362076160 := by
  decide

/-- C10 (as amended): for every width and height from 0 to 16384,
`get_yuv_y210_stride_and_size` (when it accepts the width) and
`get_yuv_y410_stride_and_size`, computed on 32-bit `int`s, store byte_stride =
align(width * 4, 128), pixel_stride = align(width, 128) and size = byte_stride * height;
the Y210 calculator returns false exactly when width is odd, and the Y410 calculator
always returns true. -/
theorem C10_yuv_y210_y410 (width height : Int) (o : Outs) :
    ((get_yuv_y210_stride_and_size_int32 width height o).ret = false ↔ width % 2 ≠ 0)
      ∧ (get_yuv_y410_stride_and_size_int32 width height o).ret = true
      ∧ (0 ≤ width → width ≤ 16384 → 0 ≤ height → height ≤ 16384 → width % 2 = 0 →
          get_yuv_y210_stride_and_size_int32 width height o
            = ⟨true,
                { pixel_stride := store o.pixel_stride (align width 128),
                  byte_stride := store o.byte_stride (align (width * 4) 128),
                  size := store o.size (align (width * 4) 128 * height) }⟩)
      ∧ (0 ≤ width → width ≤ 16384 → 0 ≤ height → height ≤ 16384 →
          get_yuv_y410_stride_and_size_int32 width height o
            = ⟨true,
                { pixel_stride := store o.pixel_stride (align width 128),
                  byte_stride := store o.byte_stride (align (width * 4) 128),
                  size := store o.size (align (width * 4) 128 * height) }⟩) := by
  refine ⟨?_, rfl, ?_, ?_⟩
  · rw [y210_int32_ret]
    exact (yuv_y210_y410_exact width height o).1
  · intro hw hw1 hh hh1 he
    rw [y210_int32_eq width height o hw hw1 hh hh1]
    exact (yuv_y210_y410_exact width height o).2.2.1 hw hh he
  · intro hw hw1 hh hh1
    rw [y410_int32_eq width height o hw hw1 hh hh1]
    exact (yuv_y210_y410_exact width height o).2.2.2 hw hh

/-- C10 (as amended) at 1280 x 720 for Y210 and at the odd width 1281 for Y410. -/
theorem C10_yuv_y210_y410_witness :
    get_yuv_y210_stride_and_size_int32 1280 720 ⟨some 0, some 0, some 0⟩
        = ⟨true,
            { pixel_stride := store (some 0) (align 1280 128),
              byte_stride := store (some 0) (align (1280 * 4) 128),
              size := store (some 0) (align (1280 * 4) 128 * 720) }⟩
      ∧ get_yuv_y410_stride_and_size_int32 1281 720 ⟨some 0, some 0, some 0⟩
        = ⟨true,
            { pixel_stride := store (some 0) (align 1281 128),
              byte_stride := store (some 0) (align (1281 * 4) 128),
              size := store (some 0) (align (1281 * 4) 128 * 720) }⟩ :=
  ⟨(C10_yuv_y210_y410 1280 720 ⟨some 0, some 0, some 0⟩).2.2.1 (by decide) (by decide)
      (by decide) (by decide) (by decide),
    (C10_yuv_y210_y410 1281 720 ⟨some 0, some 0, some 0⟩).2.2.2 (by decide) (by decide)
      (by decide) (by decide)⟩

/-- C10 as stated fails: at 32768 x 32768 the byte stride is 131072 and
byte_stride * height is 4294967296, which a 32-bit `int` does not hold; both calculators
store the size 0. -/
theorem C10_yuv_y210_y410_size_wraps :
    get_yuv_y210_stride_and_size_int32 32768 32768 ⟨some 0, some 0, some 0⟩
        = ⟨true, ⟨some 32768, some 131072, some 0⟩⟩
      ∧ get_yuv_y410_stride_and_size_int32 32768 32768 ⟨some 0, some 0, some 0⟩
        = ⟨true, ⟨some 32768, some 131072, some 0⟩⟩
      ∧ align (32768 * 4) 128 * 32768 = (4294967296 : Int) := by
  decide

/-- C11 (as amended): `get_yuv_y0l2_stride_and_size`, computed on 32-bit `int`s, returns
false exactly when width is not a multiple of 4, whatever the height; otherwise, for
width and height from 0 to 16384, it stores byte_stride = align(width * 4, 128) and
size = byte_stride * (height / 2), the quotient truncated (equal to the floor for
height >= 0); 8 x 5 gives byte_stride 128 and size 256. -/
theorem C11_yuv_y0l2 (width height : Int) (o : Outs) :
    ((get_yuv_y0l2_stride_and_size_int32 width height o).ret = false ↔ width % 4 ≠ 0)
      ∧ (width % 4 = 0 → 0 ≤ width → width ≤ 16384 → 0 ≤ height → height ≤ 16384 →
          (get_yuv_y0l2_stride_and_size_int32 width height o).ret = true
          ∧ (get_yuv_y0l2_stride_and_size_int32 width height o).outs.byte_stride
            = store o.byte_stride (align (width * 4) 128)
          ∧ (get_yuv_y0l2_stride_and_size_int32 width height o).outs.size
            = store o.size (align (width * 4) 128 * Int.tdiv height 2)
          ∧ Int.tdiv height 2 = height / 2)
      ∧ (get_yuv_y0l2_stride_and_size_int32 8 5 ⟨some 0, some 0, some 0⟩
          = ⟨true, ⟨some 128, some 128, some 256⟩⟩) := by
  refine ⟨?_, ?_, by decide⟩
  · rw [y0l2_int32_ret]
    exact (yuv_y0l2_exact width height o).1
  · intro h4 hw hw1 hh hh1
    rw [y0l2_int32_eq width height o hw hw1 hh hh1]
    exact (yuv_y0l2_exact width height o).2.1 h4 hw hh

/-- C11 (as amended) at 1920 x 1081: the odd height is accepted and halved to 540. -/
theorem C11_yuv_y0l2_witness :
    (get_yuv_y0l2_stride_and_size_int32 1920 1081 ⟨some 0, some 0, some 0⟩).ret = true
      ∧ (get_yuv_y0l2_stride_and_size_int32 1920 1081 ⟨some 0, some 0, some 0⟩).outs.byte_stride
        = store (some 0) (align (1920 * 4) 128)
      ∧ (get_yuv_y0l2_stride_and_size_int32 1920 1081 ⟨some 0, some 0, some 0⟩).outs.size
        = store (some 0) (align (1920 * 4) 128 * Int.tdiv 1081 2)
      ∧ Int.tdiv 1081 2 = 1081 / 2 :=
  (C11_yuv_y0l2 1920 1081 ⟨some 0, some 0, some 0⟩).2.1 (by decide) (by decide) (by decide)
    (by decide) (by decide)

/-- C11 as stated fails: at width 32768 and height 65536 the byte stride is 131072 and
byte_stride * (height / 2) is 4294967296, which a 32-bit `int` does not hold; the size
stored is 0. -/
theorem C11_yuv_y0l2_size_wraps :
    get_yuv_y0l2_stride_and_size_int32 32768 65536 ⟨some 0, some 0, some 0⟩
        = ⟨true, ⟨some 131072, some 131072, some 0⟩⟩
      ∧ align (32768 * 4) 128 * (65536 / 2) = (4294967296 : Int) := by
  decide

/-- The byte stride of the two 10-bit block-compressed calculators on 32-bit `int`s does
not depend on the height. -/
theorem afbc_10bit_int32_byte_stride_height (width height height2 : Int) (o : Outs)
    (type : AllocType) :
    (get_yuv420_10bit_afbc_stride_and_size_int32 width height o type).outs.byte_stride
        = (get_yuv420_10bit_afbc_stride_and_size_int32 width height2 o type).outs.byte_stride
      ∧ (get_yuv422_10bit_afbc_stride_and_size_int32 width height o type).outs.byte_stride
        = (get_yuv422_10bit_afbc_stride_and_size_int32 width height2 o type).outs.byte_stride := by
  unfold get_yuv420_10bit_afbc_stride_and_size_int32
    get_yuv422_10bit_afbc_stride_and_size_int32
  constructor <;> split_ifs <;> rfl

/-- C13 (as amended): for every width from 0 to 16384 that is a multiple of 4, every
height and type AFBC or AFBC_WIDEBLK, with W the width after block alignment (16 resp.
32), computed on 32-bit `int`s: `get_yuv420_10bit_afbc_stride_and_size` stores
byte_stride = align(W * 4, 16) = 4 * W, and `get_yuv422_10bit_afbc_stride_and_size` stores
byte_stride = align(W * 2, 16) = 2 * W. -/
theorem C13_10bit_afbc_byte_stride (width height : Int) (o : Outs) (type : AllocType)
    (hw : 0 ≤ width) (hw1 : width ≤ 16384) (h4 : width % 4 = 0)
    (ht : type = AllocType.AFBC ∨ type = AllocType.AFBC_WIDEBLK) :
    let W := align width (if type = AllocType.AFBC_WIDEBLK then 32 else 16)
    (get_yuv420_10bit_afbc_stride_and_size_int32 width height o type).outs.byte_stride
        = store o.byte_stride (align (W * 4) 16)
      ∧ align (W * 4) 16 = 4 * W
      ∧ (get_yuv422_10bit_afbc_stride_and_size_int32 width height o type).outs.byte_stride
        = store o.byte_stride (align (W * 2) 16)
      ∧ align (W * 2) 16 = 2 * W := by
  intro W
  have hx := afbc_10bit_byte_stride_exact width 0 o type hw h4 (le_refl 0) ht
  have hi := afbc_10bit_int32_byte_stride_height width height 0 o type
  rw [hi.1, hi.2, yuv420_10bit_int32_eq width 0 o type hw hw1 (le_refl 0) (by decide),
    yuv422_10bit_int32_eq width 0 o type hw hw1 (le_refl 0) (by decide)]
  exact hx

/-- C13 (as amended) at width 1920, type AFBC: byte strides 7680 (4:2:0) and 3840
(4:2:2). -/
theorem C13_10bit_afbc_byte_stride_witness :
    (get_yuv420_10bit_afbc_stride_and_size_int32 1920 1080 ⟨some 0, some 0, some 0⟩
        AllocType.AFBC).outs.byte_stride = some 7680
      ∧ (get_yuv422_10bit_afbc_stride_and_size_int32 1920 1080 ⟨some 0, some 0, some 0⟩
        AllocType.AFBC).outs.byte_stride = some 3840 :=
  ⟨(C13_10bit_afbc_byte_stride 1920 1080 ⟨some 0, some 0, some 0⟩ AllocType.AFBC
      (by decide) (by decide) (by decide) (by decide)).1,
    (C13_10bit_afbc_byte_stride 1920 1080 ⟨some 0, some 0, some 0⟩ AllocType.AFBC
      (by decide) (by decide) (by decide) (by decide)).2.2.1⟩

/-- C13 as stated fails for the 4:2:2 calculator: at width 16, height 16, type AFBC the
block-aligned width is W = 16 and align(W * 4, 16) = 64, but the calculator returns true
and stores byte_stride 32.  It also fails for the 4:2:0 calculator at width 2^29, where
W * 4 = 2^31 does not fit a 32-bit `int` and the byte stride stored is -2147483648. -/
theorem C13_yuv422_10bit_stride_is_not_4W :
    (16 : Int) % 4 = 0
      ∧ align 16 16 = 16
      ∧ align (align 16 16 * 4) 16 = 64
      ∧ get_yuv422_10bit_afbc_stride_and_size_int32 16 16 ⟨some 0, some 0, some 0⟩
          AllocType.AFBC
        = ⟨true, ⟨some 16, some 32, some 2048⟩⟩
      ∧ (get_yuv422_10bit_afbc_stride_and_size_int32 16 16 ⟨some 0, some 0, some 0⟩
          AllocType.AFBC).outs.byte_stride ≠ some (align (align 16 16 * 4) 16)
      ∧ (get_yuv420_10bit_afbc_stride_and_size_int32 536870912 16 ⟨some 0, some 0, some 0⟩
          AllocType.AFBC).outs.byte_stride = some (-2147483648)
      ∧ align (align 536870912 16 * 4) 16 = (2147483648 : Int) := by
  decide

/-- C14 (as amended): `get_yuv420_10bit_afbc_stride_and_size`, computed on 32-bit `int`s,
returns false exactly when width is not a multiple of 4 or the type is UNCOMPRESSED or
AFBC_PADDED; otherwise, for width and height from 0 to 16384, with W = align(width, 16
resp. 32) and H = align(height / 2, 16), the height halved with truncation before the
block alignment, it stores pixel_stride = W, byte_stride = 4 * W and
size = byte_stride * H + align((W / 16) * (H / 16) * 16, 1024). -/
theorem C14_yuv420_10bit_afbc (width height : Int) (o : Outs) (type : AllocType) :
    ((get_yuv420_10bit_afbc_stride_and_size_int32 width height o type).ret = false
        ↔ (width % 4 ≠ 0 ∨ type = AllocType.UNCOMPRESSED ∨ type = AllocType.AFBC_PADDED))
      ∧ (¬ (width % 4 ≠ 0 ∨ type = AllocType.UNCOMPRESSED ∨ type = AllocType.AFBC_PADDED) →
          0 ≤ width → width ≤ 16384 → 0 ≤ height → height ≤ 16384 →
          let W := align width (if type = AllocType.AFBC_WIDEBLK then 32 else 16)
          let H := align (Int.tdiv height 2) 16
          get_yuv420_10bit_afbc_stride_and_size_int32 width height o type
            = ⟨true,
                { pixel_stride := store o.pixel_stride W,
                  byte_stride := store o.byte_stride (4 * W),
                  size := store o.size (4 * W * H +
                    align ((W / 16) * (H / 16) * 16) 1024) }⟩) := by
  refine ⟨?_, ?_⟩
  · rw [yuv420_10bit_int32_ret]
    exact (yuv420_10bit_afbc_exact width height o type).1
  · intro hc hw hw1 hh hh1
    rw [yuv420_10bit_int32_eq width height o type hw hw1 hh hh1]
    exact (yuv420_10bit_afbc_exact width height o type).2 hc hw hh

/-- C14 (as amended) at 1920 x 1080, type AFBC: H = align(540, 16) = 544. -/
theorem C14_yuv420_10bit_afbc_witness :
    get_yuv420_10bit_afbc_stride_and_size_int32 1920 1080 ⟨some 0, some 0, some 0⟩
        AllocType.AFBC
      = ⟨true, ⟨some 1920, some 7680, some 4243456⟩⟩ :=
  (C14_yuv420_10bit_afbc 1920 1080 ⟨some 0, some 0, some 0⟩ AllocType.AFBC).2 (by decide)
    (by decide) (by decide) (by decide) (by decide)

/-- C14 as stated fails: at width 32768, height 65536 and type AFBC the formula gives
4362076160, which a 32-bit `int` does not hold; `byte_stride * height` computed on `int`
is 0 and the size stored is the header alone, 67108864. -/
theorem C14_yuv420_10bit_afbc_size_wraps :
    get_yuv420_10bit_afbc_stride_and_size_int32 32768 65536 ⟨some 0, some 0, some 0⟩
        AllocType.AFBC
      = ⟨true, ⟨some 32768, some 131072, some 67108864⟩⟩
      ∧ 4 * align 32768 16 * align (Int.tdiv 65536 2) 16
          + align ((align 32768 16 / 16) * (align (Int.tdiv 65536 2) 16 / 16) * 16) 1024
        = (4362076160 : Int) := by
  decide

/-- C31 (as amended): for every even width and even height from 0 to 16384 and
stride_alignment 16 or 128, `get_yv12_stride_and_size` with type UNCOMPRESSED, computed on
32-bit `int`s, succeeds and stores a size that is at least
width * height + 2 * (width / 2) * (height / 2), the bytes of the luma plane and the two
chroma planes, and a byte_stride that is at least width. -/
theorem C31_yv12_size_covers_planes (AFBC_YUV420_EXTRA_MB_ROW_NEEDED : Bool)
    (width height stride_alignment internalHeight : Int) (o : Outs)
    (hw : 0 ≤ width) (hw1 : width ≤ 16384) (hwe : width % 2 = 0)
    (hh : 0 ≤ height) (hh1 : height ≤ 16384) (hhe : height % 2 = 0)
    (ha : stride_alignment = 16 ∨ stride_alignment = 128) :
    ∃ size byte_stride : Int,
      (get_yv12_stride_and_size_int32 AFBC_YUV420_EXTRA_MB_ROW_NEEDED width height o
          AllocType.UNCOMPRESSED internalHeight stride_alignment).ret = true
        ∧ (get_yv12_stride_and_size_int32 AFBC_YUV420_EXTRA_MB_ROW_NEEDED width height o
          AllocType.UNCOMPRESSED internalHeight stride_alignment).outs.size
          = store o.size size
        ∧ (get_yv12_stride_and_size_int32 AFBC_YUV420_EXTRA_MB_ROW_NEEDED width height o
          AllocType.UNCOMPRESSED internalHeight stride_alignment).outs.byte_stride
          = store o.byte_stride byte_stride
        ∧ size ≥ width * height + 2 * (width / 2) * (height / 2)
        ∧ byte_stride ≥ width := by
  rw [yv12_int32_eq AFBC_YUV420_EXTRA_MB_ROW_NEEDED width height o internalHeight
    stride_alignment hw hw1 hh hh1 ha]
  exact yv12_size_covers_planes_exact AFBC_YUV420_EXTRA_MB_ROW_NEEDED width height
    stride_alignment internalHeight o hw hwe hh hhe ha

/-- C31 (as amended) at 176 x 144 with alignment 16: the size stored is 39168, the three
planes take 38016 bytes, and the byte stride 176 is the width. -/
theorem C31_yv12_size_covers_planes_witness :
    (∃ size byte_stride : Int,
      (get_yv12_stride_and_size_int32 false 176 144 ⟨some 0, some 0, some 0⟩
          AllocType.UNCOMPRESSED 144 16).ret = true
        ∧ (get_yv12_stride_and_size_int32 false 176 144 ⟨some 0, some 0, some 0⟩
          AllocType.UNCOMPRESSED 144 16).outs.size = store (some 0) size
        ∧ (get_yv12_stride_and_size_int32 false 176 144 ⟨some 0, some 0, some 0⟩
          AllocType.UNCOMPRESSED 144 16).outs.byte_stride = store (some 0) byte_stride
        ∧ size ≥ 176 * 144 + 2 * (176 / 2) * (144 / 2)
        ∧ byte_stride ≥ 176)
      ∧ get_yv12_stride_and_size_int32 false 176 144 ⟨some 0, some 0, some 0⟩
          AllocType.UNCOMPRESSED 144 16
        = ⟨true, ⟨some 176, some 176, some 39168⟩, 144⟩
      ∧ (176 * 144 + 2 * (176 / 2) * (144 / 2) : Int) = 38016 :=
  ⟨C31_yv12_size_covers_planes false 176 144 16 144 ⟨some 0, some 0, some 0⟩ (by decide)
    (by decide) (by decide) (by decide) (by decide) (by decide) (by decide), by decide,
    by decide⟩

/-- C31 as stated fails: at 53512 x 53512 with alignment 128 the planes take 4295301216
bytes, and height * (luma_stride + chroma_stride) computed on a 32-bit `int` is 13390848,
the size stored. -/
theorem C31_yv12_size_below_planes :
    (53512 : Int) % 2 = 0
      ∧ get_yv12_stride_and_size_int32 false 53512 53512 ⟨some 0, some 0, some 0⟩
          AllocType.UNCOMPRESSED 53512 128
        = ⟨true, ⟨some 53632, some 53632, some 13390848⟩, 53512⟩
      ∧ (53512 * 53512 + 2 * (53512 / 2) * (53512 / 2) : Int) = 4295301216
      ∧ (13390848 : Int) < 53512 * 53512 + 2 * (53512 / 2) * (53512 / 2) := by
  decide

/-- The byte stride and the pixel stride that `get_rgb_stride_and_size` stores when it
computes on 32-bit `int`s, for every height and type. -/
theorem rgb_int32_strides (width height pixel_size : Int) (o : Outs) (type : AllocType) :
    (get_rgb_stride_and_size_int32 width height pixel_size o type).byte_stride
        = store o.byte_stride (GRALLOC_ALIGN_int32 (wrap32 (width * pixel_size)) 64)
      ∧ (get_rgb_stride_and_size_int32 width height pixel_size o type).pixel_stride
        = store o.pixel_stride (wrap32
            (Int.tdiv (GRALLOC_ALIGN_int32 (wrap32 (width * pixel_size)) 64) pixel_size)) := by
  unfold get_rgb_stride_and_size_int32
  simp only
  split_ifs <;> exact ⟨rfl, rfl⟩

/-- C32 (as amended): in `get_rgb_stride_and_size`, computed on 32-bit `int`s, the pixel
stride stored is the truncated quotient byte_stride / pixel_size; for every width from 0
to 16384 it satisfies pixel_stride * pixel_size = byte_stride when pixel_size is 2 or 4,
and byte_stride - 2 <= pixel_stride * 3 <= byte_stride when pixel_size is 3; at width 1
and pixel_size 3 the byte stride is 64 and the pixel stride 21, so 21 * 3 < 64. -/
theorem C32_rgb_pixel_stride (width height pixel_size : Int) (o : Outs) (type : AllocType)
    (hw : 0 ≤ width) (hw1 : width ≤ 16384)
    (hp : pixel_size = 2 ∨ pixel_size = 3 ∨ pixel_size = 4) :
    (∃ byte_stride pixel_stride : Int,
      (get_rgb_stride_and_size_int32 width height pixel_size o type).byte_stride
          = store o.byte_stride byte_stride
        ∧ (get_rgb_stride_and_size_int32 width height pixel_size o type).pixel_stride
          = store o.pixel_stride pixel_stride
        ∧ pixel_stride = Int.tdiv byte_stride pixel_size
        ∧ (pixel_size = 2 ∨ pixel_size = 4 → pixel_stride * pixel_size = byte_stride)
        ∧ (pixel_size = 3 →
            byte_stride - 2 ≤ pixel_stride * 3 ∧ pixel_stride * 3 ≤ byte_stride))
      ∧ (get_rgb_stride_and_size_int32 1 height 3 ⟨some 0, some 0, some 0⟩ type).byte_stride
        = some 64
      ∧ (get_rgb_stride_and_size_int32 1 height 3 ⟨some 0, some 0, some 0⟩ type).pixel_stride
        = some 21
      ∧ (21 : Int) * 3 < 64 := by
  have hp0 : 2 ≤ pixel_size := by rcases hp with h | h | h <;> omega
  have hp1 : pixel_size ≤ 4 := by rcases hp with h | h | h <;> omega
  obtain ⟨e1, -, e3⟩ :=
    rgb_head_int32_eq width 0 pixel_size hw hw1 (le_refl 0) (by decide) hp0 hp1
  have hs := rgb_int32_strides width height pixel_size o type
  have hx := rgb_strides width height pixel_size o type
  rw [e1, e3] at hs
  rw [hs.1, hs.2, ← hx.1, ← hx.2]
  refine ⟨(rgb_pixel_stride_exact width height pixel_size o type hw).1, ?_, ?_, by decide⟩
  · rw [(rgb_int32_strides 1 height 3 ⟨some 0, some 0, some 0⟩ type).1]
    decide
  · rw [(rgb_int32_strides 1 height 3 ⟨some 0, some 0, some 0⟩ type).2]
    decide

/-- C32 (as amended) at width 100 with 3 bytes per pixel: strides 320 and 106
(106 * 3 = 318); with 4 bytes per pixel 448 and 112. -/
theorem C32_rgb_pixel_stride_witness :
    (∃ byte_stride pixel_stride : Int,
      (get_rgb_stride_and_size_int32 100 100 3 ⟨some 0, some 0, some 0⟩
          AllocType.UNCOMPRESSED).byte_stride = store (some 0) byte_stride
        ∧ (get_rgb_stride_and_size_int32 100 100 3 ⟨some 0, some 0, some 0⟩
          AllocType.UNCOMPRESSED).pixel_stride = store (some 0) pixel_stride
        ∧ pixel_stride = Int.tdiv byte_stride 3
        ∧ ((3 : Int) = 2 ∨ (3 : Int) = 4 → pixel_stride * 3 = byte_stride)
        ∧ ((3 : Int) = 3 →
            byte_stride - 2 ≤ pixel_stride * 3 ∧ pixel_stride * 3 ≤ byte_stride))
      ∧ get_rgb_stride_and_size_int32 100 100 3 ⟨some 0, some 0, some 0⟩
          AllocType.UNCOMPRESSED
        = ⟨some 106, some 320, some 32000⟩
      ∧ get_rgb_stride_and_size_int32 100 100 4 ⟨some 0, some 0, some 0⟩
          AllocType.UNCOMPRESSED
        = ⟨some 112, some 448, some 44800⟩ :=
  ⟨(C32_rgb_pixel_stride 100 100 3 ⟨some 0, some 0, some 0⟩ AllocType.UNCOMPRESSED
    (by decide) (by decide) (by decide)).1, by decide, by decide⟩

/-- C32 as stated fails: at width 2^30 with 3 bytes per pixel, `width * 3` computed on a
32-bit `int` is -1073741824; the byte stride stored is -1073741824 and the pixel stride
-357913941, and pixel_stride * 3 = -1073741823 is above the byte stride. -/
theorem C32_rgb_pixel_stride_wraps :
    (get_rgb_stride_and_size_int32 1073741824 1 3 ⟨some 0, some 0, some 0⟩
        AllocType.UNCOMPRESSED).byte_stride = some (-1073741824)
      ∧ (get_rgb_stride_and_size_int32 1073741824 1 3 ⟨some 0, some 0, some 0⟩
        AllocType.UNCOMPRESSED).pixel_stride = some (-357913941)
      ∧ ¬ ((-357913941 : Int) * 3 ≤ -1073741824) := by
  decide

/-- C33 (as amended): for pixel_size 4, every width and height from 0 to 16384 and every
compressed type, the size that `get_rgb_stride_and_size` stores, computed on 32-bit
`int`s, is at least the stored byte_stride times the height; for pixel_size 2 the bound
fails at width 16, height 1600, type AFBC, where the size is 53248 and
byte_stride * height is 64 * 1600 = 102400. -/
theorem C33_rgb_compressed_size_covers_lines (width height : Int) (o : Outs)
    (type : AllocType) (hw : 0 ≤ width) (hw1 : width ≤ 16384) (hh : 0 ≤ height)
    (hh1 : height ≤ 16384) (ht : type ≠ AllocType.UNCOMPRESSED) :
    (∃ size byte_stride : Int,
      (get_rgb_stride_and_size_int32 width height 4 o type).size = store o.size size
        ∧ (get_rgb_stride_and_size_int32 width height 4 o type).byte_stride
          = store o.byte_stride byte_stride
        ∧ size ≥ byte_stride * height)
      ∧ get_rgb_stride_and_size_int32 16 1600 2 ⟨some 0, some 0, some 0⟩ AllocType.AFBC
        = ⟨some 32, some 64, some 53248⟩
      ∧ (53248 : Int) < 64 * 1600 := by
  rw [rgb_int32_eq width height 4 o type hw hw1 hh hh1 (by decide)]
  exact ⟨(rgb_compressed_size_covers_lines_exact width height o type hw hh ht).1,
    by decide, by decide⟩

/-- C33 (as amended) at 100 x 100, type AFBC, 4 bytes per pixel: size 51200 against
byte_stride * height = 448 * 100. -/
theorem C33_rgb_compressed_size_covers_lines_witness :
    (∃ size byte_stride : Int,
      (get_rgb_stride_and_size_int32 100 100 4 ⟨some 0, some 0, some 0⟩
          AllocType.AFBC).size = store (some 0) size
        ∧ (get_rgb_stride_and_size_int32 100 100 4 ⟨some 0, some 0, some 0⟩
          AllocType.AFBC).byte_stride = store (some 0) byte_stride
        ∧ size ≥ byte_stride * 100)
      ∧ get_rgb_stride_and_size_int32 100 100 4 ⟨some 0, some 0, some 0⟩ AllocType.AFBC
        = ⟨some 112, some 448, some 51200⟩ :=
  ⟨(C33_rgb_compressed_size_covers_lines 100 100 ⟨some 0, some 0, some 0⟩ AllocType.AFBC
    (by decide) (by decide) (by decide) (by decide) (by decide)).1, by decide⟩

/-- C33 as stated fails: at 32768 x 32768 with 4 bytes per pixel and type AFBC the byte
stride stored is 131072 and the size stored 67108864 (the body
`w_aligned * h_aligned * pixel_size` computed on a 32-bit `int` is 0), less than
byte_stride * height = 4294967296. -/
theorem C33_rgb_size_below_lines :
    get_rgb_stride_and_size_int32 32768 32768 4 ⟨some 0, some 0, some 0⟩ AllocType.AFBC
        = ⟨some 32768, some 131072, some 67108864⟩
      ∧ (67108864 : Int) < 131072 * 32768 := by
  decide

/-! ## The handle mutex and the excluded wide-block case -/

/-- C18, evaluated where the code departs from it: `gralloc_drm_handle` returns with the
static non-recursive `handle_mutex` held, so on a structurally valid handle with ref = 5
the first acquire returns the handle with ref = 6 and the mutex locked, and the second
acquire does not return: its `pthread_mutex_lock` waits for a mutex that only a release
would unlock, so ref never reaches 7 and the sequence acquire, acquire, release, release
is not completed.  This holds for every handle: an acquire made while the mutex is held
does not return, and every acquire of a non-NULL handle leaves the mutex held.  The
alternating sequence acquire, release, acquire, release does run and ends with ref = 5,
every other field as before and the mutex free. -/
theorem C18_second_acquire_blocks :
    gralloc_drm_validate_handle sample_abi
        (some { sample_handle 1 0 64 64 with ref := 5 }) = 0
      ∧ gralloc_drm_handle_with_mutex sample_abi false
          (some { sample_handle 1 0 64 64 with ref := 5 })
        = some (⟨true, some { sample_handle 1 0 64 64 with ref := 6 },
            [Call.pthread_mutex_lock]⟩, true)
      ∧ gralloc_drm_handle_with_mutex sample_abi true
          (some { sample_handle 1 0 64 64 with ref := 6 }) = none
      ∧ (∀ (abi : HandleABI) (handle : gralloc_drm_handle_t),
          gralloc_drm_handle_with_mutex abi true (some handle) = none)
      ∧ (∀ (abi : HandleABI) (handle : gralloc_drm_handle_t),
          (gralloc_drm_handle_with_mutex abi false (some handle)).map Prod.snd = some true)
      ∧ gralloc_drm_unlock_handle_with_mutex true
          (some { sample_handle 1 0 64 64 with ref := 6 })
        = ((some { sample_handle 1 0 64 64 with ref := 5 }, [Call.pthread_mutex_unlock]),
            false)
      ∧ gralloc_drm_handle_with_mutex sample_abi false
          (some { sample_handle 1 0 64 64 with ref := 5 })
        = gralloc_drm_handle_with_mutex sample_abi
            (gralloc_drm_unlock_handle_with_mutex true
              (some { sample_handle 1 0 64 64 with ref := 6 })).2
            (gralloc_drm_unlock_handle_with_mutex true
              (some { sample_handle 1 0 64 64 with ref := 6 })).1.1 := by
  refine ⟨by decide, by decide, by decide, fun _ _ => rfl, fun _ _ => rfl, by decide,
    by decide⟩

/-- C28 (as amended) on the sample platform: RGBA_8888 with the AFBC bit gives AFBC,
with the AFBC_WIDEBLK bit AFBC_WIDEBLK, with GRALLOC_USAGE_PRIVATE_2 AFBC_PADDED, and
without compression bits UNCOMPRESSED. -/
theorem C28_alloc_type_witness :
    drm_gem_rockchip_alloc_type sample_platform 0x100000001 0 = some AllocType.AFBC
      ∧ drm_gem_rockchip_alloc_type sample_platform 0x400000001 0
        = some AllocType.AFBC_WIDEBLK
      ∧ drm_gem_rockchip_alloc_type sample_platform 0x400000001 0x40000000
        = some AllocType.AFBC_PADDED
      ∧ drm_gem_rockchip_alloc_type sample_platform 1 0 = some AllocType.UNCOMPRESSED :=
  ⟨(C28_alloc_type sample_platform 0x100000001 0).1.trans (by decide),
   (C28_alloc_type sample_platform 0x400000001 0).1.trans (by decide),
   (C28_alloc_type sample_platform 0x400000001 0x40000000).1.trans (by decide),
   (C28_alloc_type sample_platform 1 0).2.mpr (by decide)⟩

/-- C28 as stated fails: in a build where MALI_USE_YUV_AFBC_WIDEBLK is not 1, the
internal format YUV420_8BIT_AFBC with the ARM_AFBC_YUV and AFBC_WIDEBLK bits and a usage
without GRALLOC_USAGE_PRIVATE_2 is not given the type AFBC_WIDEBLK: line 744 returns
-EINVAL.  A format with the same compression bits and the same usage, without the
ARM_AFBC_YUV bits, is given AFBC_WIDEBLK, so the outcome is not a function of the
compression bits and the usage only. -/
theorem C28_wideblk_yuv_returns_minus_EINVAL :
    1 ≠ sample_platform.MALI_USE_YUV_AFBC_WIDEBLK
      ∧ 0x1400000105 &&& sample_platform.GRALLOC_ARM_INTFMT_AFBC_WIDEBLK ≠ 0
      ∧ int_and 0 sample_platform.GRALLOC_USAGE_PRIVATE_2 = 0
      ∧ drm_gem_rockchip_alloc_type sample_platform 0x1400000105 0 = none
      ∧ drm_gem_rockchip_alloc_layout sample_platform 0x1400000105 0 64 64
          ⟨some 0, some 0, some 0⟩ = LayoutStage.return_minus_EINVAL
      ∧ 0x1400000105 &&& (sample_platform.GRALLOC_ARM_INTFMT_AFBC
            ||| sample_platform.GRALLOC_ARM_INTFMT_AFBC_SPLITBLK
            ||| sample_platform.GRALLOC_ARM_INTFMT_AFBC_WIDEBLK)
        = 0x400000105 &&& (sample_platform.GRALLOC_ARM_INTFMT_AFBC
            ||| sample_platform.GRALLOC_ARM_INTFMT_AFBC_SPLITBLK
            ||| sample_platform.GRALLOC_ARM_INTFMT_AFBC_WIDEBLK)
      ∧ drm_gem_rockchip_alloc_type sample_platform 0x400000105 0
        = some AllocType.AFBC_WIDEBLK := by
  decide

end Gralloc
